import Mathlib

/-!
# Verification of the Sudoku solver `sdk_board.py`

Shallow embedding of the repository `williamQ96/blackbean`
(`src/Sudoku_Solver/sdk_board.py`).  Python symbols are modelled as natural
numbers; Python `set`s of symbols are modelled as `Finset Nat`; the mutable
`Board` (a matrix of `Tile`s) is modelled as a `List (List Tile)` threaded
through each operation; `Tile` methods that mutate a tile in place return the
updated tile (together with their Python return value, when there is one).

The observer/listener plumbing of the source (`Listenable`, `TileEvent`,
`notify_all`) is peripheral: it never reads or writes tile or board state, so
it is not part of the embedding.

Python iterates over `set` objects in an unspecified order; wherever the
source iterates over a set (`hidden_single`'s `for symbol in leftovers`,
`solve`'s `for i in a_guess.candidates`), the embedding iterates in ascending
order of the symbols.
-/

/-- Modelled from the spec: the module `sdk_config` is imported by
`sdk_board.py` but is not under `src/`.  Per the spec the alphabet is a fixed
set of `N` symbols with a distinguished `UNKNOWN` marker outside it,
classically the digits 1..9; we model the classic 9×9 configuration with
symbols `1..9` and `UNKNOWN = 0`. -/
def UNKNOWN : Nat := 0

/-- Modelled from the spec: the nine symbols of the classic alphabet. -/
def CHOICES : Finset Nat := {1, 2, 3, 4, 5, 6, 7, 8, 9}

/-- Modelled from the spec: number of rows of the board. -/
def NROWS : Nat := 9

/-- Modelled from the spec: number of columns of the board. -/
def NCOLS : Nat := 9

/-- Modelled from the spec: side length of a sub-block (`√N`). -/
def ROOT : Nat := 3

/-- One tile of the grid: `Tile.__init__` stores `row`, `col`, `value` and
`candidates` (the listener list is peripheral state, not modelled). -/
structure Tile where
  row : Nat
  col : Nat
  value : Nat
  candidates : Finset Nat
  deriving DecidableEq

/-- `Tile.set_value`: if the value is in `CHOICES` it becomes the tile's
value with singleton candidates, otherwise the tile becomes `UNKNOWN` with
the full alphabet as candidates. -/
def Tile.set_value (t : Tile) (value : Nat) : Tile :=
  if value ∈ CHOICES then
    { t with value := value, candidates := {value} }
  else
    { t with value := UNKNOWN, candidates := CHOICES }

/-- `Tile.__init__(row, col, value)`: fields are created and then
`set_value(value)` is called. -/
def Tile.init (row col value : Nat) : Tile :=
  Tile.set_value { row := row, col := col, value := UNKNOWN, candidates := ∅ } value

/-- `Tile.could_be`: membership in the candidate set. -/
def Tile.could_be (t : Tile) (value : Nat) : Bool :=
  value ∈ t.candidates

/-- The elements of a finite set of naturals in ascending order (every
element is below `s.sup id + 1`). -/
def sortedElems (s : Finset Nat) : List Nat :=
  (List.range (s.sup id + 1)).filter fun x => decide (x ∈ s)

/-- The element `set.pop()` returns from a one-element Python set. -/
def popOne (s : Finset Nat) : Nat :=
  (sortedElems s).headD 0

/-- `Tile.remove_candidate(used_values)`: returns the updated tile together
with the Python return value (whether any candidate was removed).  If the
difference leaves exactly one candidate, `set_value` is called with it. -/
def Tile.remove_candidate (t : Tile) (used_values : Finset Nat) : Tile × Bool :=
  let new_candidates := t.candidates \ used_values
  if new_candidates = t.candidates then (t, false)
  else
    let t1 : Tile := { t with candidates := new_candidates }
    if t1.candidates.card = 1 then (t1.set_value (popOne new_candidates), true)
    else (t1, true)

/-- A board is the matrix of tiles (`Board.tiles`). -/
abbrev Board := List (List Tile)

/-- Default tile used for (never exercised) out-of-range reads. -/
def defaultTile : Tile := { row := 0, col := 0, value := UNKNOWN, candidates := CHOICES }

/-- Read the tile at `(r, c)` (`self.tiles[r][c]`). -/
def getTile (b : Board) (r c : Nat) : Tile :=
  (b.getD r []).getD c defaultTile

/-- Write back the tile at `(r, c)` (in the source, tiles are mutated in
place; the embedding stores the updated tile at its position). -/
def setTile (b : Board) (r c : Nat) (t : Tile) : Board :=
  b.set r ((b.getD r []).set c t)

/-- All positions in row-major order (`for row ...: for col ...`). -/
def allPositions : List (Nat × Nat) :=
  (List.range NROWS).flatMap fun r => (List.range NCOLS).map fun c => (r, c)

/-- The row groups, in the order `Board.__init__` builds them. -/
def rowGroups : List (List (Nat × Nat)) :=
  (List.range NROWS).map fun r => (List.range NCOLS).map fun c => (r, c)

/-- The column groups. -/
def colGroups : List (List (Nat × Nat)) :=
  (List.range NCOLS).map fun c => (List.range NROWS).map fun r => (r, c)

/-- The sub-block groups, in row-major block order. -/
def blockGroups : List (List (Nat × Nat)) :=
  (List.range ROOT).flatMap fun block_row => (List.range ROOT).map fun block_col =>
    (List.range ROOT).flatMap fun row => (List.range ROOT).map fun col =>
      (ROOT * block_row + row, ROOT * block_col + col)

/-- `Board.groups`: rows, then columns, then sub-blocks.  In the source each
group is a list of aliased `Tile` references; tile identity is its position,
so the embedding stores positions. -/
def groups : List (List (Nat × Nat)) :=
  rowGroups ++ colGroups ++ blockGroups

/-- `Board.__init__`: a fresh 9×9 grid of `UNKNOWN` tiles. -/
def Board.init : Board :=
  (List.range NROWS).map fun row => (List.range NCOLS).map fun col =>
    Tile.init row col UNKNOWN

/-- `Board.set_tiles(tile_values)`: sets every tile's value, in row-major
order, via `Tile.set_value`. -/
def Board.set_tiles (b : Board) (tile_values : List (List Nat)) : Board :=
  allPositions.foldl
    (fun acc p =>
      setTile acc p.1 p.2
        ((getTile acc p.1 p.2).set_value ((tile_values.getD p.1 []).getD p.2 UNKNOWN)))
    b

/-- The non-`UNKNOWN` values of a group, in group order. -/
def groupValues (b : Board) (g : List (Nat × Nat)) : List Nat :=
  g.filterMap fun p =>
    let v := (getTile b p.1 p.2).value
    if v ≠ UNKNOWN then some v else none

/-- `Board.is_consistent`: no group contains a duplicated non-`UNKNOWN`
value. -/
def Board.is_consistent (b : Board) : Bool :=
  groups.all fun g => decide (groupValues b g).Nodup

/-- `Board.is_complete`: no tile is `UNKNOWN`. -/
def Board.is_complete (b : Board) : Bool :=
  b.all fun row => row.all fun t => t.value ≠ UNKNOWN

/-- `Board.min_choice_tile`: scan the grid in row-major order keeping the
first `UNKNOWN` tile with strictly fewer candidates than the current best
(the source keeps `current_min_choice` unless
`len(current_min_choice.candidates) > len(tile.candidates)`).  The source
returns the tile object (`None` when every tile is filled); the embedding
returns its position. -/
def mctStep (b : Board) (current : Option (Nat × Nat)) (p : Nat × Nat) : Option (Nat × Nat) :=
  let t := getTile b p.1 p.2
  if t.value = UNKNOWN then
    match current with
    | none => some p
    | some q =>
      if (getTile b q.1 q.2).candidates.card > t.candidates.card then some p
      else some q
  else current

def Board.min_choice_tile (b : Board) : Option (Nat × Nat) :=
  allPositions.foldl (mctStep b) none

/-- One step of `naked_single`'s second loop over a group: tiles that are
`UNKNOWN` get the group's used symbols removed. -/
def nakedStep (used : Finset Nat) (acc : Board × Bool) (p : Nat × Nat) : Board × Bool :=
  let t := getTile acc.1 p.1 p.2
  if t.value = UNKNOWN then
    let r := t.remove_candidate used
    if r.2 then (setTile acc.1 p.1 p.2 r.1, true) else acc
  else acc

/-- The used symbols of a group (first loop of `naked_single`). -/
def usedSymbols (b : Board) (g : List (Nat × Nat)) : Finset Nat :=
  g.foldl
    (fun used p =>
      let t := getTile b p.1 p.2
      if t.value ≠ UNKNOWN then insert t.value used else used)
    ∅

/-- Processing of one group by `naked_single`: compute the used symbols,
then remove them from each `UNKNOWN` tile of the group. -/
def nakedGroup (acc : Board × Bool) (g : List (Nat × Nat)) : Board × Bool :=
  g.foldl (nakedStep (usedSymbols acc.1 g)) acc

/-- `Board.naked_single`: for each group, remove the group's used symbols
from the candidates of its `UNKNOWN` tiles; returns whether any candidate was
crossed off. -/
def Board.naked_single (b : Board) : Board × Bool :=
  groups.foldl nakedGroup (b, false)

/-- The symbols not yet assigned in a group (`leftovers`). -/
def leftovers (b : Board) (g : List (Nat × Nat)) : Finset Nat :=
  g.foldl (fun lo p => lo.erase (getTile b p.1 p.2).value) CHOICES

/-- One step of `hidden_single`'s loop over a group's leftover symbols: if
exactly one `UNKNOWN` tile of the group admits the symbol, assign it. -/
def hiddenStep (g : List (Nat × Nat)) (acc : Board × Bool) (symbol : Nat) : Board × Bool :=
  let possible_tiles := g.filter fun p =>
    decide ((getTile acc.1 p.1 p.2).value = UNKNOWN ∧ symbol ∈ (getTile acc.1 p.1 p.2).candidates)
  match possible_tiles with
  | [p] => (setTile acc.1 p.1 p.2 ((getTile acc.1 p.1 p.2).set_value symbol), true)
  | _ => acc

/-- Processing of one group by `hidden_single`: compute the leftover
symbols, then try to place each of them. -/
def hiddenGroup (acc : Board × Bool) (g : List (Nat × Nat)) : Board × Bool :=
  (sortedElems (leftovers acc.1 g)).foldl (hiddenStep g) acc

/-- `Board.hidden_single`: for each group and each leftover symbol, if a
single `UNKNOWN` tile of the group can hold it, fill that tile. -/
def Board.hidden_single (b : Board) : Board × Bool :=
  groups.foldl hiddenGroup (b, false)

/-- Weight of one tile (candidate count, plus one while it is `UNKNOWN`);
every productive propagation round strictly decreases the total weight. -/
def tileWeight (t : Tile) : Nat :=
  t.candidates.card + (if t.value = UNKNOWN then 1 else 0)

/-- Total weight of the board, the termination measure of `propagate`. -/
def Board.mu (b : Board) : Nat :=
  (allPositions.map fun p => tileWeight (getTile b p.1 p.2)).sum

/-- The `while progress` loop of `Board.propagate`, with explicit fuel: each
round runs `naked_single`, and `hidden_single` only when `naked_single` made
no progress (the source's `progress or self.hidden_single()` short-circuits);
the loop exits when a round yields false from both. -/
def Board.propagateAux : Nat → Board → Board
  | 0, b => b
  | fuel + 1, b =>
    let r1 := b.naked_single
    if r1.2 then Board.propagateAux fuel r1.1
    else
      let r2 := r1.1.hidden_single
      if r2.2 then Board.propagateAux fuel r2.1 else r2.1

/-- `Board.propagate`: iterate to the common fixed point.  `mu b + 1` rounds
always suffice because every continuing round strictly decreases `mu`. -/
def Board.propagate (b : Board) : Board :=
  Board.propagateAux (b.mu + 1) b

/-- `Board.as_list`: the rows of values (the source joins each row of symbol
characters into a string; the embedding keeps the row as a list of
symbols). -/
def Board.as_list (b : Board) : List (List Nat) :=
  b.map fun row => row.map fun t => t.value

/-- The `for i in a_guess.candidates` loop of `Board.solve`: try each
candidate of the guess tile; on recursive failure restore the snapshot with
`set_tiles(state_saved)` and continue.  The recursive `solve` call is passed
in as `srec`. -/
def Board.solveLoop (srec : Board → Option (Bool × Board)) (gp : Nat × Nat)
    (state_saved : List (List Nat)) : List Nat → Board → Option (Bool × Board)
  | [], cur => some (false, cur)
  | i :: rest, cur =>
    let cur1 := setTile cur gp.1 gp.2 ((getTile cur gp.1 gp.2).set_value i)
    match srec cur1 with
    | none => none
    | some (true, b2) => some (true, b2)
    | some (false, b2) =>
      Board.solveLoop srec gp state_saved rest (Board.set_tiles b2 state_saved)

/-- `Board.solve` with explicit recursion fuel (`none` = fuel exhausted, so
every `some` result is the value the unbounded recursion computes): propagate,
then succeed or fail on a complete board, prune an inconsistent one, and
otherwise guess each candidate of `min_choice_tile` with snapshot/restore. -/
def Board.solveAux : Nat → Board → Option (Bool × Board)
  | 0, _ => none
  | fuel + 1, b =>
    let p := b.propagate
    if p.is_complete then some (p.is_consistent, p)
    else if p.is_consistent then
      match p.min_choice_tile with
      | none => none
      | some gp =>
        Board.solveLoop (Board.solveAux fuel) gp p.as_list
          (sortedElems (getTile p gp.1 gp.2).candidates) p
    else some (false, p)

/-- `Board.solve`: `mu b + 1` levels of recursion always suffice, since each
guess strictly decreases `mu`. -/
def Board.solve (b : Board) : Option (Bool × Board) :=
  Board.solveAux (b.mu + 1) b

/-- Invariant of the `min_choice_tile` scan: after processing the prefix `s`
of positions, `cur` is `none` when the prefix has no `UNKNOWN` tile, and
otherwise the first position of the prefix realising the minimal candidate
count among its `UNKNOWN` tiles. -/
def mctInv (b : Board) (s : List (Nat × Nat)) (cur : Option (Nat × Nat)) : Prop :=
  (cur = none ∧ ∀ q ∈ s, (getTile b q.1 q.2).value ≠ UNKNOWN) ∨
  (∃ p, cur = some p ∧ p ∈ s ∧ (getTile b p.1 p.2).value = UNKNOWN ∧
    (∀ q ∈ s, (getTile b q.1 q.2).value = UNKNOWN →
      (getTile b p.1 p.2).candidates.card ≤ (getTile b q.1 q.2).candidates.card) ∧
    ∃ s1 s2, s = s1 ++ p :: s2 ∧
      ∀ q ∈ s1, (getTile b q.1 q.2).value = UNKNOWN →
        (getTile b p.1 p.2).candidates.card < (getTile b q.1 q.2).candidates.card)

/-- The tile invariant of the spec: a decided value has exactly itself as
candidate. -/
def TileInv (t : Tile) : Prop := t.value ∈ CHOICES → t.candidates = {t.value}

instance (t : Tile) : Decidable (TileInv t) := by unfold TileInv; infer_instance

/-- The board-wide tile invariant. -/
def BoardInv (b : Board) : Prop := ∀ p ∈ allPositions, TileInv (getTile b p.1 p.2)

instance (b : Board) : Decidable (BoardInv b) := by unfold BoardInv; infer_instance

/-- One public mutation of a board, as performed by the program: `set_value`
or `remove_candidate` on one tile (the latter only on an `UNKNOWN` tile, the
only way the board's own passes ever call it), or a board-level pass. -/
inductive BoardStep : Board → Board → Prop where
  | set_value (b : Board) (r c v : Nat) :
      BoardStep b (setTile b r c ((getTile b r c).set_value v))
  | remove_candidate (b : Board) (r c : Nat) (used : Finset Nat)
      (h : (getTile b r c).value = UNKNOWN) :
      BoardStep b (setTile b r c ((getTile b r c).remove_candidate used).1)
  | set_tiles (b : Board) (vals : List (List Nat)) : BoardStep b (b.set_tiles vals)
  | naked_single (b : Board) : BoardStep b (Board.naked_single b).1
  | hidden_single (b : Board) : BoardStep b (Board.hidden_single b).1
  | propagate (b : Board) : BoardStep b b.propagate
  | solve (b : Board) (fuel : Nat) (r : Bool) (b2 : Board)
      (h : Board.solveAux fuel b = some (r, b2)) : BoardStep b b2

/-- Any sequence of public mutations. -/
inductive BoardReaches : Board → Board → Prop where
  | refl (b : Board) : BoardReaches b b
  | tail (b b2 b3 : Board) (h1 : BoardReaches b b2) (h2 : BoardStep b2 b3) :
      BoardReaches b b3

/-- Well-formed shape: the 9×9 grid every real `Board` has. -/
def shapeOK (b : Board) : Prop := b.length = NROWS ∧ ∀ row ∈ b, row.length = NCOLS

instance (b : Board) : Decidable (shapeOK b) := by unfold shapeOK; infer_instance

/-- Every tile value is `UNKNOWN` or an alphabet symbol (true of every
reachable board, since values are only written through `set_value`). -/
def valuesOK (b : Board) : Prop :=
  ∀ p ∈ allPositions, (getTile b p.1 p.2).value = UNKNOWN ∨ (getTile b p.1 p.2).value ∈ CHOICES

instance (b : Board) : Decidable (valuesOK b) := by unfold valuesOK; infer_instance

/-- Every candidate set is inside the alphabet (true of every reachable
board). -/
def candsOK (b : Board) : Prop :=
  ∀ p ∈ allPositions, (getTile b p.1 p.2).candidates ⊆ CHOICES

instance (b : Board) : Decidable (candsOK b) := by unfold candsOK; infer_instance

/-- One write of the `set_tiles` scan. -/
def stStep (vals : List (List Nat)) (acc : Board) (p : Nat × Nat) : Board :=
  setTile acc p.1 p.2
    ((getTile acc p.1 p.2).set_value ((vals.getD p.1 []).getD p.2 UNKNOWN))

/-- Invariant threaded through one propagation pass, relative to the board
`b` the pass started from: shape and candidate sanity are maintained, a pass
that has reported no progress has not changed the board, and a pass that has
reported progress has strictly decreased the measure `mu`. -/
def NInv (b : Board) (acc : Board × Bool) : Prop :=
  shapeOK acc.1 ∧ candsOK acc.1 ∧ (acc.2 = false → acc.1 = b) ∧
  Board.mu acc.1 + (if acc.2 = true then 1 else 0) ≤ Board.mu b

/-- Shape, value and candidate sanity bundled: true of every board the
program builds. -/
def WB (b : Board) : Prop := shapeOK b ∧ valuesOK b ∧ candsOK b

instance (b : Board) : Decidable (WB b) := by unfold WB; infer_instance

/-- Builds a tile literal: candidates given as an ascending element list. -/
def mkTile (r c v : Nat) (l : List Nat) : Tile := ⟨r, c, v, l.foldr insert ∅⟩

/-- The solvable 9×9 puzzle of the spec (and of the source's `__main__`),
rows top to bottom, `0` = UNKNOWN. -/
def sudokuGrid : List (List Nat) :=
  [[5, 3, 0, 0, 7, 0, 0, 0, 0],
   [6, 0, 0, 1, 9, 5, 0, 0, 0],
   [0, 9, 8, 0, 0, 0, 0, 6, 0],
   [8, 0, 0, 0, 6, 0, 0, 0, 3],
   [4, 0, 0, 8, 0, 3, 0, 0, 1],
   [7, 0, 0, 0, 2, 0, 0, 0, 6],
   [0, 6, 0, 0, 0, 0, 2, 8, 0],
   [0, 0, 0, 4, 1, 9, 0, 0, 5],
   [0, 0, 0, 0, 8, 0, 0, 7, 9]]

/-- Intermediate board literal of the staged `propagate` computation. -/
def SB0 : Board :=
  [   [mkTile 0 0 5 [5],
    mkTile 0 1 3 [3],
    mkTile 0 2 0 [1, 2, 3, 4, 5, 6, 7, 8, 9],
    mkTile 0 3 0 [1, 2, 3, 4, 5, 6, 7, 8, 9],
    mkTile 0 4 7 [7],
    mkTile 0 5 0 [1, 2, 3, 4, 5, 6, 7, 8, 9],
    mkTile 0 6 0 [1, 2, 3, 4, 5, 6, 7, 8, 9],
    mkTile 0 7 0 [1, 2, 3, 4, 5, 6, 7, 8, 9],
    mkTile 0 8 0 [1, 2, 3, 4, 5, 6, 7, 8, 9]],
   [mkTile 1 0 6 [6],
    mkTile 1 1 0 [1, 2, 3, 4, 5, 6, 7, 8, 9],
    mkTile 1 2 0 [1, 2, 3, 4, 5, 6, 7, 8, 9],
    mkTile 1 3 1 [1],
    mkTile 1 4 9 [9],
    mkTile 1 5 5 [5],
    mkTile 1 6 0 [1, 2, 3, 4, 5, 6, 7, 8, 9],
    mkTile 1 7 0 [1, 2, 3, 4, 5, 6, 7, 8, 9],
    mkTile 1 8 0 [1, 2, 3, 4, 5, 6, 7, 8, 9]],
   [mkTile 2 0 0 [1, 2, 3, 4, 5, 6, 7, 8, 9],
    mkTile 2 1 9 [9],
    mkTile 2 2 8 [8],
    mkTile 2 3 0 [1, 2, 3, 4, 5, 6, 7, 8, 9],
    mkTile 2 4 0 [1, 2, 3, 4, 5, 6, 7, 8, 9],
    mkTile 2 5 0 [1, 2, 3, 4, 5, 6, 7, 8, 9],
    mkTile 2 6 0 [1, 2, 3, 4, 5, 6, 7, 8, 9],
    mkTile 2 7 6 [6],
    mkTile 2 8 0 [1, 2, 3, 4, 5, 6, 7, 8, 9]],
   [mkTile 3 0 8 [8],
    mkTile 3 1 0 [1, 2, 3, 4, 5, 6, 7, 8, 9],
    mkTile 3 2 0 [1, 2, 3, 4, 5, 6, 7, 8, 9],
    mkTile 3 3 0 [1, 2, 3, 4, 5, 6, 7, 8, 9],
    mkTile 3 4 6 [6],
    mkTile 3 5 0 [1, 2, 3, 4, 5, 6, 7, 8, 9],
    mkTile 3 6 0 [1, 2, 3, 4, 5, 6, 7, 8, 9],
    mkTile 3 7 0 [1, 2, 3, 4, 5, 6, 7, 8, 9],
    mkTile 3 8 3 [3]],
   [mkTile 4 0 4 [4],
    mkTile 4 1 0 [1, 2, 3, 4, 5, 6, 7, 8, 9],
    mkTile 4 2 0 [1, 2, 3, 4, 5, 6, 7, 8, 9],
    mkTile 4 3 8 [8],
    mkTile 4 4 0 [1, 2, 3, 4, 5, 6, 7, 8, 9],
    mkTile 4 5 3 [3],
    mkTile 4 6 0 [1, 2, 3, 4, 5, 6, 7, 8, 9],
    mkTile 4 7 0 [1, 2, 3, 4, 5, 6, 7, 8, 9],
    mkTile 4 8 1 [1]],
   [mkTile 5 0 7 [7],
    mkTile 5 1 0 [1, 2, 3, 4, 5, 6, 7, 8, 9],
    mkTile 5 2 0 [1, 2, 3, 4, 5, 6, 7, 8, 9],
    mkTile 5 3 0 [1, 2, 3, 4, 5, 6, 7, 8, 9],
    mkTile 5 4 2 [2],
    mkTile 5 5 0 [1, 2, 3, 4, 5, 6, 7, 8, 9],
    mkTile 5 6 0 [1, 2, 3, 4, 5, 6, 7, 8, 9],
    mkTile 5 7 0 [1, 2, 3, 4, 5, 6, 7, 8, 9],
    mkTile 5 8 6 [6]],
   [mkTile 6 0 0 [1, 2, 3, 4, 5, 6, 7, 8, 9],
    mkTile 6 1 6 [6],
    mkTile 6 2 0 [1, 2, 3, 4, 5, 6, 7, 8, 9],
    mkTile 6 3 0 [1, 2, 3, 4, 5, 6, 7, 8, 9],
    mkTile 6 4 0 [1, 2, 3, 4, 5, 6, 7, 8, 9],
    mkTile 6 5 0 [1, 2, 3, 4, 5, 6, 7, 8, 9],
    mkTile 6 6 2 [2],
    mkTile 6 7 8 [8],
    mkTile 6 8 0 [1, 2, 3, 4, 5, 6, 7, 8, 9]],
   [mkTile 7 0 0 [1, 2, 3, 4, 5, 6, 7, 8, 9],
    mkTile 7 1 0 [1, 2, 3, 4, 5, 6, 7, 8, 9],
    mkTile 7 2 0 [1, 2, 3, 4, 5, 6, 7, 8, 9],
    mkTile 7 3 4 [4],
    mkTile 7 4 1 [1],
    mkTile 7 5 9 [9],
    mkTile 7 6 0 [1, 2, 3, 4, 5, 6, 7, 8, 9],
    mkTile 7 7 0 [1, 2, 3, 4, 5, 6, 7, 8, 9],
    mkTile 7 8 5 [5]],
   [mkTile 8 0 0 [1, 2, 3, 4, 5, 6, 7, 8, 9],
    mkTile 8 1 0 [1, 2, 3, 4, 5, 6, 7, 8, 9],
    mkTile 8 2 0 [1, 2, 3, 4, 5, 6, 7, 8, 9],
    mkTile 8 3 0 [1, 2, 3, 4, 5, 6, 7, 8, 9],
    mkTile 8 4 8 [8],
    mkTile 8 5 0 [1, 2, 3, 4, 5, 6, 7, 8, 9],
    mkTile 8 6 0 [1, 2, 3, 4, 5, 6, 7, 8, 9],
    mkTile 8 7 7 [7],
    mkTile 8 8 9 [9]]]

/-- Intermediate board literal of the staged `propagate` computation. -/
def NKA1 : Board :=
  [   [mkTile 0 0 5 [5],
    mkTile 0 1 3 [3],
    mkTile 0 2 0 [1, 2, 4, 6, 8, 9],
    mkTile 0 3 0 [1, 2, 4, 6, 8, 9],
    mkTile 0 4 7 [7],
    mkTile 0 5 0 [1, 2, 4, 6, 8, 9],
    mkTile 0 6 0 [1, 2, 4, 6, 8, 9],
    mkTile 0 7 0 [1, 2, 4, 6, 8, 9],
    mkTile 0 8 0 [1, 2, 4, 6, 8, 9]],
   [mkTile 1 0 6 [6],
    mkTile 1 1 0 [2, 3, 4, 7, 8],
    mkTile 1 2 0 [2, 3, 4, 7, 8],
    mkTile 1 3 1 [1],
    mkTile 1 4 9 [9],
    mkTile 1 5 5 [5],
    mkTile 1 6 0 [2, 3, 4, 7, 8],
    mkTile 1 7 0 [2, 3, 4, 7, 8],
    mkTile 1 8 0 [2, 3, 4, 7, 8]],
   [mkTile 2 0 0 [1, 2, 3, 4, 5, 7],
    mkTile 2 1 9 [9],
    mkTile 2 2 8 [8],
    mkTile 2 3 0 [1, 2, 3, 4, 5, 7],
    mkTile 2 4 0 [1, 2, 3, 4, 5, 7],
    mkTile 2 5 0 [1, 2, 3, 4, 5, 7],
    mkTile 2 6 0 [1, 2, 3, 4, 5, 7],
    mkTile 2 7 6 [6],
    mkTile 2 8 0 [1, 2, 3, 4, 5, 7]],
   [mkTile 3 0 8 [8],
    mkTile 3 1 0 [1, 2, 4, 5, 7, 9],
    mkTile 3 2 0 [1, 2, 4, 5, 7, 9],
    mkTile 3 3 0 [1, 2, 4, 5, 7, 9],
    mkTile 3 4 6 [6],
    mkTile 3 5 0 [1, 2, 4, 5, 7, 9],
    mkTile 3 6 0 [1, 2, 4, 5, 7, 9],
    mkTile 3 7 0 [1, 2, 4, 5, 7, 9],
    mkTile 3 8 3 [3]],
   [mkTile 4 0 4 [4],
    mkTile 4 1 0 [2, 5, 6, 7, 9],
    mkTile 4 2 0 [2, 5, 6, 7, 9],
    mkTile 4 3 8 [8],
    mkTile 4 4 0 [2, 5, 6, 7, 9],
    mkTile 4 5 3 [3],
    mkTile 4 6 0 [2, 5, 6, 7, 9],
    mkTile 4 7 0 [2, 5, 6, 7, 9],
    mkTile 4 8 1 [1]],
   [mkTile 5 0 7 [7],
    mkTile 5 1 0 [1, 3, 4, 5, 8, 9],
    mkTile 5 2 0 [1, 3, 4, 5, 8, 9],
    mkTile 5 3 0 [1, 3, 4, 5, 8, 9],
    mkTile 5 4 2 [2],
    mkTile 5 5 0 [1, 3, 4, 5, 8, 9],
    mkTile 5 6 0 [1, 3, 4, 5, 8, 9],
    mkTile 5 7 0 [1, 3, 4, 5, 8, 9],
    mkTile 5 8 6 [6]],
   [mkTile 6 0 0 [1, 3, 4, 5, 7, 9],
    mkTile 6 1 6 [6],
    mkTile 6 2 0 [1, 3, 4, 5, 7, 9],
    mkTile 6 3 0 [1, 3, 4, 5, 7, 9],
    mkTile 6 4 0 [1, 3, 4, 5, 7, 9],
    mkTile 6 5 0 [1, 3, 4, 5, 7, 9],
    mkTile 6 6 2 [2],
    mkTile 6 7 8 [8],
    mkTile 6 8 0 [1, 3, 4, 5, 7, 9]],
   [mkTile 7 0 0 [2, 3, 6, 7, 8],
    mkTile 7 1 0 [2, 3, 6, 7, 8],
    mkTile 7 2 0 [2, 3, 6, 7, 8],
    mkTile 7 3 4 [4],
    mkTile 7 4 1 [1],
    mkTile 7 5 9 [9],
    mkTile 7 6 0 [2, 3, 6, 7, 8],
    mkTile 7 7 0 [2, 3, 6, 7, 8],
    mkTile 7 8 5 [5]],
   [mkTile 8 0 0 [1, 2, 3, 4, 5, 6],
    mkTile 8 1 0 [1, 2, 3, 4, 5, 6],
    mkTile 8 2 0 [1, 2, 3, 4, 5, 6],
    mkTile 8 3 0 [1, 2, 3, 4, 5, 6],
    mkTile 8 4 8 [8],
    mkTile 8 5 0 [1, 2, 3, 4, 5, 6],
    mkTile 8 6 0 [1, 2, 3, 4, 5, 6],
    mkTile 8 7 7 [7],
    mkTile 8 8 9 [9]]]

/-- Intermediate board literal of the staged `propagate` computation. -/
def NKB1 : Board :=
  [   [mkTile 0 0 5 [5],
    mkTile 0 1 3 [3],
    mkTile 0 2 0 [1, 2, 4, 6, 9],
    mkTile 0 3 0 [2, 6, 9],
    mkTile 0 4 7 [7],
    mkTile 0 5 0 [1, 2, 4, 6, 8],
    mkTile 0 6 0 [1, 4, 6, 8, 9],
    mkTile 0 7 0 [1, 2, 4, 9],
    mkTile 0 8 0 [2, 4, 8]],
   [mkTile 1 0 6 [6],
    mkTile 1 1 0 [2, 4, 7, 8],
    mkTile 1 2 0 [2, 3, 4, 7],
    mkTile 1 3 1 [1],
    mkTile 1 4 9 [9],
    mkTile 1 5 5 [5],
    mkTile 1 6 0 [3, 4, 7, 8],
    mkTile 1 7 0 [2, 3, 4],
    mkTile 1 8 0 [2, 4, 7, 8]],
   [mkTile 2 0 0 [1, 2, 3],
    mkTile 2 1 9 [9],
    mkTile 2 2 8 [8],
    mkTile 2 3 0 [2, 3, 5, 7],
    mkTile 2 4 0 [3, 4, 5],
    mkTile 2 5 0 [1, 2, 4, 7],
    mkTile 2 6 0 [1, 3, 4, 5, 7],
    mkTile 2 7 6 [6],
    mkTile 2 8 0 [2, 4, 7]],
   [mkTile 3 0 8 [8],
    mkTile 3 1 0 [1, 2, 4, 5, 7],
    mkTile 3 2 0 [1, 2, 4, 5, 7, 9],
    mkTile 3 3 0 [2, 5, 7, 9],
    mkTile 3 4 6 [6],
    mkTile 3 5 0 [1, 2, 4, 7],
    mkTile 3 6 0 [1, 4, 5, 7, 9],
    mkTile 3 7 0 [1, 2, 4, 5, 9],
    mkTile 3 8 3 [3]],
   [mkTile 4 0 4 [4],
    mkTile 4 1 0 [2, 5, 7],
    mkTile 4 2 0 [2, 5, 6, 7, 9],
    mkTile 4 3 8 [8],
    mkTile 4 4 5 [5],
    mkTile 4 5 3 [3],
    mkTile 4 6 0 [5, 6, 7, 9],
    mkTile 4 7 0 [2, 5, 9],
    mkTile 4 8 1 [1]],
   [mkTile 5 0 7 [7],
    mkTile 5 1 0 [1, 4, 5, 8],
    mkTile 5 2 0 [1, 3, 4, 5, 9],
    mkTile 5 3 0 [3, 5, 9],
    mkTile 5 4 2 [2],
    mkTile 5 5 0 [1, 4, 8],
    mkTile 5 6 0 [1, 3, 4, 5, 8, 9],
    mkTile 5 7 0 [1, 3, 4, 5, 9],
    mkTile 5 8 6 [6]],
   [mkTile 6 0 0 [1, 3, 9],
    mkTile 6 1 6 [6],
    mkTile 6 2 0 [1, 3, 4, 5, 7, 9],
    mkTile 6 3 0 [3, 5, 7, 9],
    mkTile 6 4 0 [3, 4, 5],
    mkTile 6 5 0 [1, 4, 7],
    mkTile 6 6 2 [2],
    mkTile 6 7 8 [8],
    mkTile 6 8 0 [4, 7]],
   [mkTile 7 0 0 [2, 3],
    mkTile 7 1 0 [2, 7, 8],
    mkTile 7 2 0 [2, 3, 6, 7],
    mkTile 7 3 4 [4],
    mkTile 7 4 1 [1],
    mkTile 7 5 9 [9],
    mkTile 7 6 0 [3, 6, 7, 8],
    mkTile 7 7 0 [2, 3],
    mkTile 7 8 5 [5]],
   [mkTile 8 0 0 [1, 2, 3],
    mkTile 8 1 0 [1, 2, 4, 5],
    mkTile 8 2 0 [1, 2, 3, 4, 5, 6],
    mkTile 8 3 0 [2, 3, 5, 6],
    mkTile 8 4 8 [8],
    mkTile 8 5 0 [1, 2, 4, 6],
    mkTile 8 6 0 [1, 3, 4, 5, 6],
    mkTile 8 7 7 [7],
    mkTile 8 8 9 [9]]]

/-- Intermediate board literal of the staged `propagate` computation. -/
def SB1 : Board :=
  [   [mkTile 0 0 5 [5],
    mkTile 0 1 3 [3],
    mkTile 0 2 0 [1, 2, 4],
    mkTile 0 3 0 [2, 6],
    mkTile 0 4 7 [7],
    mkTile 0 5 0 [2, 4, 6, 8],
    mkTile 0 6 0 [1, 4, 8, 9],
    mkTile 0 7 0 [1, 2, 4, 9],
    mkTile 0 8 0 [2, 4, 8]],
   [mkTile 1 0 6 [6],
    mkTile 1 1 0 [2, 4, 7],
    mkTile 1 2 0 [2, 4, 7],
    mkTile 1 3 1 [1],
    mkTile 1 4 9 [9],
    mkTile 1 5 5 [5],
    mkTile 1 6 0 [3, 4, 7, 8],
    mkTile 1 7 0 [2, 3, 4],
    mkTile 1 8 0 [2, 4, 7, 8]],
   [mkTile 2 0 0 [1, 2],
    mkTile 2 1 9 [9],
    mkTile 2 2 8 [8],
    mkTile 2 3 0 [2, 3],
    mkTile 2 4 0 [3, 4],
    mkTile 2 5 0 [2, 4],
    mkTile 2 6 0 [1, 3, 4, 5, 7],
    mkTile 2 7 6 [6],
    mkTile 2 8 0 [2, 4, 7]],
   [mkTile 3 0 8 [8],
    mkTile 3 1 0 [1, 2, 5],
    mkTile 3 2 0 [1, 2, 5, 9],
    mkTile 3 3 0 [7, 9],
    mkTile 3 4 6 [6],
    mkTile 3 5 0 [1, 4, 7],
    mkTile 3 6 0 [4, 5, 7, 9],
    mkTile 3 7 0 [2, 4, 5, 9],
    mkTile 3 8 3 [3]],
   [mkTile 4 0 4 [4],
    mkTile 4 1 0 [2, 5],
    mkTile 4 2 0 [2, 5, 6, 9],
    mkTile 4 3 8 [8],
    mkTile 4 4 5 [5],
    mkTile 4 5 3 [3],
    mkTile 4 6 0 [5, 7, 9],
    mkTile 4 7 0 [2, 5, 9],
    mkTile 4 8 1 [1]],
   [mkTile 5 0 7 [7],
    mkTile 5 1 0 [1, 5],
    mkTile 5 2 0 [1, 3, 5, 9],
    mkTile 5 3 9 [9],
    mkTile 5 4 2 [2],
    mkTile 5 5 0 [1, 4],
    mkTile 5 6 0 [4, 5, 8, 9],
    mkTile 5 7 0 [4, 5, 9],
    mkTile 5 8 6 [6]],
   [mkTile 6 0 0 [1, 3, 9],
    mkTile 6 1 6 [6],
    mkTile 6 2 0 [1, 3, 4, 5, 7, 9],
    mkTile 6 3 0 [3, 5, 7],
    mkTile 6 4 0 [3, 5],
    mkTile 6 5 7 [7],
    mkTile 6 6 2 [2],
    mkTile 6 7 8 [8],
    mkTile 6 8 4 [4]],
   [mkTile 7 0 0 [2, 3],
    mkTile 7 1 0 [2, 7, 8],
    mkTile 7 2 0 [2, 3, 7],
    mkTile 7 3 4 [4],
    mkTile 7 4 1 [1],
    mkTile 7 5 9 [9],
    mkTile 7 6 0 [3, 6],
    mkTile 7 7 3 [3],
    mkTile 7 8 5 [5]],
   [mkTile 8 0 0 [1, 2, 3],
    mkTile 8 1 0 [1, 2, 4, 5],
    mkTile 8 2 0 [1, 2, 3, 4, 5],
    mkTile 8 3 0 [2, 3, 5, 6],
    mkTile 8 4 8 [8],
    mkTile 8 5 0 [2, 6],
    mkTile 8 6 0 [1, 3, 4, 6],
    mkTile 8 7 7 [7],
    mkTile 8 8 9 [9]]]

/-- Intermediate board literal of the staged `propagate` computation. -/
def NKA2 : Board :=
  [   [mkTile 0 0 5 [5],
    mkTile 0 1 3 [3],
    mkTile 0 2 0 [1, 2, 4],
    mkTile 0 3 0 [2, 6],
    mkTile 0 4 7 [7],
    mkTile 0 5 0 [2, 4, 6, 8],
    mkTile 0 6 0 [1, 4, 8, 9],
    mkTile 0 7 0 [1, 2, 4, 9],
    mkTile 0 8 0 [2, 4, 8]],
   [mkTile 1 0 6 [6],
    mkTile 1 1 0 [2, 4, 7],
    mkTile 1 2 0 [2, 4, 7],
    mkTile 1 3 1 [1],
    mkTile 1 4 9 [9],
    mkTile 1 5 5 [5],
    mkTile 1 6 0 [3, 4, 7, 8],
    mkTile 1 7 0 [2, 3, 4],
    mkTile 1 8 0 [2, 4, 7, 8]],
   [mkTile 2 0 0 [1, 2],
    mkTile 2 1 9 [9],
    mkTile 2 2 8 [8],
    mkTile 2 3 0 [2, 3],
    mkTile 2 4 0 [3, 4],
    mkTile 2 5 0 [2, 4],
    mkTile 2 6 0 [1, 3, 4, 5, 7],
    mkTile 2 7 6 [6],
    mkTile 2 8 0 [2, 4, 7]],
   [mkTile 3 0 8 [8],
    mkTile 3 1 0 [1, 2, 5],
    mkTile 3 2 0 [1, 2, 5, 9],
    mkTile 3 3 0 [7, 9],
    mkTile 3 4 6 [6],
    mkTile 3 5 0 [1, 4, 7],
    mkTile 3 6 0 [4, 5, 7, 9],
    mkTile 3 7 0 [2, 4, 5, 9],
    mkTile 3 8 3 [3]],
   [mkTile 4 0 4 [4],
    mkTile 4 1 2 [2],
    mkTile 4 2 0 [2, 6, 9],
    mkTile 4 3 8 [8],
    mkTile 4 4 5 [5],
    mkTile 4 5 3 [3],
    mkTile 4 6 0 [7, 9],
    mkTile 4 7 0 [2, 9],
    mkTile 4 8 1 [1]],
   [mkTile 5 0 7 [7],
    mkTile 5 1 0 [1, 5],
    mkTile 5 2 0 [1, 3, 5],
    mkTile 5 3 9 [9],
    mkTile 5 4 2 [2],
    mkTile 5 5 0 [1, 4],
    mkTile 5 6 0 [4, 5, 8],
    mkTile 5 7 0 [4, 5],
    mkTile 5 8 6 [6]],
   [mkTile 6 0 0 [1, 3, 9],
    mkTile 6 1 6 [6],
    mkTile 6 2 0 [1, 3, 5, 9],
    mkTile 6 3 0 [3, 5],
    mkTile 6 4 0 [3, 5],
    mkTile 6 5 7 [7],
    mkTile 6 6 2 [2],
    mkTile 6 7 8 [8],
    mkTile 6 8 4 [4]],
   [mkTile 7 0 2 [2],
    mkTile 7 1 0 [2, 7, 8],
    mkTile 7 2 0 [2, 7],
    mkTile 7 3 4 [4],
    mkTile 7 4 1 [1],
    mkTile 7 5 9 [9],
    mkTile 7 6 6 [6],
    mkTile 7 7 3 [3],
    mkTile 7 8 5 [5]],
   [mkTile 8 0 0 [1, 2, 3],
    mkTile 8 1 0 [1, 2, 4, 5],
    mkTile 8 2 0 [1, 2, 3, 4, 5],
    mkTile 8 3 0 [2, 3, 5, 6],
    mkTile 8 4 8 [8],
    mkTile 8 5 0 [2, 6],
    mkTile 8 6 0 [1, 3, 4, 6],
    mkTile 8 7 7 [7],
    mkTile 8 8 9 [9]]]

/-- Intermediate board literal of the staged `propagate` computation. -/
def NKB2 : Board :=
  [   [mkTile 0 0 5 [5],
    mkTile 0 1 3 [3],
    mkTile 0 2 0 [1, 2, 4],
    mkTile 0 3 0 [2, 6],
    mkTile 0 4 7 [7],
    mkTile 0 5 0 [2, 4, 6, 8],
    mkTile 0 6 0 [1, 4, 8, 9],
    mkTile 0 7 0 [1, 2, 4, 9],
    mkTile 0 8 0 [2, 8]],
   [mkTile 1 0 6 [6],
    mkTile 1 1 0 [4, 7],
    mkTile 1 2 0 [2, 4, 7],
    mkTile 1 3 1 [1],
    mkTile 1 4 9 [9],
    mkTile 1 5 5 [5],
    mkTile 1 6 0 [3, 4, 7, 8],
    mkTile 1 7 0 [2, 4],
    mkTile 1 8 0 [2, 7, 8]],
   [mkTile 2 0 1 [1],
    mkTile 2 1 9 [9],
    mkTile 2 2 8 [8],
    mkTile 2 3 0 [2, 3],
    mkTile 2 4 0 [3, 4],
    mkTile 2 5 0 [2, 4],
    mkTile 2 6 0 [1, 3, 4, 5, 7],
    mkTile 2 7 6 [6],
    mkTile 2 8 0 [2, 7]],
   [mkTile 3 0 8 [8],
    mkTile 3 1 0 [1, 5],
    mkTile 3 2 0 [1, 2, 5, 9],
    mkTile 3 3 7 [7],
    mkTile 3 4 6 [6],
    mkTile 3 5 0 [1, 4],
    mkTile 3 6 0 [4, 5, 7, 9],
    mkTile 3 7 0 [2, 4, 5, 9],
    mkTile 3 8 3 [3]],
   [mkTile 4 0 4 [4],
    mkTile 4 1 2 [2],
    mkTile 4 2 0 [2, 6, 9],
    mkTile 4 3 8 [8],
    mkTile 4 4 5 [5],
    mkTile 4 5 3 [3],
    mkTile 4 6 0 [7, 9],
    mkTile 4 7 0 [2, 9],
    mkTile 4 8 1 [1]],
   [mkTile 5 0 7 [7],
    mkTile 5 1 0 [1, 5],
    mkTile 5 2 0 [1, 3, 5],
    mkTile 5 3 9 [9],
    mkTile 5 4 2 [2],
    mkTile 5 5 0 [1, 4],
    mkTile 5 6 0 [4, 5, 8],
    mkTile 5 7 0 [4, 5],
    mkTile 5 8 6 [6]],
   [mkTile 6 0 0 [1, 3, 9],
    mkTile 6 1 6 [6],
    mkTile 6 2 0 [1, 3, 5, 9],
    mkTile 6 3 0 [3, 5],
    mkTile 6 4 3 [3],
    mkTile 6 5 7 [7],
    mkTile 6 6 2 [2],
    mkTile 6 7 8 [8],
    mkTile 6 8 4 [4]],
   [mkTile 7 0 2 [2],
    mkTile 7 1 0 [7, 8],
    mkTile 7 2 0 [2, 7],
    mkTile 7 3 4 [4],
    mkTile 7 4 1 [1],
    mkTile 7 5 9 [9],
    mkTile 7 6 6 [6],
    mkTile 7 7 3 [3],
    mkTile 7 8 5 [5]],
   [mkTile 8 0 0 [1, 3],
    mkTile 8 1 0 [1, 4, 5],
    mkTile 8 2 0 [1, 2, 3, 4, 5],
    mkTile 8 3 0 [2, 3, 5, 6],
    mkTile 8 4 8 [8],
    mkTile 8 5 0 [2, 6],
    mkTile 8 6 0 [1, 3, 4],
    mkTile 8 7 7 [7],
    mkTile 8 8 9 [9]]]

/-- Intermediate board literal of the staged `propagate` computation. -/
def SB2 : Board :=
  [   [mkTile 0 0 5 [5],
    mkTile 0 1 3 [3],
    mkTile 0 2 0 [2, 4],
    mkTile 0 3 0 [2, 6],
    mkTile 0 4 7 [7],
    mkTile 0 5 0 [2, 4, 6, 8],
    mkTile 0 6 0 [1, 4, 8, 9],
    mkTile 0 7 0 [1, 2, 4, 9],
    mkTile 0 8 0 [2, 8]],
   [mkTile 1 0 6 [6],
    mkTile 1 1 0 [4, 7],
    mkTile 1 2 0 [2, 4, 7],
    mkTile 1 3 1 [1],
    mkTile 1 4 9 [9],
    mkTile 1 5 5 [5],
    mkTile 1 6 0 [3, 4, 7, 8],
    mkTile 1 7 0 [2, 4],
    mkTile 1 8 0 [2, 7, 8]],
   [mkTile 2 0 1 [1],
    mkTile 2 1 9 [9],
    mkTile 2 2 8 [8],
    mkTile 2 3 0 [2, 3],
    mkTile 2 4 0 [3, 4],
    mkTile 2 5 0 [2, 4],
    mkTile 2 6 0 [1, 3, 4, 5, 7],
    mkTile 2 7 6 [6],
    mkTile 2 8 0 [2, 7]],
   [mkTile 3 0 8 [8],
    mkTile 3 1 0 [1, 5],
    mkTile 3 2 0 [1, 5, 9],
    mkTile 3 3 7 [7],
    mkTile 3 4 6 [6],
    mkTile 3 5 0 [1, 4],
    mkTile 3 6 0 [4, 5, 7, 9],
    mkTile 3 7 0 [2, 4, 5, 9],
    mkTile 3 8 3 [3]],
   [mkTile 4 0 4 [4],
    mkTile 4 1 2 [2],
    mkTile 4 2 0 [6, 9],
    mkTile 4 3 8 [8],
    mkTile 4 4 5 [5],
    mkTile 4 5 3 [3],
    mkTile 4 6 0 [7, 9],
    mkTile 4 7 0 [2, 9],
    mkTile 4 8 1 [1]],
   [mkTile 5 0 7 [7],
    mkTile 5 1 0 [1, 5],
    mkTile 5 2 0 [1, 3, 5],
    mkTile 5 3 9 [9],
    mkTile 5 4 2 [2],
    mkTile 5 5 0 [1, 4],
    mkTile 5 6 0 [4, 5, 8],
    mkTile 5 7 0 [4, 5],
    mkTile 5 8 6 [6]],
   [mkTile 6 0 0 [1, 3, 9],
    mkTile 6 1 6 [6],
    mkTile 6 2 0 [1, 3, 5, 9],
    mkTile 6 3 5 [5],
    mkTile 6 4 3 [3],
    mkTile 6 5 7 [7],
    mkTile 6 6 2 [2],
    mkTile 6 7 8 [8],
    mkTile 6 8 4 [4]],
   [mkTile 7 0 2 [2],
    mkTile 7 1 0 [7, 8],
    mkTile 7 2 7 [7],
    mkTile 7 3 4 [4],
    mkTile 7 4 1 [1],
    mkTile 7 5 9 [9],
    mkTile 7 6 6 [6],
    mkTile 7 7 3 [3],
    mkTile 7 8 5 [5]],
   [mkTile 8 0 0 [1, 3],
    mkTile 8 1 0 [1, 4, 5],
    mkTile 8 2 0 [1, 3, 4, 5],
    mkTile 8 3 0 [2, 5, 6],
    mkTile 8 4 8 [8],
    mkTile 8 5 0 [2, 6],
    mkTile 8 6 1 [1],
    mkTile 8 7 7 [7],
    mkTile 8 8 9 [9]]]

/-- Intermediate board literal of the staged `propagate` computation. -/
def NKA3 : Board :=
  [   [mkTile 0 0 5 [5],
    mkTile 0 1 3 [3],
    mkTile 0 2 0 [2, 4],
    mkTile 0 3 0 [2, 6],
    mkTile 0 4 7 [7],
    mkTile 0 5 0 [2, 4, 6, 8],
    mkTile 0 6 0 [1, 4, 8, 9],
    mkTile 0 7 0 [1, 2, 4, 9],
    mkTile 0 8 0 [2, 8]],
   [mkTile 1 0 6 [6],
    mkTile 1 1 0 [4, 7],
    mkTile 1 2 0 [2, 4, 7],
    mkTile 1 3 1 [1],
    mkTile 1 4 9 [9],
    mkTile 1 5 5 [5],
    mkTile 1 6 0 [3, 4, 7, 8],
    mkTile 1 7 0 [2, 4],
    mkTile 1 8 0 [2, 7, 8]],
   [mkTile 2 0 1 [1],
    mkTile 2 1 9 [9],
    mkTile 2 2 8 [8],
    mkTile 2 3 0 [2, 3],
    mkTile 2 4 0 [3, 4],
    mkTile 2 5 0 [2, 4],
    mkTile 2 6 0 [3, 4, 5, 7],
    mkTile 2 7 6 [6],
    mkTile 2 8 0 [2, 7]],
   [mkTile 3 0 8 [8],
    mkTile 3 1 0 [1, 5],
    mkTile 3 2 0 [1, 5, 9],
    mkTile 3 3 7 [7],
    mkTile 3 4 6 [6],
    mkTile 3 5 0 [1, 4],
    mkTile 3 6 0 [4, 5, 9],
    mkTile 3 7 0 [2, 4, 5, 9],
    mkTile 3 8 3 [3]],
   [mkTile 4 0 4 [4],
    mkTile 4 1 2 [2],
    mkTile 4 2 0 [6, 9],
    mkTile 4 3 8 [8],
    mkTile 4 4 5 [5],
    mkTile 4 5 3 [3],
    mkTile 4 6 0 [7, 9],
    mkTile 4 7 9 [9],
    mkTile 4 8 1 [1]],
   [mkTile 5 0 7 [7],
    mkTile 5 1 0 [1, 5],
    mkTile 5 2 0 [1, 3, 5],
    mkTile 5 3 9 [9],
    mkTile 5 4 2 [2],
    mkTile 5 5 0 [1, 4],
    mkTile 5 6 0 [4, 5, 8],
    mkTile 5 7 0 [4, 5],
    mkTile 5 8 6 [6]],
   [mkTile 6 0 0 [1, 9],
    mkTile 6 1 6 [6],
    mkTile 6 2 0 [1, 9],
    mkTile 6 3 5 [5],
    mkTile 6 4 3 [3],
    mkTile 6 5 7 [7],
    mkTile 6 6 2 [2],
    mkTile 6 7 8 [8],
    mkTile 6 8 4 [4]],
   [mkTile 7 0 2 [2],
    mkTile 7 1 8 [8],
    mkTile 7 2 7 [7],
    mkTile 7 3 4 [4],
    mkTile 7 4 1 [1],
    mkTile 7 5 9 [9],
    mkTile 7 6 6 [6],
    mkTile 7 7 3 [3],
    mkTile 7 8 5 [5]],
   [mkTile 8 0 3 [3],
    mkTile 8 1 0 [4, 5],
    mkTile 8 2 0 [3, 4, 5],
    mkTile 8 3 0 [2, 5, 6],
    mkTile 8 4 8 [8],
    mkTile 8 5 0 [2, 6],
    mkTile 8 6 1 [1],
    mkTile 8 7 7 [7],
    mkTile 8 8 9 [9]]]

/-- Intermediate board literal of the staged `propagate` computation. -/
def NKB3 : Board :=
  [   [mkTile 0 0 5 [5],
    mkTile 0 1 3 [3],
    mkTile 0 2 0 [2, 4],
    mkTile 0 3 0 [2, 6],
    mkTile 0 4 7 [7],
    mkTile 0 5 0 [2, 4, 6, 8],
    mkTile 0 6 0 [4, 8, 9],
    mkTile 0 7 0 [1, 2, 4],
    mkTile 0 8 0 [2, 8]],
   [mkTile 1 0 6 [6],
    mkTile 1 1 0 [4, 7],
    mkTile 1 2 0 [2, 4],
    mkTile 1 3 1 [1],
    mkTile 1 4 9 [9],
    mkTile 1 5 5 [5],
    mkTile 1 6 0 [3, 4, 7, 8],
    mkTile 1 7 0 [2, 4],
    mkTile 1 8 0 [2, 7, 8]],
   [mkTile 2 0 1 [1],
    mkTile 2 1 9 [9],
    mkTile 2 2 8 [8],
    mkTile 2 3 0 [2, 3],
    mkTile 2 4 4 [4],
    mkTile 2 5 0 [2, 4],
    mkTile 2 6 0 [3, 4, 5, 7],
    mkTile 2 7 6 [6],
    mkTile 2 8 0 [2, 7]],
   [mkTile 3 0 8 [8],
    mkTile 3 1 0 [1, 5],
    mkTile 3 2 0 [1, 5, 9],
    mkTile 3 3 7 [7],
    mkTile 3 4 6 [6],
    mkTile 3 5 0 [1, 4],
    mkTile 3 6 0 [4, 5, 9],
    mkTile 3 7 0 [2, 4, 5],
    mkTile 3 8 3 [3]],
   [mkTile 4 0 4 [4],
    mkTile 4 1 2 [2],
    mkTile 4 2 0 [6, 9],
    mkTile 4 3 8 [8],
    mkTile 4 4 5 [5],
    mkTile 4 5 3 [3],
    mkTile 4 6 0 [7, 9],
    mkTile 4 7 9 [9],
    mkTile 4 8 1 [1]],
   [mkTile 5 0 7 [7],
    mkTile 5 1 0 [1, 5],
    mkTile 5 2 0 [1, 3, 5],
    mkTile 5 3 9 [9],
    mkTile 5 4 2 [2],
    mkTile 5 5 0 [1, 4],
    mkTile 5 6 0 [4, 5, 8],
    mkTile 5 7 0 [4, 5],
    mkTile 5 8 6 [6]],
   [mkTile 6 0 9 [9],
    mkTile 6 1 6 [6],
    mkTile 6 2 0 [1, 9],
    mkTile 6 3 5 [5],
    mkTile 6 4 3 [3],
    mkTile 6 5 7 [7],
    mkTile 6 6 2 [2],
    mkTile 6 7 8 [8],
    mkTile 6 8 4 [4]],
   [mkTile 7 0 2 [2],
    mkTile 7 1 8 [8],
    mkTile 7 2 7 [7],
    mkTile 7 3 4 [4],
    mkTile 7 4 1 [1],
    mkTile 7 5 9 [9],
    mkTile 7 6 6 [6],
    mkTile 7 7 3 [3],
    mkTile 7 8 5 [5]],
   [mkTile 8 0 3 [3],
    mkTile 8 1 0 [4, 5],
    mkTile 8 2 0 [3, 4, 5],
    mkTile 8 3 0 [2, 6],
    mkTile 8 4 8 [8],
    mkTile 8 5 0 [2, 6],
    mkTile 8 6 1 [1],
    mkTile 8 7 7 [7],
    mkTile 8 8 9 [9]]]

/-- Intermediate board literal of the staged `propagate` computation. -/
def SB3 : Board :=
  [   [mkTile 0 0 5 [5],
    mkTile 0 1 3 [3],
    mkTile 0 2 0 [2, 4],
    mkTile 0 3 0 [2, 6],
    mkTile 0 4 7 [7],
    mkTile 0 5 0 [2, 6, 8],
    mkTile 0 6 0 [4, 8, 9],
    mkTile 0 7 0 [1, 2, 4],
    mkTile 0 8 0 [2, 8]],
   [mkTile 1 0 6 [6],
    mkTile 1 1 0 [4, 7],
    mkTile 1 2 0 [2, 4],
    mkTile 1 3 1 [1],
    mkTile 1 4 9 [9],
    mkTile 1 5 5 [5],
    mkTile 1 6 0 [3, 4, 7, 8],
    mkTile 1 7 0 [2, 4],
    mkTile 1 8 0 [2, 7, 8]],
   [mkTile 2 0 1 [1],
    mkTile 2 1 9 [9],
    mkTile 2 2 8 [8],
    mkTile 2 3 0 [2, 3],
    mkTile 2 4 4 [4],
    mkTile 2 5 2 [2],
    mkTile 2 6 0 [3, 4, 5, 7],
    mkTile 2 7 6 [6],
    mkTile 2 8 0 [2, 7]],
   [mkTile 3 0 8 [8],
    mkTile 3 1 0 [1, 5],
    mkTile 3 2 0 [1, 5, 9],
    mkTile 3 3 7 [7],
    mkTile 3 4 6 [6],
    mkTile 3 5 0 [1, 4],
    mkTile 3 6 0 [4, 5],
    mkTile 3 7 0 [2, 4, 5],
    mkTile 3 8 3 [3]],
   [mkTile 4 0 4 [4],
    mkTile 4 1 2 [2],
    mkTile 4 2 0 [6, 9],
    mkTile 4 3 8 [8],
    mkTile 4 4 5 [5],
    mkTile 4 5 3 [3],
    mkTile 4 6 7 [7],
    mkTile 4 7 9 [9],
    mkTile 4 8 1 [1]],
   [mkTile 5 0 7 [7],
    mkTile 5 1 0 [1, 5],
    mkTile 5 2 0 [1, 3, 5],
    mkTile 5 3 9 [9],
    mkTile 5 4 2 [2],
    mkTile 5 5 0 [1, 4],
    mkTile 5 6 0 [4, 5, 8],
    mkTile 5 7 0 [4, 5],
    mkTile 5 8 6 [6]],
   [mkTile 6 0 9 [9],
    mkTile 6 1 6 [6],
    mkTile 6 2 1 [1],
    mkTile 6 3 5 [5],
    mkTile 6 4 3 [3],
    mkTile 6 5 7 [7],
    mkTile 6 6 2 [2],
    mkTile 6 7 8 [8],
    mkTile 6 8 4 [4]],
   [mkTile 7 0 2 [2],
    mkTile 7 1 8 [8],
    mkTile 7 2 7 [7],
    mkTile 7 3 4 [4],
    mkTile 7 4 1 [1],
    mkTile 7 5 9 [9],
    mkTile 7 6 6 [6],
    mkTile 7 7 3 [3],
    mkTile 7 8 5 [5]],
   [mkTile 8 0 3 [3],
    mkTile 8 1 0 [4, 5],
    mkTile 8 2 0 [4, 5],
    mkTile 8 3 0 [2, 6],
    mkTile 8 4 8 [8],
    mkTile 8 5 0 [2, 6],
    mkTile 8 6 1 [1],
    mkTile 8 7 7 [7],
    mkTile 8 8 9 [9]]]

/-- Intermediate board literal of the staged `propagate` computation. -/
def NKA4 : Board :=
  [   [mkTile 0 0 5 [5],
    mkTile 0 1 3 [3],
    mkTile 0 2 0 [2, 4],
    mkTile 0 3 0 [2, 6],
    mkTile 0 4 7 [7],
    mkTile 0 5 0 [2, 6, 8],
    mkTile 0 6 0 [4, 8, 9],
    mkTile 0 7 0 [1, 2, 4],
    mkTile 0 8 0 [2, 8]],
   [mkTile 1 0 6 [6],
    mkTile 1 1 0 [4, 7],
    mkTile 1 2 0 [2, 4],
    mkTile 1 3 1 [1],
    mkTile 1 4 9 [9],
    mkTile 1 5 5 [5],
    mkTile 1 6 0 [3, 4, 7, 8],
    mkTile 1 7 0 [2, 4],
    mkTile 1 8 0 [2, 7, 8]],
   [mkTile 2 0 1 [1],
    mkTile 2 1 9 [9],
    mkTile 2 2 8 [8],
    mkTile 2 3 3 [3],
    mkTile 2 4 4 [4],
    mkTile 2 5 2 [2],
    mkTile 2 6 0 [3, 5, 7],
    mkTile 2 7 6 [6],
    mkTile 2 8 7 [7]],
   [mkTile 3 0 8 [8],
    mkTile 3 1 0 [1, 5],
    mkTile 3 2 0 [1, 5, 9],
    mkTile 3 3 7 [7],
    mkTile 3 4 6 [6],
    mkTile 3 5 0 [1, 4],
    mkTile 3 6 0 [4, 5],
    mkTile 3 7 0 [2, 4, 5],
    mkTile 3 8 3 [3]],
   [mkTile 4 0 4 [4],
    mkTile 4 1 2 [2],
    mkTile 4 2 6 [6],
    mkTile 4 3 8 [8],
    mkTile 4 4 5 [5],
    mkTile 4 5 3 [3],
    mkTile 4 6 7 [7],
    mkTile 4 7 9 [9],
    mkTile 4 8 1 [1]],
   [mkTile 5 0 7 [7],
    mkTile 5 1 0 [1, 5],
    mkTile 5 2 0 [1, 3, 5],
    mkTile 5 3 9 [9],
    mkTile 5 4 2 [2],
    mkTile 5 5 0 [1, 4],
    mkTile 5 6 0 [4, 5, 8],
    mkTile 5 7 0 [4, 5],
    mkTile 5 8 6 [6]],
   [mkTile 6 0 9 [9],
    mkTile 6 1 6 [6],
    mkTile 6 2 1 [1],
    mkTile 6 3 5 [5],
    mkTile 6 4 3 [3],
    mkTile 6 5 7 [7],
    mkTile 6 6 2 [2],
    mkTile 6 7 8 [8],
    mkTile 6 8 4 [4]],
   [mkTile 7 0 2 [2],
    mkTile 7 1 8 [8],
    mkTile 7 2 7 [7],
    mkTile 7 3 4 [4],
    mkTile 7 4 1 [1],
    mkTile 7 5 9 [9],
    mkTile 7 6 6 [6],
    mkTile 7 7 3 [3],
    mkTile 7 8 5 [5]],
   [mkTile 8 0 3 [3],
    mkTile 8 1 0 [4, 5],
    mkTile 8 2 0 [4, 5],
    mkTile 8 3 0 [2, 6],
    mkTile 8 4 8 [8],
    mkTile 8 5 0 [2, 6],
    mkTile 8 6 1 [1],
    mkTile 8 7 7 [7],
    mkTile 8 8 9 [9]]]

/-- Intermediate board literal of the staged `propagate` computation. -/
def NKB4 : Board :=
  [   [mkTile 0 0 5 [5],
    mkTile 0 1 3 [3],
    mkTile 0 2 0 [2, 4],
    mkTile 0 3 0 [2, 6],
    mkTile 0 4 7 [7],
    mkTile 0 5 0 [6, 8],
    mkTile 0 6 0 [4, 8, 9],
    mkTile 0 7 0 [1, 2, 4],
    mkTile 0 8 0 [2, 8]],
   [mkTile 1 0 6 [6],
    mkTile 1 1 0 [4, 7],
    mkTile 1 2 0 [2, 4],
    mkTile 1 3 1 [1],
    mkTile 1 4 9 [9],
    mkTile 1 5 5 [5],
    mkTile 1 6 0 [3, 4, 8],
    mkTile 1 7 0 [2, 4],
    mkTile 1 8 0 [2, 8]],
   [mkTile 2 0 1 [1],
    mkTile 2 1 9 [9],
    mkTile 2 2 8 [8],
    mkTile 2 3 3 [3],
    mkTile 2 4 4 [4],
    mkTile 2 5 2 [2],
    mkTile 2 6 0 [3, 5],
    mkTile 2 7 6 [6],
    mkTile 2 8 7 [7]],
   [mkTile 3 0 8 [8],
    mkTile 3 1 0 [1, 5],
    mkTile 3 2 0 [5, 9],
    mkTile 3 3 7 [7],
    mkTile 3 4 6 [6],
    mkTile 3 5 0 [1, 4],
    mkTile 3 6 0 [4, 5],
    mkTile 3 7 0 [2, 4, 5],
    mkTile 3 8 3 [3]],
   [mkTile 4 0 4 [4],
    mkTile 4 1 2 [2],
    mkTile 4 2 6 [6],
    mkTile 4 3 8 [8],
    mkTile 4 4 5 [5],
    mkTile 4 5 3 [3],
    mkTile 4 6 7 [7],
    mkTile 4 7 9 [9],
    mkTile 4 8 1 [1]],
   [mkTile 5 0 7 [7],
    mkTile 5 1 0 [1, 5],
    mkTile 5 2 0 [3, 5],
    mkTile 5 3 9 [9],
    mkTile 5 4 2 [2],
    mkTile 5 5 0 [1, 4],
    mkTile 5 6 0 [4, 5, 8],
    mkTile 5 7 0 [4, 5],
    mkTile 5 8 6 [6]],
   [mkTile 6 0 9 [9],
    mkTile 6 1 6 [6],
    mkTile 6 2 1 [1],
    mkTile 6 3 5 [5],
    mkTile 6 4 3 [3],
    mkTile 6 5 7 [7],
    mkTile 6 6 2 [2],
    mkTile 6 7 8 [8],
    mkTile 6 8 4 [4]],
   [mkTile 7 0 2 [2],
    mkTile 7 1 8 [8],
    mkTile 7 2 7 [7],
    mkTile 7 3 4 [4],
    mkTile 7 4 1 [1],
    mkTile 7 5 9 [9],
    mkTile 7 6 6 [6],
    mkTile 7 7 3 [3],
    mkTile 7 8 5 [5]],
   [mkTile 8 0 3 [3],
    mkTile 8 1 0 [4, 5],
    mkTile 8 2 0 [4, 5],
    mkTile 8 3 0 [2, 6],
    mkTile 8 4 8 [8],
    mkTile 8 5 6 [6],
    mkTile 8 6 1 [1],
    mkTile 8 7 7 [7],
    mkTile 8 8 9 [9]]]

/-- Intermediate board literal of the staged `propagate` computation. -/
def SB4 : Board :=
  [   [mkTile 0 0 5 [5],
    mkTile 0 1 3 [3],
    mkTile 0 2 0 [2, 4],
    mkTile 0 3 6 [6],
    mkTile 0 4 7 [7],
    mkTile 0 5 0 [6, 8],
    mkTile 0 6 0 [4, 8, 9],
    mkTile 0 7 0 [1, 2, 4],
    mkTile 0 8 0 [2, 8]],
   [mkTile 1 0 6 [6],
    mkTile 1 1 0 [4, 7],
    mkTile 1 2 0 [2, 4],
    mkTile 1 3 1 [1],
    mkTile 1 4 9 [9],
    mkTile 1 5 5 [5],
    mkTile 1 6 0 [3, 4, 8],
    mkTile 1 7 0 [2, 4],
    mkTile 1 8 0 [2, 8]],
   [mkTile 2 0 1 [1],
    mkTile 2 1 9 [9],
    mkTile 2 2 8 [8],
    mkTile 2 3 3 [3],
    mkTile 2 4 4 [4],
    mkTile 2 5 2 [2],
    mkTile 2 6 0 [3, 5],
    mkTile 2 7 6 [6],
    mkTile 2 8 7 [7]],
   [mkTile 3 0 8 [8],
    mkTile 3 1 0 [1, 5],
    mkTile 3 2 0 [5, 9],
    mkTile 3 3 7 [7],
    mkTile 3 4 6 [6],
    mkTile 3 5 0 [1, 4],
    mkTile 3 6 0 [4, 5],
    mkTile 3 7 0 [2, 4, 5],
    mkTile 3 8 3 [3]],
   [mkTile 4 0 4 [4],
    mkTile 4 1 2 [2],
    mkTile 4 2 6 [6],
    mkTile 4 3 8 [8],
    mkTile 4 4 5 [5],
    mkTile 4 5 3 [3],
    mkTile 4 6 7 [7],
    mkTile 4 7 9 [9],
    mkTile 4 8 1 [1]],
   [mkTile 5 0 7 [7],
    mkTile 5 1 0 [1, 5],
    mkTile 5 2 0 [3, 5],
    mkTile 5 3 9 [9],
    mkTile 5 4 2 [2],
    mkTile 5 5 0 [1, 4],
    mkTile 5 6 0 [4, 5, 8],
    mkTile 5 7 0 [4, 5],
    mkTile 5 8 6 [6]],
   [mkTile 6 0 9 [9],
    mkTile 6 1 6 [6],
    mkTile 6 2 1 [1],
    mkTile 6 3 5 [5],
    mkTile 6 4 3 [3],
    mkTile 6 5 7 [7],
    mkTile 6 6 2 [2],
    mkTile 6 7 8 [8],
    mkTile 6 8 4 [4]],
   [mkTile 7 0 2 [2],
    mkTile 7 1 8 [8],
    mkTile 7 2 7 [7],
    mkTile 7 3 4 [4],
    mkTile 7 4 1 [1],
    mkTile 7 5 9 [9],
    mkTile 7 6 6 [6],
    mkTile 7 7 3 [3],
    mkTile 7 8 5 [5]],
   [mkTile 8 0 3 [3],
    mkTile 8 1 0 [4, 5],
    mkTile 8 2 0 [4, 5],
    mkTile 8 3 2 [2],
    mkTile 8 4 8 [8],
    mkTile 8 5 6 [6],
    mkTile 8 6 1 [1],
    mkTile 8 7 7 [7],
    mkTile 8 8 9 [9]]]

/-- Intermediate board literal of the staged `propagate` computation. -/
def NKA5 : Board :=
  [   [mkTile 0 0 5 [5],
    mkTile 0 1 3 [3],
    mkTile 0 2 0 [2, 4],
    mkTile 0 3 6 [6],
    mkTile 0 4 7 [7],
    mkTile 0 5 8 [8],
    mkTile 0 6 0 [4, 8, 9],
    mkTile 0 7 0 [1, 2, 4],
    mkTile 0 8 0 [2, 8]],
   [mkTile 1 0 6 [6],
    mkTile 1 1 0 [4, 7],
    mkTile 1 2 0 [2, 4],
    mkTile 1 3 1 [1],
    mkTile 1 4 9 [9],
    mkTile 1 5 5 [5],
    mkTile 1 6 0 [3, 4, 8],
    mkTile 1 7 0 [2, 4],
    mkTile 1 8 0 [2, 8]],
   [mkTile 2 0 1 [1],
    mkTile 2 1 9 [9],
    mkTile 2 2 8 [8],
    mkTile 2 3 3 [3],
    mkTile 2 4 4 [4],
    mkTile 2 5 2 [2],
    mkTile 2 6 5 [5],
    mkTile 2 7 6 [6],
    mkTile 2 8 7 [7]],
   [mkTile 3 0 8 [8],
    mkTile 3 1 0 [1, 5],
    mkTile 3 2 0 [5, 9],
    mkTile 3 3 7 [7],
    mkTile 3 4 6 [6],
    mkTile 3 5 0 [1, 4],
    mkTile 3 6 0 [4, 5],
    mkTile 3 7 0 [2, 4, 5],
    mkTile 3 8 3 [3]],
   [mkTile 4 0 4 [4],
    mkTile 4 1 2 [2],
    mkTile 4 2 6 [6],
    mkTile 4 3 8 [8],
    mkTile 4 4 5 [5],
    mkTile 4 5 3 [3],
    mkTile 4 6 7 [7],
    mkTile 4 7 9 [9],
    mkTile 4 8 1 [1]],
   [mkTile 5 0 7 [7],
    mkTile 5 1 0 [1, 5],
    mkTile 5 2 0 [3, 5],
    mkTile 5 3 9 [9],
    mkTile 5 4 2 [2],
    mkTile 5 5 0 [1, 4],
    mkTile 5 6 0 [4, 5, 8],
    mkTile 5 7 0 [4, 5],
    mkTile 5 8 6 [6]],
   [mkTile 6 0 9 [9],
    mkTile 6 1 6 [6],
    mkTile 6 2 1 [1],
    mkTile 6 3 5 [5],
    mkTile 6 4 3 [3],
    mkTile 6 5 7 [7],
    mkTile 6 6 2 [2],
    mkTile 6 7 8 [8],
    mkTile 6 8 4 [4]],
   [mkTile 7 0 2 [2],
    mkTile 7 1 8 [8],
    mkTile 7 2 7 [7],
    mkTile 7 3 4 [4],
    mkTile 7 4 1 [1],
    mkTile 7 5 9 [9],
    mkTile 7 6 6 [6],
    mkTile 7 7 3 [3],
    mkTile 7 8 5 [5]],
   [mkTile 8 0 3 [3],
    mkTile 8 1 0 [4, 5],
    mkTile 8 2 0 [4, 5],
    mkTile 8 3 2 [2],
    mkTile 8 4 8 [8],
    mkTile 8 5 6 [6],
    mkTile 8 6 1 [1],
    mkTile 8 7 7 [7],
    mkTile 8 8 9 [9]]]

/-- Intermediate board literal of the staged `propagate` computation. -/
def NKB5 : Board :=
  [   [mkTile 0 0 5 [5],
    mkTile 0 1 3 [3],
    mkTile 0 2 0 [2, 4],
    mkTile 0 3 6 [6],
    mkTile 0 4 7 [7],
    mkTile 0 5 8 [8],
    mkTile 0 6 0 [4, 8, 9],
    mkTile 0 7 0 [1, 2, 4],
    mkTile 0 8 0 [2, 8]],
   [mkTile 1 0 6 [6],
    mkTile 1 1 0 [4, 7],
    mkTile 1 2 0 [2, 4],
    mkTile 1 3 1 [1],
    mkTile 1 4 9 [9],
    mkTile 1 5 5 [5],
    mkTile 1 6 0 [3, 4, 8],
    mkTile 1 7 0 [2, 4],
    mkTile 1 8 0 [2, 8]],
   [mkTile 2 0 1 [1],
    mkTile 2 1 9 [9],
    mkTile 2 2 8 [8],
    mkTile 2 3 3 [3],
    mkTile 2 4 4 [4],
    mkTile 2 5 2 [2],
    mkTile 2 6 5 [5],
    mkTile 2 7 6 [6],
    mkTile 2 8 7 [7]],
   [mkTile 3 0 8 [8],
    mkTile 3 1 0 [1, 5],
    mkTile 3 2 0 [5, 9],
    mkTile 3 3 7 [7],
    mkTile 3 4 6 [6],
    mkTile 3 5 0 [1, 4],
    mkTile 3 6 4 [4],
    mkTile 3 7 0 [2, 4, 5],
    mkTile 3 8 3 [3]],
   [mkTile 4 0 4 [4],
    mkTile 4 1 2 [2],
    mkTile 4 2 6 [6],
    mkTile 4 3 8 [8],
    mkTile 4 4 5 [5],
    mkTile 4 5 3 [3],
    mkTile 4 6 7 [7],
    mkTile 4 7 9 [9],
    mkTile 4 8 1 [1]],
   [mkTile 5 0 7 [7],
    mkTile 5 1 0 [1, 5],
    mkTile 5 2 0 [3, 5],
    mkTile 5 3 9 [9],
    mkTile 5 4 2 [2],
    mkTile 5 5 0 [1, 4],
    mkTile 5 6 0 [4, 8],
    mkTile 5 7 0 [4, 5],
    mkTile 5 8 6 [6]],
   [mkTile 6 0 9 [9],
    mkTile 6 1 6 [6],
    mkTile 6 2 1 [1],
    mkTile 6 3 5 [5],
    mkTile 6 4 3 [3],
    mkTile 6 5 7 [7],
    mkTile 6 6 2 [2],
    mkTile 6 7 8 [8],
    mkTile 6 8 4 [4]],
   [mkTile 7 0 2 [2],
    mkTile 7 1 8 [8],
    mkTile 7 2 7 [7],
    mkTile 7 3 4 [4],
    mkTile 7 4 1 [1],
    mkTile 7 5 9 [9],
    mkTile 7 6 6 [6],
    mkTile 7 7 3 [3],
    mkTile 7 8 5 [5]],
   [mkTile 8 0 3 [3],
    mkTile 8 1 0 [4, 5],
    mkTile 8 2 0 [4, 5],
    mkTile 8 3 2 [2],
    mkTile 8 4 8 [8],
    mkTile 8 5 6 [6],
    mkTile 8 6 1 [1],
    mkTile 8 7 7 [7],
    mkTile 8 8 9 [9]]]

/-- Intermediate board literal of the staged `propagate` computation. -/
def SB5 : Board :=
  [   [mkTile 0 0 5 [5],
    mkTile 0 1 3 [3],
    mkTile 0 2 0 [2, 4],
    mkTile 0 3 6 [6],
    mkTile 0 4 7 [7],
    mkTile 0 5 8 [8],
    mkTile 0 6 0 [4, 8, 9],
    mkTile 0 7 0 [1, 2, 4],
    mkTile 0 8 0 [2, 8]],
   [mkTile 1 0 6 [6],
    mkTile 1 1 0 [4, 7],
    mkTile 1 2 0 [2, 4],
    mkTile 1 3 1 [1],
    mkTile 1 4 9 [9],
    mkTile 1 5 5 [5],
    mkTile 1 6 0 [3, 4, 8],
    mkTile 1 7 0 [2, 4],
    mkTile 1 8 0 [2, 8]],
   [mkTile 2 0 1 [1],
    mkTile 2 1 9 [9],
    mkTile 2 2 8 [8],
    mkTile 2 3 3 [3],
    mkTile 2 4 4 [4],
    mkTile 2 5 2 [2],
    mkTile 2 6 5 [5],
    mkTile 2 7 6 [6],
    mkTile 2 8 7 [7]],
   [mkTile 3 0 8 [8],
    mkTile 3 1 0 [1, 5],
    mkTile 3 2 0 [5, 9],
    mkTile 3 3 7 [7],
    mkTile 3 4 6 [6],
    mkTile 3 5 0 [1, 4],
    mkTile 3 6 4 [4],
    mkTile 3 7 0 [2, 5],
    mkTile 3 8 3 [3]],
   [mkTile 4 0 4 [4],
    mkTile 4 1 2 [2],
    mkTile 4 2 6 [6],
    mkTile 4 3 8 [8],
    mkTile 4 4 5 [5],
    mkTile 4 5 3 [3],
    mkTile 4 6 7 [7],
    mkTile 4 7 9 [9],
    mkTile 4 8 1 [1]],
   [mkTile 5 0 7 [7],
    mkTile 5 1 0 [1, 5],
    mkTile 5 2 0 [3, 5],
    mkTile 5 3 9 [9],
    mkTile 5 4 2 [2],
    mkTile 5 5 0 [1, 4],
    mkTile 5 6 8 [8],
    mkTile 5 7 5 [5],
    mkTile 5 8 6 [6]],
   [mkTile 6 0 9 [9],
    mkTile 6 1 6 [6],
    mkTile 6 2 1 [1],
    mkTile 6 3 5 [5],
    mkTile 6 4 3 [3],
    mkTile 6 5 7 [7],
    mkTile 6 6 2 [2],
    mkTile 6 7 8 [8],
    mkTile 6 8 4 [4]],
   [mkTile 7 0 2 [2],
    mkTile 7 1 8 [8],
    mkTile 7 2 7 [7],
    mkTile 7 3 4 [4],
    mkTile 7 4 1 [1],
    mkTile 7 5 9 [9],
    mkTile 7 6 6 [6],
    mkTile 7 7 3 [3],
    mkTile 7 8 5 [5]],
   [mkTile 8 0 3 [3],
    mkTile 8 1 0 [4, 5],
    mkTile 8 2 0 [4, 5],
    mkTile 8 3 2 [2],
    mkTile 8 4 8 [8],
    mkTile 8 5 6 [6],
    mkTile 8 6 1 [1],
    mkTile 8 7 7 [7],
    mkTile 8 8 9 [9]]]

/-- Intermediate board literal of the staged `propagate` computation. -/
def NKA6 : Board :=
  [   [mkTile 0 0 5 [5],
    mkTile 0 1 3 [3],
    mkTile 0 2 0 [2, 4],
    mkTile 0 3 6 [6],
    mkTile 0 4 7 [7],
    mkTile 0 5 8 [8],
    mkTile 0 6 0 [4, 9],
    mkTile 0 7 0 [1, 2, 4],
    mkTile 0 8 2 [2]],
   [mkTile 1 0 6 [6],
    mkTile 1 1 0 [4, 7],
    mkTile 1 2 0 [2, 4],
    mkTile 1 3 1 [1],
    mkTile 1 4 9 [9],
    mkTile 1 5 5 [5],
    mkTile 1 6 0 [3, 4, 8],
    mkTile 1 7 0 [2, 4],
    mkTile 1 8 0 [2, 8]],
   [mkTile 2 0 1 [1],
    mkTile 2 1 9 [9],
    mkTile 2 2 8 [8],
    mkTile 2 3 3 [3],
    mkTile 2 4 4 [4],
    mkTile 2 5 2 [2],
    mkTile 2 6 5 [5],
    mkTile 2 7 6 [6],
    mkTile 2 8 7 [7]],
   [mkTile 3 0 8 [8],
    mkTile 3 1 0 [1, 5],
    mkTile 3 2 0 [5, 9],
    mkTile 3 3 7 [7],
    mkTile 3 4 6 [6],
    mkTile 3 5 1 [1],
    mkTile 3 6 4 [4],
    mkTile 3 7 0 [2, 5],
    mkTile 3 8 3 [3]],
   [mkTile 4 0 4 [4],
    mkTile 4 1 2 [2],
    mkTile 4 2 6 [6],
    mkTile 4 3 8 [8],
    mkTile 4 4 5 [5],
    mkTile 4 5 3 [3],
    mkTile 4 6 7 [7],
    mkTile 4 7 9 [9],
    mkTile 4 8 1 [1]],
   [mkTile 5 0 7 [7],
    mkTile 5 1 1 [1],
    mkTile 5 2 3 [3],
    mkTile 5 3 9 [9],
    mkTile 5 4 2 [2],
    mkTile 5 5 0 [1, 4],
    mkTile 5 6 8 [8],
    mkTile 5 7 5 [5],
    mkTile 5 8 6 [6]],
   [mkTile 6 0 9 [9],
    mkTile 6 1 6 [6],
    mkTile 6 2 1 [1],
    mkTile 6 3 5 [5],
    mkTile 6 4 3 [3],
    mkTile 6 5 7 [7],
    mkTile 6 6 2 [2],
    mkTile 6 7 8 [8],
    mkTile 6 8 4 [4]],
   [mkTile 7 0 2 [2],
    mkTile 7 1 8 [8],
    mkTile 7 2 7 [7],
    mkTile 7 3 4 [4],
    mkTile 7 4 1 [1],
    mkTile 7 5 9 [9],
    mkTile 7 6 6 [6],
    mkTile 7 7 3 [3],
    mkTile 7 8 5 [5]],
   [mkTile 8 0 3 [3],
    mkTile 8 1 0 [4, 5],
    mkTile 8 2 0 [4, 5],
    mkTile 8 3 2 [2],
    mkTile 8 4 8 [8],
    mkTile 8 5 6 [6],
    mkTile 8 6 1 [1],
    mkTile 8 7 7 [7],
    mkTile 8 8 9 [9]]]

/-- Intermediate board literal of the staged `propagate` computation. -/
def NKB6 : Board :=
  [   [mkTile 0 0 5 [5],
    mkTile 0 1 3 [3],
    mkTile 0 2 0 [2, 4],
    mkTile 0 3 6 [6],
    mkTile 0 4 7 [7],
    mkTile 0 5 8 [8],
    mkTile 0 6 9 [9],
    mkTile 0 7 0 [1, 2, 4],
    mkTile 0 8 2 [2]],
   [mkTile 1 0 6 [6],
    mkTile 1 1 0 [4, 7],
    mkTile 1 2 0 [2, 4],
    mkTile 1 3 1 [1],
    mkTile 1 4 9 [9],
    mkTile 1 5 5 [5],
    mkTile 1 6 3 [3],
    mkTile 1 7 0 [2, 4],
    mkTile 1 8 8 [8]],
   [mkTile 2 0 1 [1],
    mkTile 2 1 9 [9],
    mkTile 2 2 8 [8],
    mkTile 2 3 3 [3],
    mkTile 2 4 4 [4],
    mkTile 2 5 2 [2],
    mkTile 2 6 5 [5],
    mkTile 2 7 6 [6],
    mkTile 2 8 7 [7]],
   [mkTile 3 0 8 [8],
    mkTile 3 1 5 [5],
    mkTile 3 2 0 [5, 9],
    mkTile 3 3 7 [7],
    mkTile 3 4 6 [6],
    mkTile 3 5 1 [1],
    mkTile 3 6 4 [4],
    mkTile 3 7 2 [2],
    mkTile 3 8 3 [3]],
   [mkTile 4 0 4 [4],
    mkTile 4 1 2 [2],
    mkTile 4 2 6 [6],
    mkTile 4 3 8 [8],
    mkTile 4 4 5 [5],
    mkTile 4 5 3 [3],
    mkTile 4 6 7 [7],
    mkTile 4 7 9 [9],
    mkTile 4 8 1 [1]],
   [mkTile 5 0 7 [7],
    mkTile 5 1 1 [1],
    mkTile 5 2 3 [3],
    mkTile 5 3 9 [9],
    mkTile 5 4 2 [2],
    mkTile 5 5 4 [4],
    mkTile 5 6 8 [8],
    mkTile 5 7 5 [5],
    mkTile 5 8 6 [6]],
   [mkTile 6 0 9 [9],
    mkTile 6 1 6 [6],
    mkTile 6 2 1 [1],
    mkTile 6 3 5 [5],
    mkTile 6 4 3 [3],
    mkTile 6 5 7 [7],
    mkTile 6 6 2 [2],
    mkTile 6 7 8 [8],
    mkTile 6 8 4 [4]],
   [mkTile 7 0 2 [2],
    mkTile 7 1 8 [8],
    mkTile 7 2 7 [7],
    mkTile 7 3 4 [4],
    mkTile 7 4 1 [1],
    mkTile 7 5 9 [9],
    mkTile 7 6 6 [6],
    mkTile 7 7 3 [3],
    mkTile 7 8 5 [5]],
   [mkTile 8 0 3 [3],
    mkTile 8 1 0 [4, 5],
    mkTile 8 2 0 [4, 5],
    mkTile 8 3 2 [2],
    mkTile 8 4 8 [8],
    mkTile 8 5 6 [6],
    mkTile 8 6 1 [1],
    mkTile 8 7 7 [7],
    mkTile 8 8 9 [9]]]

/-- Intermediate board literal of the staged `propagate` computation. -/
def SB6 : Board :=
  [   [mkTile 0 0 5 [5],
    mkTile 0 1 3 [3],
    mkTile 0 2 0 [2, 4],
    mkTile 0 3 6 [6],
    mkTile 0 4 7 [7],
    mkTile 0 5 8 [8],
    mkTile 0 6 9 [9],
    mkTile 0 7 0 [1, 4],
    mkTile 0 8 2 [2]],
   [mkTile 1 0 6 [6],
    mkTile 1 1 0 [4, 7],
    mkTile 1 2 0 [2, 4],
    mkTile 1 3 1 [1],
    mkTile 1 4 9 [9],
    mkTile 1 5 5 [5],
    mkTile 1 6 3 [3],
    mkTile 1 7 4 [4],
    mkTile 1 8 8 [8]],
   [mkTile 2 0 1 [1],
    mkTile 2 1 9 [9],
    mkTile 2 2 8 [8],
    mkTile 2 3 3 [3],
    mkTile 2 4 4 [4],
    mkTile 2 5 2 [2],
    mkTile 2 6 5 [5],
    mkTile 2 7 6 [6],
    mkTile 2 8 7 [7]],
   [mkTile 3 0 8 [8],
    mkTile 3 1 5 [5],
    mkTile 3 2 9 [9],
    mkTile 3 3 7 [7],
    mkTile 3 4 6 [6],
    mkTile 3 5 1 [1],
    mkTile 3 6 4 [4],
    mkTile 3 7 2 [2],
    mkTile 3 8 3 [3]],
   [mkTile 4 0 4 [4],
    mkTile 4 1 2 [2],
    mkTile 4 2 6 [6],
    mkTile 4 3 8 [8],
    mkTile 4 4 5 [5],
    mkTile 4 5 3 [3],
    mkTile 4 6 7 [7],
    mkTile 4 7 9 [9],
    mkTile 4 8 1 [1]],
   [mkTile 5 0 7 [7],
    mkTile 5 1 1 [1],
    mkTile 5 2 3 [3],
    mkTile 5 3 9 [9],
    mkTile 5 4 2 [2],
    mkTile 5 5 4 [4],
    mkTile 5 6 8 [8],
    mkTile 5 7 5 [5],
    mkTile 5 8 6 [6]],
   [mkTile 6 0 9 [9],
    mkTile 6 1 6 [6],
    mkTile 6 2 1 [1],
    mkTile 6 3 5 [5],
    mkTile 6 4 3 [3],
    mkTile 6 5 7 [7],
    mkTile 6 6 2 [2],
    mkTile 6 7 8 [8],
    mkTile 6 8 4 [4]],
   [mkTile 7 0 2 [2],
    mkTile 7 1 8 [8],
    mkTile 7 2 7 [7],
    mkTile 7 3 4 [4],
    mkTile 7 4 1 [1],
    mkTile 7 5 9 [9],
    mkTile 7 6 6 [6],
    mkTile 7 7 3 [3],
    mkTile 7 8 5 [5]],
   [mkTile 8 0 3 [3],
    mkTile 8 1 0 [4, 5],
    mkTile 8 2 0 [4, 5],
    mkTile 8 3 2 [2],
    mkTile 8 4 8 [8],
    mkTile 8 5 6 [6],
    mkTile 8 6 1 [1],
    mkTile 8 7 7 [7],
    mkTile 8 8 9 [9]]]

/-- Intermediate board literal of the staged `propagate` computation. -/
def NKA7 : Board :=
  [   [mkTile 0 0 5 [5],
    mkTile 0 1 3 [3],
    mkTile 0 2 4 [4],
    mkTile 0 3 6 [6],
    mkTile 0 4 7 [7],
    mkTile 0 5 8 [8],
    mkTile 0 6 9 [9],
    mkTile 0 7 0 [1, 4],
    mkTile 0 8 2 [2]],
   [mkTile 1 0 6 [6],
    mkTile 1 1 7 [7],
    mkTile 1 2 2 [2],
    mkTile 1 3 1 [1],
    mkTile 1 4 9 [9],
    mkTile 1 5 5 [5],
    mkTile 1 6 3 [3],
    mkTile 1 7 4 [4],
    mkTile 1 8 8 [8]],
   [mkTile 2 0 1 [1],
    mkTile 2 1 9 [9],
    mkTile 2 2 8 [8],
    mkTile 2 3 3 [3],
    mkTile 2 4 4 [4],
    mkTile 2 5 2 [2],
    mkTile 2 6 5 [5],
    mkTile 2 7 6 [6],
    mkTile 2 8 7 [7]],
   [mkTile 3 0 8 [8],
    mkTile 3 1 5 [5],
    mkTile 3 2 9 [9],
    mkTile 3 3 7 [7],
    mkTile 3 4 6 [6],
    mkTile 3 5 1 [1],
    mkTile 3 6 4 [4],
    mkTile 3 7 2 [2],
    mkTile 3 8 3 [3]],
   [mkTile 4 0 4 [4],
    mkTile 4 1 2 [2],
    mkTile 4 2 6 [6],
    mkTile 4 3 8 [8],
    mkTile 4 4 5 [5],
    mkTile 4 5 3 [3],
    mkTile 4 6 7 [7],
    mkTile 4 7 9 [9],
    mkTile 4 8 1 [1]],
   [mkTile 5 0 7 [7],
    mkTile 5 1 1 [1],
    mkTile 5 2 3 [3],
    mkTile 5 3 9 [9],
    mkTile 5 4 2 [2],
    mkTile 5 5 4 [4],
    mkTile 5 6 8 [8],
    mkTile 5 7 5 [5],
    mkTile 5 8 6 [6]],
   [mkTile 6 0 9 [9],
    mkTile 6 1 6 [6],
    mkTile 6 2 1 [1],
    mkTile 6 3 5 [5],
    mkTile 6 4 3 [3],
    mkTile 6 5 7 [7],
    mkTile 6 6 2 [2],
    mkTile 6 7 8 [8],
    mkTile 6 8 4 [4]],
   [mkTile 7 0 2 [2],
    mkTile 7 1 8 [8],
    mkTile 7 2 7 [7],
    mkTile 7 3 4 [4],
    mkTile 7 4 1 [1],
    mkTile 7 5 9 [9],
    mkTile 7 6 6 [6],
    mkTile 7 7 3 [3],
    mkTile 7 8 5 [5]],
   [mkTile 8 0 3 [3],
    mkTile 8 1 0 [4, 5],
    mkTile 8 2 0 [4, 5],
    mkTile 8 3 2 [2],
    mkTile 8 4 8 [8],
    mkTile 8 5 6 [6],
    mkTile 8 6 1 [1],
    mkTile 8 7 7 [7],
    mkTile 8 8 9 [9]]]

/-- Intermediate board literal of the staged `propagate` computation. -/
def NKB7 : Board :=
  [   [mkTile 0 0 5 [5],
    mkTile 0 1 3 [3],
    mkTile 0 2 4 [4],
    mkTile 0 3 6 [6],
    mkTile 0 4 7 [7],
    mkTile 0 5 8 [8],
    mkTile 0 6 9 [9],
    mkTile 0 7 1 [1],
    mkTile 0 8 2 [2]],
   [mkTile 1 0 6 [6],
    mkTile 1 1 7 [7],
    mkTile 1 2 2 [2],
    mkTile 1 3 1 [1],
    mkTile 1 4 9 [9],
    mkTile 1 5 5 [5],
    mkTile 1 6 3 [3],
    mkTile 1 7 4 [4],
    mkTile 1 8 8 [8]],
   [mkTile 2 0 1 [1],
    mkTile 2 1 9 [9],
    mkTile 2 2 8 [8],
    mkTile 2 3 3 [3],
    mkTile 2 4 4 [4],
    mkTile 2 5 2 [2],
    mkTile 2 6 5 [5],
    mkTile 2 7 6 [6],
    mkTile 2 8 7 [7]],
   [mkTile 3 0 8 [8],
    mkTile 3 1 5 [5],
    mkTile 3 2 9 [9],
    mkTile 3 3 7 [7],
    mkTile 3 4 6 [6],
    mkTile 3 5 1 [1],
    mkTile 3 6 4 [4],
    mkTile 3 7 2 [2],
    mkTile 3 8 3 [3]],
   [mkTile 4 0 4 [4],
    mkTile 4 1 2 [2],
    mkTile 4 2 6 [6],
    mkTile 4 3 8 [8],
    mkTile 4 4 5 [5],
    mkTile 4 5 3 [3],
    mkTile 4 6 7 [7],
    mkTile 4 7 9 [9],
    mkTile 4 8 1 [1]],
   [mkTile 5 0 7 [7],
    mkTile 5 1 1 [1],
    mkTile 5 2 3 [3],
    mkTile 5 3 9 [9],
    mkTile 5 4 2 [2],
    mkTile 5 5 4 [4],
    mkTile 5 6 8 [8],
    mkTile 5 7 5 [5],
    mkTile 5 8 6 [6]],
   [mkTile 6 0 9 [9],
    mkTile 6 1 6 [6],
    mkTile 6 2 1 [1],
    mkTile 6 3 5 [5],
    mkTile 6 4 3 [3],
    mkTile 6 5 7 [7],
    mkTile 6 6 2 [2],
    mkTile 6 7 8 [8],
    mkTile 6 8 4 [4]],
   [mkTile 7 0 2 [2],
    mkTile 7 1 8 [8],
    mkTile 7 2 7 [7],
    mkTile 7 3 4 [4],
    mkTile 7 4 1 [1],
    mkTile 7 5 9 [9],
    mkTile 7 6 6 [6],
    mkTile 7 7 3 [3],
    mkTile 7 8 5 [5]],
   [mkTile 8 0 3 [3],
    mkTile 8 1 4 [4],
    mkTile 8 2 5 [5],
    mkTile 8 3 2 [2],
    mkTile 8 4 8 [8],
    mkTile 8 5 6 [6],
    mkTile 8 6 1 [1],
    mkTile 8 7 7 [7],
    mkTile 8 8 9 [9]]]

/-- Intermediate board literal of the staged `propagate` computation. -/
def SB7 : Board :=
  [   [mkTile 0 0 5 [5],
    mkTile 0 1 3 [3],
    mkTile 0 2 4 [4],
    mkTile 0 3 6 [6],
    mkTile 0 4 7 [7],
    mkTile 0 5 8 [8],
    mkTile 0 6 9 [9],
    mkTile 0 7 1 [1],
    mkTile 0 8 2 [2]],
   [mkTile 1 0 6 [6],
    mkTile 1 1 7 [7],
    mkTile 1 2 2 [2],
    mkTile 1 3 1 [1],
    mkTile 1 4 9 [9],
    mkTile 1 5 5 [5],
    mkTile 1 6 3 [3],
    mkTile 1 7 4 [4],
    mkTile 1 8 8 [8]],
   [mkTile 2 0 1 [1],
    mkTile 2 1 9 [9],
    mkTile 2 2 8 [8],
    mkTile 2 3 3 [3],
    mkTile 2 4 4 [4],
    mkTile 2 5 2 [2],
    mkTile 2 6 5 [5],
    mkTile 2 7 6 [6],
    mkTile 2 8 7 [7]],
   [mkTile 3 0 8 [8],
    mkTile 3 1 5 [5],
    mkTile 3 2 9 [9],
    mkTile 3 3 7 [7],
    mkTile 3 4 6 [6],
    mkTile 3 5 1 [1],
    mkTile 3 6 4 [4],
    mkTile 3 7 2 [2],
    mkTile 3 8 3 [3]],
   [mkTile 4 0 4 [4],
    mkTile 4 1 2 [2],
    mkTile 4 2 6 [6],
    mkTile 4 3 8 [8],
    mkTile 4 4 5 [5],
    mkTile 4 5 3 [3],
    mkTile 4 6 7 [7],
    mkTile 4 7 9 [9],
    mkTile 4 8 1 [1]],
   [mkTile 5 0 7 [7],
    mkTile 5 1 1 [1],
    mkTile 5 2 3 [3],
    mkTile 5 3 9 [9],
    mkTile 5 4 2 [2],
    mkTile 5 5 4 [4],
    mkTile 5 6 8 [8],
    mkTile 5 7 5 [5],
    mkTile 5 8 6 [6]],
   [mkTile 6 0 9 [9],
    mkTile 6 1 6 [6],
    mkTile 6 2 1 [1],
    mkTile 6 3 5 [5],
    mkTile 6 4 3 [3],
    mkTile 6 5 7 [7],
    mkTile 6 6 2 [2],
    mkTile 6 7 8 [8],
    mkTile 6 8 4 [4]],
   [mkTile 7 0 2 [2],
    mkTile 7 1 8 [8],
    mkTile 7 2 7 [7],
    mkTile 7 3 4 [4],
    mkTile 7 4 1 [1],
    mkTile 7 5 9 [9],
    mkTile 7 6 6 [6],
    mkTile 7 7 3 [3],
    mkTile 7 8 5 [5]],
   [mkTile 8 0 3 [3],
    mkTile 8 1 4 [4],
    mkTile 8 2 5 [5],
    mkTile 8 3 2 [2],
    mkTile 8 4 8 [8],
    mkTile 8 5 6 [6],
    mkTile 8 6 1 [1],
    mkTile 8 7 7 [7],
    mkTile 8 8 9 [9]]]


/-- A grid with the single clue `5` at `(0, 0)`. -/
def gridOne5 : List (List Nat) :=
  [[5, 0, 0, 0, 0, 0, 0, 0, 0],
   [0, 0, 0, 0, 0, 0, 0, 0, 0],
   [0, 0, 0, 0, 0, 0, 0, 0, 0],
   [0, 0, 0, 0, 0, 0, 0, 0, 0],
   [0, 0, 0, 0, 0, 0, 0, 0, 0],
   [0, 0, 0, 0, 0, 0, 0, 0, 0],
   [0, 0, 0, 0, 0, 0, 0, 0, 0],
   [0, 0, 0, 0, 0, 0, 0, 0, 0],
   [0, 0, 0, 0, 0, 0, 0, 0, 0]]

/-- `gridOne5` with the malformed entry `37` in place of the clue. -/
def gridBad : List (List Nat) :=
  [[37, 0, 0, 0, 0, 0, 0, 0, 0],
   [0, 0, 0, 0, 0, 0, 0, 0, 0],
   [0, 0, 0, 0, 0, 0, 0, 0, 0],
   [0, 0, 0, 0, 0, 0, 0, 0, 0],
   [0, 0, 0, 0, 0, 0, 0, 0, 0],
   [0, 0, 0, 0, 0, 0, 0, 0, 0],
   [0, 0, 0, 0, 0, 0, 0, 0, 0],
   [0, 0, 0, 0, 0, 0, 0, 0, 0],
   [0, 0, 0, 0, 0, 0, 0, 0, 0]]

/-- A contradictory grid: two `5`s in row 0, everything else `UNKNOWN`. -/
def gridTwo5 : List (List Nat) :=
  [[5, 5, 0, 0, 0, 0, 0, 0, 0],
   [0, 0, 0, 0, 0, 0, 0, 0, 0],
   [0, 0, 0, 0, 0, 0, 0, 0, 0],
   [0, 0, 0, 0, 0, 0, 0, 0, 0],
   [0, 0, 0, 0, 0, 0, 0, 0, 0],
   [0, 0, 0, 0, 0, 0, 0, 0, 0],
   [0, 0, 0, 0, 0, 0, 0, 0, 0],
   [0, 0, 0, 0, 0, 0, 0, 0, 0],
   [0, 0, 0, 0, 0, 0, 0, 0, 0]]

/-- The contradictory board, as `solve` receives it. -/
def bcontra : Board := Board.init.set_tiles gridTwo5

/-- The board loaded from `gridOne5`. -/
def bOne5 : Board := Board.init.set_tiles gridOne5

/-- Literal form of `bOne5`. -/
def B15L : Board :=
  [   [mkTile 0 0 5 [5],
    mkTile 0 1 0 [1, 2, 3, 4, 5, 6, 7, 8, 9],
    mkTile 0 2 0 [1, 2, 3, 4, 5, 6, 7, 8, 9],
    mkTile 0 3 0 [1, 2, 3, 4, 5, 6, 7, 8, 9],
    mkTile 0 4 0 [1, 2, 3, 4, 5, 6, 7, 8, 9],
    mkTile 0 5 0 [1, 2, 3, 4, 5, 6, 7, 8, 9],
    mkTile 0 6 0 [1, 2, 3, 4, 5, 6, 7, 8, 9],
    mkTile 0 7 0 [1, 2, 3, 4, 5, 6, 7, 8, 9],
    mkTile 0 8 0 [1, 2, 3, 4, 5, 6, 7, 8, 9]],
   [mkTile 1 0 0 [1, 2, 3, 4, 5, 6, 7, 8, 9],
    mkTile 1 1 0 [1, 2, 3, 4, 5, 6, 7, 8, 9],
    mkTile 1 2 0 [1, 2, 3, 4, 5, 6, 7, 8, 9],
    mkTile 1 3 0 [1, 2, 3, 4, 5, 6, 7, 8, 9],
    mkTile 1 4 0 [1, 2, 3, 4, 5, 6, 7, 8, 9],
    mkTile 1 5 0 [1, 2, 3, 4, 5, 6, 7, 8, 9],
    mkTile 1 6 0 [1, 2, 3, 4, 5, 6, 7, 8, 9],
    mkTile 1 7 0 [1, 2, 3, 4, 5, 6, 7, 8, 9],
    mkTile 1 8 0 [1, 2, 3, 4, 5, 6, 7, 8, 9]],
   [mkTile 2 0 0 [1, 2, 3, 4, 5, 6, 7, 8, 9],
    mkTile 2 1 0 [1, 2, 3, 4, 5, 6, 7, 8, 9],
    mkTile 2 2 0 [1, 2, 3, 4, 5, 6, 7, 8, 9],
    mkTile 2 3 0 [1, 2, 3, 4, 5, 6, 7, 8, 9],
    mkTile 2 4 0 [1, 2, 3, 4, 5, 6, 7, 8, 9],
    mkTile 2 5 0 [1, 2, 3, 4, 5, 6, 7, 8, 9],
    mkTile 2 6 0 [1, 2, 3, 4, 5, 6, 7, 8, 9],
    mkTile 2 7 0 [1, 2, 3, 4, 5, 6, 7, 8, 9],
    mkTile 2 8 0 [1, 2, 3, 4, 5, 6, 7, 8, 9]],
   [mkTile 3 0 0 [1, 2, 3, 4, 5, 6, 7, 8, 9],
    mkTile 3 1 0 [1, 2, 3, 4, 5, 6, 7, 8, 9],
    mkTile 3 2 0 [1, 2, 3, 4, 5, 6, 7, 8, 9],
    mkTile 3 3 0 [1, 2, 3, 4, 5, 6, 7, 8, 9],
    mkTile 3 4 0 [1, 2, 3, 4, 5, 6, 7, 8, 9],
    mkTile 3 5 0 [1, 2, 3, 4, 5, 6, 7, 8, 9],
    mkTile 3 6 0 [1, 2, 3, 4, 5, 6, 7, 8, 9],
    mkTile 3 7 0 [1, 2, 3, 4, 5, 6, 7, 8, 9],
    mkTile 3 8 0 [1, 2, 3, 4, 5, 6, 7, 8, 9]],
   [mkTile 4 0 0 [1, 2, 3, 4, 5, 6, 7, 8, 9],
    mkTile 4 1 0 [1, 2, 3, 4, 5, 6, 7, 8, 9],
    mkTile 4 2 0 [1, 2, 3, 4, 5, 6, 7, 8, 9],
    mkTile 4 3 0 [1, 2, 3, 4, 5, 6, 7, 8, 9],
    mkTile 4 4 0 [1, 2, 3, 4, 5, 6, 7, 8, 9],
    mkTile 4 5 0 [1, 2, 3, 4, 5, 6, 7, 8, 9],
    mkTile 4 6 0 [1, 2, 3, 4, 5, 6, 7, 8, 9],
    mkTile 4 7 0 [1, 2, 3, 4, 5, 6, 7, 8, 9],
    mkTile 4 8 0 [1, 2, 3, 4, 5, 6, 7, 8, 9]],
   [mkTile 5 0 0 [1, 2, 3, 4, 5, 6, 7, 8, 9],
    mkTile 5 1 0 [1, 2, 3, 4, 5, 6, 7, 8, 9],
    mkTile 5 2 0 [1, 2, 3, 4, 5, 6, 7, 8, 9],
    mkTile 5 3 0 [1, 2, 3, 4, 5, 6, 7, 8, 9],
    mkTile 5 4 0 [1, 2, 3, 4, 5, 6, 7, 8, 9],
    mkTile 5 5 0 [1, 2, 3, 4, 5, 6, 7, 8, 9],
    mkTile 5 6 0 [1, 2, 3, 4, 5, 6, 7, 8, 9],
    mkTile 5 7 0 [1, 2, 3, 4, 5, 6, 7, 8, 9],
    mkTile 5 8 0 [1, 2, 3, 4, 5, 6, 7, 8, 9]],
   [mkTile 6 0 0 [1, 2, 3, 4, 5, 6, 7, 8, 9],
    mkTile 6 1 0 [1, 2, 3, 4, 5, 6, 7, 8, 9],
    mkTile 6 2 0 [1, 2, 3, 4, 5, 6, 7, 8, 9],
    mkTile 6 3 0 [1, 2, 3, 4, 5, 6, 7, 8, 9],
    mkTile 6 4 0 [1, 2, 3, 4, 5, 6, 7, 8, 9],
    mkTile 6 5 0 [1, 2, 3, 4, 5, 6, 7, 8, 9],
    mkTile 6 6 0 [1, 2, 3, 4, 5, 6, 7, 8, 9],
    mkTile 6 7 0 [1, 2, 3, 4, 5, 6, 7, 8, 9],
    mkTile 6 8 0 [1, 2, 3, 4, 5, 6, 7, 8, 9]],
   [mkTile 7 0 0 [1, 2, 3, 4, 5, 6, 7, 8, 9],
    mkTile 7 1 0 [1, 2, 3, 4, 5, 6, 7, 8, 9],
    mkTile 7 2 0 [1, 2, 3, 4, 5, 6, 7, 8, 9],
    mkTile 7 3 0 [1, 2, 3, 4, 5, 6, 7, 8, 9],
    mkTile 7 4 0 [1, 2, 3, 4, 5, 6, 7, 8, 9],
    mkTile 7 5 0 [1, 2, 3, 4, 5, 6, 7, 8, 9],
    mkTile 7 6 0 [1, 2, 3, 4, 5, 6, 7, 8, 9],
    mkTile 7 7 0 [1, 2, 3, 4, 5, 6, 7, 8, 9],
    mkTile 7 8 0 [1, 2, 3, 4, 5, 6, 7, 8, 9]],
   [mkTile 8 0 0 [1, 2, 3, 4, 5, 6, 7, 8, 9],
    mkTile 8 1 0 [1, 2, 3, 4, 5, 6, 7, 8, 9],
    mkTile 8 2 0 [1, 2, 3, 4, 5, 6, 7, 8, 9],
    mkTile 8 3 0 [1, 2, 3, 4, 5, 6, 7, 8, 9],
    mkTile 8 4 0 [1, 2, 3, 4, 5, 6, 7, 8, 9],
    mkTile 8 5 0 [1, 2, 3, 4, 5, 6, 7, 8, 9],
    mkTile 8 6 0 [1, 2, 3, 4, 5, 6, 7, 8, 9],
    mkTile 8 7 0 [1, 2, 3, 4, 5, 6, 7, 8, 9],
    mkTile 8 8 0 [1, 2, 3, 4, 5, 6, 7, 8, 9]]]

/-- Row-groups naked pass over `B15L`. -/
def N5A : Board :=
  [   [mkTile 0 0 5 [5],
    mkTile 0 1 0 [1, 2, 3, 4, 6, 7, 8, 9],
    mkTile 0 2 0 [1, 2, 3, 4, 6, 7, 8, 9],
    mkTile 0 3 0 [1, 2, 3, 4, 6, 7, 8, 9],
    mkTile 0 4 0 [1, 2, 3, 4, 6, 7, 8, 9],
    mkTile 0 5 0 [1, 2, 3, 4, 6, 7, 8, 9],
    mkTile 0 6 0 [1, 2, 3, 4, 6, 7, 8, 9],
    mkTile 0 7 0 [1, 2, 3, 4, 6, 7, 8, 9],
    mkTile 0 8 0 [1, 2, 3, 4, 6, 7, 8, 9]],
   [mkTile 1 0 0 [1, 2, 3, 4, 5, 6, 7, 8, 9],
    mkTile 1 1 0 [1, 2, 3, 4, 5, 6, 7, 8, 9],
    mkTile 1 2 0 [1, 2, 3, 4, 5, 6, 7, 8, 9],
    mkTile 1 3 0 [1, 2, 3, 4, 5, 6, 7, 8, 9],
    mkTile 1 4 0 [1, 2, 3, 4, 5, 6, 7, 8, 9],
    mkTile 1 5 0 [1, 2, 3, 4, 5, 6, 7, 8, 9],
    mkTile 1 6 0 [1, 2, 3, 4, 5, 6, 7, 8, 9],
    mkTile 1 7 0 [1, 2, 3, 4, 5, 6, 7, 8, 9],
    mkTile 1 8 0 [1, 2, 3, 4, 5, 6, 7, 8, 9]],
   [mkTile 2 0 0 [1, 2, 3, 4, 5, 6, 7, 8, 9],
    mkTile 2 1 0 [1, 2, 3, 4, 5, 6, 7, 8, 9],
    mkTile 2 2 0 [1, 2, 3, 4, 5, 6, 7, 8, 9],
    mkTile 2 3 0 [1, 2, 3, 4, 5, 6, 7, 8, 9],
    mkTile 2 4 0 [1, 2, 3, 4, 5, 6, 7, 8, 9],
    mkTile 2 5 0 [1, 2, 3, 4, 5, 6, 7, 8, 9],
    mkTile 2 6 0 [1, 2, 3, 4, 5, 6, 7, 8, 9],
    mkTile 2 7 0 [1, 2, 3, 4, 5, 6, 7, 8, 9],
    mkTile 2 8 0 [1, 2, 3, 4, 5, 6, 7, 8, 9]],
   [mkTile 3 0 0 [1, 2, 3, 4, 5, 6, 7, 8, 9],
    mkTile 3 1 0 [1, 2, 3, 4, 5, 6, 7, 8, 9],
    mkTile 3 2 0 [1, 2, 3, 4, 5, 6, 7, 8, 9],
    mkTile 3 3 0 [1, 2, 3, 4, 5, 6, 7, 8, 9],
    mkTile 3 4 0 [1, 2, 3, 4, 5, 6, 7, 8, 9],
    mkTile 3 5 0 [1, 2, 3, 4, 5, 6, 7, 8, 9],
    mkTile 3 6 0 [1, 2, 3, 4, 5, 6, 7, 8, 9],
    mkTile 3 7 0 [1, 2, 3, 4, 5, 6, 7, 8, 9],
    mkTile 3 8 0 [1, 2, 3, 4, 5, 6, 7, 8, 9]],
   [mkTile 4 0 0 [1, 2, 3, 4, 5, 6, 7, 8, 9],
    mkTile 4 1 0 [1, 2, 3, 4, 5, 6, 7, 8, 9],
    mkTile 4 2 0 [1, 2, 3, 4, 5, 6, 7, 8, 9],
    mkTile 4 3 0 [1, 2, 3, 4, 5, 6, 7, 8, 9],
    mkTile 4 4 0 [1, 2, 3, 4, 5, 6, 7, 8, 9],
    mkTile 4 5 0 [1, 2, 3, 4, 5, 6, 7, 8, 9],
    mkTile 4 6 0 [1, 2, 3, 4, 5, 6, 7, 8, 9],
    mkTile 4 7 0 [1, 2, 3, 4, 5, 6, 7, 8, 9],
    mkTile 4 8 0 [1, 2, 3, 4, 5, 6, 7, 8, 9]],
   [mkTile 5 0 0 [1, 2, 3, 4, 5, 6, 7, 8, 9],
    mkTile 5 1 0 [1, 2, 3, 4, 5, 6, 7, 8, 9],
    mkTile 5 2 0 [1, 2, 3, 4, 5, 6, 7, 8, 9],
    mkTile 5 3 0 [1, 2, 3, 4, 5, 6, 7, 8, 9],
    mkTile 5 4 0 [1, 2, 3, 4, 5, 6, 7, 8, 9],
    mkTile 5 5 0 [1, 2, 3, 4, 5, 6, 7, 8, 9],
    mkTile 5 6 0 [1, 2, 3, 4, 5, 6, 7, 8, 9],
    mkTile 5 7 0 [1, 2, 3, 4, 5, 6, 7, 8, 9],
    mkTile 5 8 0 [1, 2, 3, 4, 5, 6, 7, 8, 9]],
   [mkTile 6 0 0 [1, 2, 3, 4, 5, 6, 7, 8, 9],
    mkTile 6 1 0 [1, 2, 3, 4, 5, 6, 7, 8, 9],
    mkTile 6 2 0 [1, 2, 3, 4, 5, 6, 7, 8, 9],
    mkTile 6 3 0 [1, 2, 3, 4, 5, 6, 7, 8, 9],
    mkTile 6 4 0 [1, 2, 3, 4, 5, 6, 7, 8, 9],
    mkTile 6 5 0 [1, 2, 3, 4, 5, 6, 7, 8, 9],
    mkTile 6 6 0 [1, 2, 3, 4, 5, 6, 7, 8, 9],
    mkTile 6 7 0 [1, 2, 3, 4, 5, 6, 7, 8, 9],
    mkTile 6 8 0 [1, 2, 3, 4, 5, 6, 7, 8, 9]],
   [mkTile 7 0 0 [1, 2, 3, 4, 5, 6, 7, 8, 9],
    mkTile 7 1 0 [1, 2, 3, 4, 5, 6, 7, 8, 9],
    mkTile 7 2 0 [1, 2, 3, 4, 5, 6, 7, 8, 9],
    mkTile 7 3 0 [1, 2, 3, 4, 5, 6, 7, 8, 9],
    mkTile 7 4 0 [1, 2, 3, 4, 5, 6, 7, 8, 9],
    mkTile 7 5 0 [1, 2, 3, 4, 5, 6, 7, 8, 9],
    mkTile 7 6 0 [1, 2, 3, 4, 5, 6, 7, 8, 9],
    mkTile 7 7 0 [1, 2, 3, 4, 5, 6, 7, 8, 9],
    mkTile 7 8 0 [1, 2, 3, 4, 5, 6, 7, 8, 9]],
   [mkTile 8 0 0 [1, 2, 3, 4, 5, 6, 7, 8, 9],
    mkTile 8 1 0 [1, 2, 3, 4, 5, 6, 7, 8, 9],
    mkTile 8 2 0 [1, 2, 3, 4, 5, 6, 7, 8, 9],
    mkTile 8 3 0 [1, 2, 3, 4, 5, 6, 7, 8, 9],
    mkTile 8 4 0 [1, 2, 3, 4, 5, 6, 7, 8, 9],
    mkTile 8 5 0 [1, 2, 3, 4, 5, 6, 7, 8, 9],
    mkTile 8 6 0 [1, 2, 3, 4, 5, 6, 7, 8, 9],
    mkTile 8 7 0 [1, 2, 3, 4, 5, 6, 7, 8, 9],
    mkTile 8 8 0 [1, 2, 3, 4, 5, 6, 7, 8, 9]]]

/-- Column-groups naked pass continuing from `N5A`. -/
def N5B : Board :=
  [   [mkTile 0 0 5 [5],
    mkTile 0 1 0 [1, 2, 3, 4, 6, 7, 8, 9],
    mkTile 0 2 0 [1, 2, 3, 4, 6, 7, 8, 9],
    mkTile 0 3 0 [1, 2, 3, 4, 6, 7, 8, 9],
    mkTile 0 4 0 [1, 2, 3, 4, 6, 7, 8, 9],
    mkTile 0 5 0 [1, 2, 3, 4, 6, 7, 8, 9],
    mkTile 0 6 0 [1, 2, 3, 4, 6, 7, 8, 9],
    mkTile 0 7 0 [1, 2, 3, 4, 6, 7, 8, 9],
    mkTile 0 8 0 [1, 2, 3, 4, 6, 7, 8, 9]],
   [mkTile 1 0 0 [1, 2, 3, 4, 6, 7, 8, 9],
    mkTile 1 1 0 [1, 2, 3, 4, 5, 6, 7, 8, 9],
    mkTile 1 2 0 [1, 2, 3, 4, 5, 6, 7, 8, 9],
    mkTile 1 3 0 [1, 2, 3, 4, 5, 6, 7, 8, 9],
    mkTile 1 4 0 [1, 2, 3, 4, 5, 6, 7, 8, 9],
    mkTile 1 5 0 [1, 2, 3, 4, 5, 6, 7, 8, 9],
    mkTile 1 6 0 [1, 2, 3, 4, 5, 6, 7, 8, 9],
    mkTile 1 7 0 [1, 2, 3, 4, 5, 6, 7, 8, 9],
    mkTile 1 8 0 [1, 2, 3, 4, 5, 6, 7, 8, 9]],
   [mkTile 2 0 0 [1, 2, 3, 4, 6, 7, 8, 9],
    mkTile 2 1 0 [1, 2, 3, 4, 5, 6, 7, 8, 9],
    mkTile 2 2 0 [1, 2, 3, 4, 5, 6, 7, 8, 9],
    mkTile 2 3 0 [1, 2, 3, 4, 5, 6, 7, 8, 9],
    mkTile 2 4 0 [1, 2, 3, 4, 5, 6, 7, 8, 9],
    mkTile 2 5 0 [1, 2, 3, 4, 5, 6, 7, 8, 9],
    mkTile 2 6 0 [1, 2, 3, 4, 5, 6, 7, 8, 9],
    mkTile 2 7 0 [1, 2, 3, 4, 5, 6, 7, 8, 9],
    mkTile 2 8 0 [1, 2, 3, 4, 5, 6, 7, 8, 9]],
   [mkTile 3 0 0 [1, 2, 3, 4, 6, 7, 8, 9],
    mkTile 3 1 0 [1, 2, 3, 4, 5, 6, 7, 8, 9],
    mkTile 3 2 0 [1, 2, 3, 4, 5, 6, 7, 8, 9],
    mkTile 3 3 0 [1, 2, 3, 4, 5, 6, 7, 8, 9],
    mkTile 3 4 0 [1, 2, 3, 4, 5, 6, 7, 8, 9],
    mkTile 3 5 0 [1, 2, 3, 4, 5, 6, 7, 8, 9],
    mkTile 3 6 0 [1, 2, 3, 4, 5, 6, 7, 8, 9],
    mkTile 3 7 0 [1, 2, 3, 4, 5, 6, 7, 8, 9],
    mkTile 3 8 0 [1, 2, 3, 4, 5, 6, 7, 8, 9]],
   [mkTile 4 0 0 [1, 2, 3, 4, 6, 7, 8, 9],
    mkTile 4 1 0 [1, 2, 3, 4, 5, 6, 7, 8, 9],
    mkTile 4 2 0 [1, 2, 3, 4, 5, 6, 7, 8, 9],
    mkTile 4 3 0 [1, 2, 3, 4, 5, 6, 7, 8, 9],
    mkTile 4 4 0 [1, 2, 3, 4, 5, 6, 7, 8, 9],
    mkTile 4 5 0 [1, 2, 3, 4, 5, 6, 7, 8, 9],
    mkTile 4 6 0 [1, 2, 3, 4, 5, 6, 7, 8, 9],
    mkTile 4 7 0 [1, 2, 3, 4, 5, 6, 7, 8, 9],
    mkTile 4 8 0 [1, 2, 3, 4, 5, 6, 7, 8, 9]],
   [mkTile 5 0 0 [1, 2, 3, 4, 6, 7, 8, 9],
    mkTile 5 1 0 [1, 2, 3, 4, 5, 6, 7, 8, 9],
    mkTile 5 2 0 [1, 2, 3, 4, 5, 6, 7, 8, 9],
    mkTile 5 3 0 [1, 2, 3, 4, 5, 6, 7, 8, 9],
    mkTile 5 4 0 [1, 2, 3, 4, 5, 6, 7, 8, 9],
    mkTile 5 5 0 [1, 2, 3, 4, 5, 6, 7, 8, 9],
    mkTile 5 6 0 [1, 2, 3, 4, 5, 6, 7, 8, 9],
    mkTile 5 7 0 [1, 2, 3, 4, 5, 6, 7, 8, 9],
    mkTile 5 8 0 [1, 2, 3, 4, 5, 6, 7, 8, 9]],
   [mkTile 6 0 0 [1, 2, 3, 4, 6, 7, 8, 9],
    mkTile 6 1 0 [1, 2, 3, 4, 5, 6, 7, 8, 9],
    mkTile 6 2 0 [1, 2, 3, 4, 5, 6, 7, 8, 9],
    mkTile 6 3 0 [1, 2, 3, 4, 5, 6, 7, 8, 9],
    mkTile 6 4 0 [1, 2, 3, 4, 5, 6, 7, 8, 9],
    mkTile 6 5 0 [1, 2, 3, 4, 5, 6, 7, 8, 9],
    mkTile 6 6 0 [1, 2, 3, 4, 5, 6, 7, 8, 9],
    mkTile 6 7 0 [1, 2, 3, 4, 5, 6, 7, 8, 9],
    mkTile 6 8 0 [1, 2, 3, 4, 5, 6, 7, 8, 9]],
   [mkTile 7 0 0 [1, 2, 3, 4, 6, 7, 8, 9],
    mkTile 7 1 0 [1, 2, 3, 4, 5, 6, 7, 8, 9],
    mkTile 7 2 0 [1, 2, 3, 4, 5, 6, 7, 8, 9],
    mkTile 7 3 0 [1, 2, 3, 4, 5, 6, 7, 8, 9],
    mkTile 7 4 0 [1, 2, 3, 4, 5, 6, 7, 8, 9],
    mkTile 7 5 0 [1, 2, 3, 4, 5, 6, 7, 8, 9],
    mkTile 7 6 0 [1, 2, 3, 4, 5, 6, 7, 8, 9],
    mkTile 7 7 0 [1, 2, 3, 4, 5, 6, 7, 8, 9],
    mkTile 7 8 0 [1, 2, 3, 4, 5, 6, 7, 8, 9]],
   [mkTile 8 0 0 [1, 2, 3, 4, 6, 7, 8, 9],
    mkTile 8 1 0 [1, 2, 3, 4, 5, 6, 7, 8, 9],
    mkTile 8 2 0 [1, 2, 3, 4, 5, 6, 7, 8, 9],
    mkTile 8 3 0 [1, 2, 3, 4, 5, 6, 7, 8, 9],
    mkTile 8 4 0 [1, 2, 3, 4, 5, 6, 7, 8, 9],
    mkTile 8 5 0 [1, 2, 3, 4, 5, 6, 7, 8, 9],
    mkTile 8 6 0 [1, 2, 3, 4, 5, 6, 7, 8, 9],
    mkTile 8 7 0 [1, 2, 3, 4, 5, 6, 7, 8, 9],
    mkTile 8 8 0 [1, 2, 3, 4, 5, 6, 7, 8, 9]]]

/-- Result of one full `naked_single` pass on `bOne5` (literal form). -/
def BN5 : Board :=
  [   [mkTile 0 0 5 [5],
    mkTile 0 1 0 [1, 2, 3, 4, 6, 7, 8, 9],
    mkTile 0 2 0 [1, 2, 3, 4, 6, 7, 8, 9],
    mkTile 0 3 0 [1, 2, 3, 4, 6, 7, 8, 9],
    mkTile 0 4 0 [1, 2, 3, 4, 6, 7, 8, 9],
    mkTile 0 5 0 [1, 2, 3, 4, 6, 7, 8, 9],
    mkTile 0 6 0 [1, 2, 3, 4, 6, 7, 8, 9],
    mkTile 0 7 0 [1, 2, 3, 4, 6, 7, 8, 9],
    mkTile 0 8 0 [1, 2, 3, 4, 6, 7, 8, 9]],
   [mkTile 1 0 0 [1, 2, 3, 4, 6, 7, 8, 9],
    mkTile 1 1 0 [1, 2, 3, 4, 6, 7, 8, 9],
    mkTile 1 2 0 [1, 2, 3, 4, 6, 7, 8, 9],
    mkTile 1 3 0 [1, 2, 3, 4, 5, 6, 7, 8, 9],
    mkTile 1 4 0 [1, 2, 3, 4, 5, 6, 7, 8, 9],
    mkTile 1 5 0 [1, 2, 3, 4, 5, 6, 7, 8, 9],
    mkTile 1 6 0 [1, 2, 3, 4, 5, 6, 7, 8, 9],
    mkTile 1 7 0 [1, 2, 3, 4, 5, 6, 7, 8, 9],
    mkTile 1 8 0 [1, 2, 3, 4, 5, 6, 7, 8, 9]],
   [mkTile 2 0 0 [1, 2, 3, 4, 6, 7, 8, 9],
    mkTile 2 1 0 [1, 2, 3, 4, 6, 7, 8, 9],
    mkTile 2 2 0 [1, 2, 3, 4, 6, 7, 8, 9],
    mkTile 2 3 0 [1, 2, 3, 4, 5, 6, 7, 8, 9],
    mkTile 2 4 0 [1, 2, 3, 4, 5, 6, 7, 8, 9],
    mkTile 2 5 0 [1, 2, 3, 4, 5, 6, 7, 8, 9],
    mkTile 2 6 0 [1, 2, 3, 4, 5, 6, 7, 8, 9],
    mkTile 2 7 0 [1, 2, 3, 4, 5, 6, 7, 8, 9],
    mkTile 2 8 0 [1, 2, 3, 4, 5, 6, 7, 8, 9]],
   [mkTile 3 0 0 [1, 2, 3, 4, 6, 7, 8, 9],
    mkTile 3 1 0 [1, 2, 3, 4, 5, 6, 7, 8, 9],
    mkTile 3 2 0 [1, 2, 3, 4, 5, 6, 7, 8, 9],
    mkTile 3 3 0 [1, 2, 3, 4, 5, 6, 7, 8, 9],
    mkTile 3 4 0 [1, 2, 3, 4, 5, 6, 7, 8, 9],
    mkTile 3 5 0 [1, 2, 3, 4, 5, 6, 7, 8, 9],
    mkTile 3 6 0 [1, 2, 3, 4, 5, 6, 7, 8, 9],
    mkTile 3 7 0 [1, 2, 3, 4, 5, 6, 7, 8, 9],
    mkTile 3 8 0 [1, 2, 3, 4, 5, 6, 7, 8, 9]],
   [mkTile 4 0 0 [1, 2, 3, 4, 6, 7, 8, 9],
    mkTile 4 1 0 [1, 2, 3, 4, 5, 6, 7, 8, 9],
    mkTile 4 2 0 [1, 2, 3, 4, 5, 6, 7, 8, 9],
    mkTile 4 3 0 [1, 2, 3, 4, 5, 6, 7, 8, 9],
    mkTile 4 4 0 [1, 2, 3, 4, 5, 6, 7, 8, 9],
    mkTile 4 5 0 [1, 2, 3, 4, 5, 6, 7, 8, 9],
    mkTile 4 6 0 [1, 2, 3, 4, 5, 6, 7, 8, 9],
    mkTile 4 7 0 [1, 2, 3, 4, 5, 6, 7, 8, 9],
    mkTile 4 8 0 [1, 2, 3, 4, 5, 6, 7, 8, 9]],
   [mkTile 5 0 0 [1, 2, 3, 4, 6, 7, 8, 9],
    mkTile 5 1 0 [1, 2, 3, 4, 5, 6, 7, 8, 9],
    mkTile 5 2 0 [1, 2, 3, 4, 5, 6, 7, 8, 9],
    mkTile 5 3 0 [1, 2, 3, 4, 5, 6, 7, 8, 9],
    mkTile 5 4 0 [1, 2, 3, 4, 5, 6, 7, 8, 9],
    mkTile 5 5 0 [1, 2, 3, 4, 5, 6, 7, 8, 9],
    mkTile 5 6 0 [1, 2, 3, 4, 5, 6, 7, 8, 9],
    mkTile 5 7 0 [1, 2, 3, 4, 5, 6, 7, 8, 9],
    mkTile 5 8 0 [1, 2, 3, 4, 5, 6, 7, 8, 9]],
   [mkTile 6 0 0 [1, 2, 3, 4, 6, 7, 8, 9],
    mkTile 6 1 0 [1, 2, 3, 4, 5, 6, 7, 8, 9],
    mkTile 6 2 0 [1, 2, 3, 4, 5, 6, 7, 8, 9],
    mkTile 6 3 0 [1, 2, 3, 4, 5, 6, 7, 8, 9],
    mkTile 6 4 0 [1, 2, 3, 4, 5, 6, 7, 8, 9],
    mkTile 6 5 0 [1, 2, 3, 4, 5, 6, 7, 8, 9],
    mkTile 6 6 0 [1, 2, 3, 4, 5, 6, 7, 8, 9],
    mkTile 6 7 0 [1, 2, 3, 4, 5, 6, 7, 8, 9],
    mkTile 6 8 0 [1, 2, 3, 4, 5, 6, 7, 8, 9]],
   [mkTile 7 0 0 [1, 2, 3, 4, 6, 7, 8, 9],
    mkTile 7 1 0 [1, 2, 3, 4, 5, 6, 7, 8, 9],
    mkTile 7 2 0 [1, 2, 3, 4, 5, 6, 7, 8, 9],
    mkTile 7 3 0 [1, 2, 3, 4, 5, 6, 7, 8, 9],
    mkTile 7 4 0 [1, 2, 3, 4, 5, 6, 7, 8, 9],
    mkTile 7 5 0 [1, 2, 3, 4, 5, 6, 7, 8, 9],
    mkTile 7 6 0 [1, 2, 3, 4, 5, 6, 7, 8, 9],
    mkTile 7 7 0 [1, 2, 3, 4, 5, 6, 7, 8, 9],
    mkTile 7 8 0 [1, 2, 3, 4, 5, 6, 7, 8, 9]],
   [mkTile 8 0 0 [1, 2, 3, 4, 6, 7, 8, 9],
    mkTile 8 1 0 [1, 2, 3, 4, 5, 6, 7, 8, 9],
    mkTile 8 2 0 [1, 2, 3, 4, 5, 6, 7, 8, 9],
    mkTile 8 3 0 [1, 2, 3, 4, 5, 6, 7, 8, 9],
    mkTile 8 4 0 [1, 2, 3, 4, 5, 6, 7, 8, 9],
    mkTile 8 5 0 [1, 2, 3, 4, 5, 6, 7, 8, 9],
    mkTile 8 6 0 [1, 2, 3, 4, 5, 6, 7, 8, 9],
    mkTile 8 7 0 [1, 2, 3, 4, 5, 6, 7, 8, 9],
    mkTile 8 8 0 [1, 2, 3, 4, 5, 6, 7, 8, 9]]]

/-- Literal form of `bcontra`. -/
def BCL : Board :=
  [   [mkTile 0 0 5 [5],
    mkTile 0 1 5 [5],
    mkTile 0 2 0 [1, 2, 3, 4, 5, 6, 7, 8, 9],
    mkTile 0 3 0 [1, 2, 3, 4, 5, 6, 7, 8, 9],
    mkTile 0 4 0 [1, 2, 3, 4, 5, 6, 7, 8, 9],
    mkTile 0 5 0 [1, 2, 3, 4, 5, 6, 7, 8, 9],
    mkTile 0 6 0 [1, 2, 3, 4, 5, 6, 7, 8, 9],
    mkTile 0 7 0 [1, 2, 3, 4, 5, 6, 7, 8, 9],
    mkTile 0 8 0 [1, 2, 3, 4, 5, 6, 7, 8, 9]],
   [mkTile 1 0 0 [1, 2, 3, 4, 5, 6, 7, 8, 9],
    mkTile 1 1 0 [1, 2, 3, 4, 5, 6, 7, 8, 9],
    mkTile 1 2 0 [1, 2, 3, 4, 5, 6, 7, 8, 9],
    mkTile 1 3 0 [1, 2, 3, 4, 5, 6, 7, 8, 9],
    mkTile 1 4 0 [1, 2, 3, 4, 5, 6, 7, 8, 9],
    mkTile 1 5 0 [1, 2, 3, 4, 5, 6, 7, 8, 9],
    mkTile 1 6 0 [1, 2, 3, 4, 5, 6, 7, 8, 9],
    mkTile 1 7 0 [1, 2, 3, 4, 5, 6, 7, 8, 9],
    mkTile 1 8 0 [1, 2, 3, 4, 5, 6, 7, 8, 9]],
   [mkTile 2 0 0 [1, 2, 3, 4, 5, 6, 7, 8, 9],
    mkTile 2 1 0 [1, 2, 3, 4, 5, 6, 7, 8, 9],
    mkTile 2 2 0 [1, 2, 3, 4, 5, 6, 7, 8, 9],
    mkTile 2 3 0 [1, 2, 3, 4, 5, 6, 7, 8, 9],
    mkTile 2 4 0 [1, 2, 3, 4, 5, 6, 7, 8, 9],
    mkTile 2 5 0 [1, 2, 3, 4, 5, 6, 7, 8, 9],
    mkTile 2 6 0 [1, 2, 3, 4, 5, 6, 7, 8, 9],
    mkTile 2 7 0 [1, 2, 3, 4, 5, 6, 7, 8, 9],
    mkTile 2 8 0 [1, 2, 3, 4, 5, 6, 7, 8, 9]],
   [mkTile 3 0 0 [1, 2, 3, 4, 5, 6, 7, 8, 9],
    mkTile 3 1 0 [1, 2, 3, 4, 5, 6, 7, 8, 9],
    mkTile 3 2 0 [1, 2, 3, 4, 5, 6, 7, 8, 9],
    mkTile 3 3 0 [1, 2, 3, 4, 5, 6, 7, 8, 9],
    mkTile 3 4 0 [1, 2, 3, 4, 5, 6, 7, 8, 9],
    mkTile 3 5 0 [1, 2, 3, 4, 5, 6, 7, 8, 9],
    mkTile 3 6 0 [1, 2, 3, 4, 5, 6, 7, 8, 9],
    mkTile 3 7 0 [1, 2, 3, 4, 5, 6, 7, 8, 9],
    mkTile 3 8 0 [1, 2, 3, 4, 5, 6, 7, 8, 9]],
   [mkTile 4 0 0 [1, 2, 3, 4, 5, 6, 7, 8, 9],
    mkTile 4 1 0 [1, 2, 3, 4, 5, 6, 7, 8, 9],
    mkTile 4 2 0 [1, 2, 3, 4, 5, 6, 7, 8, 9],
    mkTile 4 3 0 [1, 2, 3, 4, 5, 6, 7, 8, 9],
    mkTile 4 4 0 [1, 2, 3, 4, 5, 6, 7, 8, 9],
    mkTile 4 5 0 [1, 2, 3, 4, 5, 6, 7, 8, 9],
    mkTile 4 6 0 [1, 2, 3, 4, 5, 6, 7, 8, 9],
    mkTile 4 7 0 [1, 2, 3, 4, 5, 6, 7, 8, 9],
    mkTile 4 8 0 [1, 2, 3, 4, 5, 6, 7, 8, 9]],
   [mkTile 5 0 0 [1, 2, 3, 4, 5, 6, 7, 8, 9],
    mkTile 5 1 0 [1, 2, 3, 4, 5, 6, 7, 8, 9],
    mkTile 5 2 0 [1, 2, 3, 4, 5, 6, 7, 8, 9],
    mkTile 5 3 0 [1, 2, 3, 4, 5, 6, 7, 8, 9],
    mkTile 5 4 0 [1, 2, 3, 4, 5, 6, 7, 8, 9],
    mkTile 5 5 0 [1, 2, 3, 4, 5, 6, 7, 8, 9],
    mkTile 5 6 0 [1, 2, 3, 4, 5, 6, 7, 8, 9],
    mkTile 5 7 0 [1, 2, 3, 4, 5, 6, 7, 8, 9],
    mkTile 5 8 0 [1, 2, 3, 4, 5, 6, 7, 8, 9]],
   [mkTile 6 0 0 [1, 2, 3, 4, 5, 6, 7, 8, 9],
    mkTile 6 1 0 [1, 2, 3, 4, 5, 6, 7, 8, 9],
    mkTile 6 2 0 [1, 2, 3, 4, 5, 6, 7, 8, 9],
    mkTile 6 3 0 [1, 2, 3, 4, 5, 6, 7, 8, 9],
    mkTile 6 4 0 [1, 2, 3, 4, 5, 6, 7, 8, 9],
    mkTile 6 5 0 [1, 2, 3, 4, 5, 6, 7, 8, 9],
    mkTile 6 6 0 [1, 2, 3, 4, 5, 6, 7, 8, 9],
    mkTile 6 7 0 [1, 2, 3, 4, 5, 6, 7, 8, 9],
    mkTile 6 8 0 [1, 2, 3, 4, 5, 6, 7, 8, 9]],
   [mkTile 7 0 0 [1, 2, 3, 4, 5, 6, 7, 8, 9],
    mkTile 7 1 0 [1, 2, 3, 4, 5, 6, 7, 8, 9],
    mkTile 7 2 0 [1, 2, 3, 4, 5, 6, 7, 8, 9],
    mkTile 7 3 0 [1, 2, 3, 4, 5, 6, 7, 8, 9],
    mkTile 7 4 0 [1, 2, 3, 4, 5, 6, 7, 8, 9],
    mkTile 7 5 0 [1, 2, 3, 4, 5, 6, 7, 8, 9],
    mkTile 7 6 0 [1, 2, 3, 4, 5, 6, 7, 8, 9],
    mkTile 7 7 0 [1, 2, 3, 4, 5, 6, 7, 8, 9],
    mkTile 7 8 0 [1, 2, 3, 4, 5, 6, 7, 8, 9]],
   [mkTile 8 0 0 [1, 2, 3, 4, 5, 6, 7, 8, 9],
    mkTile 8 1 0 [1, 2, 3, 4, 5, 6, 7, 8, 9],
    mkTile 8 2 0 [1, 2, 3, 4, 5, 6, 7, 8, 9],
    mkTile 8 3 0 [1, 2, 3, 4, 5, 6, 7, 8, 9],
    mkTile 8 4 0 [1, 2, 3, 4, 5, 6, 7, 8, 9],
    mkTile 8 5 0 [1, 2, 3, 4, 5, 6, 7, 8, 9],
    mkTile 8 6 0 [1, 2, 3, 4, 5, 6, 7, 8, 9],
    mkTile 8 7 0 [1, 2, 3, 4, 5, 6, 7, 8, 9],
    mkTile 8 8 0 [1, 2, 3, 4, 5, 6, 7, 8, 9]]]

/-- Row-groups naked pass over `BCL`. -/
def BCA : Board :=
  [   [mkTile 0 0 5 [5],
    mkTile 0 1 5 [5],
    mkTile 0 2 0 [1, 2, 3, 4, 6, 7, 8, 9],
    mkTile 0 3 0 [1, 2, 3, 4, 6, 7, 8, 9],
    mkTile 0 4 0 [1, 2, 3, 4, 6, 7, 8, 9],
    mkTile 0 5 0 [1, 2, 3, 4, 6, 7, 8, 9],
    mkTile 0 6 0 [1, 2, 3, 4, 6, 7, 8, 9],
    mkTile 0 7 0 [1, 2, 3, 4, 6, 7, 8, 9],
    mkTile 0 8 0 [1, 2, 3, 4, 6, 7, 8, 9]],
   [mkTile 1 0 0 [1, 2, 3, 4, 5, 6, 7, 8, 9],
    mkTile 1 1 0 [1, 2, 3, 4, 5, 6, 7, 8, 9],
    mkTile 1 2 0 [1, 2, 3, 4, 5, 6, 7, 8, 9],
    mkTile 1 3 0 [1, 2, 3, 4, 5, 6, 7, 8, 9],
    mkTile 1 4 0 [1, 2, 3, 4, 5, 6, 7, 8, 9],
    mkTile 1 5 0 [1, 2, 3, 4, 5, 6, 7, 8, 9],
    mkTile 1 6 0 [1, 2, 3, 4, 5, 6, 7, 8, 9],
    mkTile 1 7 0 [1, 2, 3, 4, 5, 6, 7, 8, 9],
    mkTile 1 8 0 [1, 2, 3, 4, 5, 6, 7, 8, 9]],
   [mkTile 2 0 0 [1, 2, 3, 4, 5, 6, 7, 8, 9],
    mkTile 2 1 0 [1, 2, 3, 4, 5, 6, 7, 8, 9],
    mkTile 2 2 0 [1, 2, 3, 4, 5, 6, 7, 8, 9],
    mkTile 2 3 0 [1, 2, 3, 4, 5, 6, 7, 8, 9],
    mkTile 2 4 0 [1, 2, 3, 4, 5, 6, 7, 8, 9],
    mkTile 2 5 0 [1, 2, 3, 4, 5, 6, 7, 8, 9],
    mkTile 2 6 0 [1, 2, 3, 4, 5, 6, 7, 8, 9],
    mkTile 2 7 0 [1, 2, 3, 4, 5, 6, 7, 8, 9],
    mkTile 2 8 0 [1, 2, 3, 4, 5, 6, 7, 8, 9]],
   [mkTile 3 0 0 [1, 2, 3, 4, 5, 6, 7, 8, 9],
    mkTile 3 1 0 [1, 2, 3, 4, 5, 6, 7, 8, 9],
    mkTile 3 2 0 [1, 2, 3, 4, 5, 6, 7, 8, 9],
    mkTile 3 3 0 [1, 2, 3, 4, 5, 6, 7, 8, 9],
    mkTile 3 4 0 [1, 2, 3, 4, 5, 6, 7, 8, 9],
    mkTile 3 5 0 [1, 2, 3, 4, 5, 6, 7, 8, 9],
    mkTile 3 6 0 [1, 2, 3, 4, 5, 6, 7, 8, 9],
    mkTile 3 7 0 [1, 2, 3, 4, 5, 6, 7, 8, 9],
    mkTile 3 8 0 [1, 2, 3, 4, 5, 6, 7, 8, 9]],
   [mkTile 4 0 0 [1, 2, 3, 4, 5, 6, 7, 8, 9],
    mkTile 4 1 0 [1, 2, 3, 4, 5, 6, 7, 8, 9],
    mkTile 4 2 0 [1, 2, 3, 4, 5, 6, 7, 8, 9],
    mkTile 4 3 0 [1, 2, 3, 4, 5, 6, 7, 8, 9],
    mkTile 4 4 0 [1, 2, 3, 4, 5, 6, 7, 8, 9],
    mkTile 4 5 0 [1, 2, 3, 4, 5, 6, 7, 8, 9],
    mkTile 4 6 0 [1, 2, 3, 4, 5, 6, 7, 8, 9],
    mkTile 4 7 0 [1, 2, 3, 4, 5, 6, 7, 8, 9],
    mkTile 4 8 0 [1, 2, 3, 4, 5, 6, 7, 8, 9]],
   [mkTile 5 0 0 [1, 2, 3, 4, 5, 6, 7, 8, 9],
    mkTile 5 1 0 [1, 2, 3, 4, 5, 6, 7, 8, 9],
    mkTile 5 2 0 [1, 2, 3, 4, 5, 6, 7, 8, 9],
    mkTile 5 3 0 [1, 2, 3, 4, 5, 6, 7, 8, 9],
    mkTile 5 4 0 [1, 2, 3, 4, 5, 6, 7, 8, 9],
    mkTile 5 5 0 [1, 2, 3, 4, 5, 6, 7, 8, 9],
    mkTile 5 6 0 [1, 2, 3, 4, 5, 6, 7, 8, 9],
    mkTile 5 7 0 [1, 2, 3, 4, 5, 6, 7, 8, 9],
    mkTile 5 8 0 [1, 2, 3, 4, 5, 6, 7, 8, 9]],
   [mkTile 6 0 0 [1, 2, 3, 4, 5, 6, 7, 8, 9],
    mkTile 6 1 0 [1, 2, 3, 4, 5, 6, 7, 8, 9],
    mkTile 6 2 0 [1, 2, 3, 4, 5, 6, 7, 8, 9],
    mkTile 6 3 0 [1, 2, 3, 4, 5, 6, 7, 8, 9],
    mkTile 6 4 0 [1, 2, 3, 4, 5, 6, 7, 8, 9],
    mkTile 6 5 0 [1, 2, 3, 4, 5, 6, 7, 8, 9],
    mkTile 6 6 0 [1, 2, 3, 4, 5, 6, 7, 8, 9],
    mkTile 6 7 0 [1, 2, 3, 4, 5, 6, 7, 8, 9],
    mkTile 6 8 0 [1, 2, 3, 4, 5, 6, 7, 8, 9]],
   [mkTile 7 0 0 [1, 2, 3, 4, 5, 6, 7, 8, 9],
    mkTile 7 1 0 [1, 2, 3, 4, 5, 6, 7, 8, 9],
    mkTile 7 2 0 [1, 2, 3, 4, 5, 6, 7, 8, 9],
    mkTile 7 3 0 [1, 2, 3, 4, 5, 6, 7, 8, 9],
    mkTile 7 4 0 [1, 2, 3, 4, 5, 6, 7, 8, 9],
    mkTile 7 5 0 [1, 2, 3, 4, 5, 6, 7, 8, 9],
    mkTile 7 6 0 [1, 2, 3, 4, 5, 6, 7, 8, 9],
    mkTile 7 7 0 [1, 2, 3, 4, 5, 6, 7, 8, 9],
    mkTile 7 8 0 [1, 2, 3, 4, 5, 6, 7, 8, 9]],
   [mkTile 8 0 0 [1, 2, 3, 4, 5, 6, 7, 8, 9],
    mkTile 8 1 0 [1, 2, 3, 4, 5, 6, 7, 8, 9],
    mkTile 8 2 0 [1, 2, 3, 4, 5, 6, 7, 8, 9],
    mkTile 8 3 0 [1, 2, 3, 4, 5, 6, 7, 8, 9],
    mkTile 8 4 0 [1, 2, 3, 4, 5, 6, 7, 8, 9],
    mkTile 8 5 0 [1, 2, 3, 4, 5, 6, 7, 8, 9],
    mkTile 8 6 0 [1, 2, 3, 4, 5, 6, 7, 8, 9],
    mkTile 8 7 0 [1, 2, 3, 4, 5, 6, 7, 8, 9],
    mkTile 8 8 0 [1, 2, 3, 4, 5, 6, 7, 8, 9]]]

/-- Column-groups naked pass continuing from `BCA`. -/
def BCB : Board :=
  [   [mkTile 0 0 5 [5],
    mkTile 0 1 5 [5],
    mkTile 0 2 0 [1, 2, 3, 4, 6, 7, 8, 9],
    mkTile 0 3 0 [1, 2, 3, 4, 6, 7, 8, 9],
    mkTile 0 4 0 [1, 2, 3, 4, 6, 7, 8, 9],
    mkTile 0 5 0 [1, 2, 3, 4, 6, 7, 8, 9],
    mkTile 0 6 0 [1, 2, 3, 4, 6, 7, 8, 9],
    mkTile 0 7 0 [1, 2, 3, 4, 6, 7, 8, 9],
    mkTile 0 8 0 [1, 2, 3, 4, 6, 7, 8, 9]],
   [mkTile 1 0 0 [1, 2, 3, 4, 6, 7, 8, 9],
    mkTile 1 1 0 [1, 2, 3, 4, 6, 7, 8, 9],
    mkTile 1 2 0 [1, 2, 3, 4, 5, 6, 7, 8, 9],
    mkTile 1 3 0 [1, 2, 3, 4, 5, 6, 7, 8, 9],
    mkTile 1 4 0 [1, 2, 3, 4, 5, 6, 7, 8, 9],
    mkTile 1 5 0 [1, 2, 3, 4, 5, 6, 7, 8, 9],
    mkTile 1 6 0 [1, 2, 3, 4, 5, 6, 7, 8, 9],
    mkTile 1 7 0 [1, 2, 3, 4, 5, 6, 7, 8, 9],
    mkTile 1 8 0 [1, 2, 3, 4, 5, 6, 7, 8, 9]],
   [mkTile 2 0 0 [1, 2, 3, 4, 6, 7, 8, 9],
    mkTile 2 1 0 [1, 2, 3, 4, 6, 7, 8, 9],
    mkTile 2 2 0 [1, 2, 3, 4, 5, 6, 7, 8, 9],
    mkTile 2 3 0 [1, 2, 3, 4, 5, 6, 7, 8, 9],
    mkTile 2 4 0 [1, 2, 3, 4, 5, 6, 7, 8, 9],
    mkTile 2 5 0 [1, 2, 3, 4, 5, 6, 7, 8, 9],
    mkTile 2 6 0 [1, 2, 3, 4, 5, 6, 7, 8, 9],
    mkTile 2 7 0 [1, 2, 3, 4, 5, 6, 7, 8, 9],
    mkTile 2 8 0 [1, 2, 3, 4, 5, 6, 7, 8, 9]],
   [mkTile 3 0 0 [1, 2, 3, 4, 6, 7, 8, 9],
    mkTile 3 1 0 [1, 2, 3, 4, 6, 7, 8, 9],
    mkTile 3 2 0 [1, 2, 3, 4, 5, 6, 7, 8, 9],
    mkTile 3 3 0 [1, 2, 3, 4, 5, 6, 7, 8, 9],
    mkTile 3 4 0 [1, 2, 3, 4, 5, 6, 7, 8, 9],
    mkTile 3 5 0 [1, 2, 3, 4, 5, 6, 7, 8, 9],
    mkTile 3 6 0 [1, 2, 3, 4, 5, 6, 7, 8, 9],
    mkTile 3 7 0 [1, 2, 3, 4, 5, 6, 7, 8, 9],
    mkTile 3 8 0 [1, 2, 3, 4, 5, 6, 7, 8, 9]],
   [mkTile 4 0 0 [1, 2, 3, 4, 6, 7, 8, 9],
    mkTile 4 1 0 [1, 2, 3, 4, 6, 7, 8, 9],
    mkTile 4 2 0 [1, 2, 3, 4, 5, 6, 7, 8, 9],
    mkTile 4 3 0 [1, 2, 3, 4, 5, 6, 7, 8, 9],
    mkTile 4 4 0 [1, 2, 3, 4, 5, 6, 7, 8, 9],
    mkTile 4 5 0 [1, 2, 3, 4, 5, 6, 7, 8, 9],
    mkTile 4 6 0 [1, 2, 3, 4, 5, 6, 7, 8, 9],
    mkTile 4 7 0 [1, 2, 3, 4, 5, 6, 7, 8, 9],
    mkTile 4 8 0 [1, 2, 3, 4, 5, 6, 7, 8, 9]],
   [mkTile 5 0 0 [1, 2, 3, 4, 6, 7, 8, 9],
    mkTile 5 1 0 [1, 2, 3, 4, 6, 7, 8, 9],
    mkTile 5 2 0 [1, 2, 3, 4, 5, 6, 7, 8, 9],
    mkTile 5 3 0 [1, 2, 3, 4, 5, 6, 7, 8, 9],
    mkTile 5 4 0 [1, 2, 3, 4, 5, 6, 7, 8, 9],
    mkTile 5 5 0 [1, 2, 3, 4, 5, 6, 7, 8, 9],
    mkTile 5 6 0 [1, 2, 3, 4, 5, 6, 7, 8, 9],
    mkTile 5 7 0 [1, 2, 3, 4, 5, 6, 7, 8, 9],
    mkTile 5 8 0 [1, 2, 3, 4, 5, 6, 7, 8, 9]],
   [mkTile 6 0 0 [1, 2, 3, 4, 6, 7, 8, 9],
    mkTile 6 1 0 [1, 2, 3, 4, 6, 7, 8, 9],
    mkTile 6 2 0 [1, 2, 3, 4, 5, 6, 7, 8, 9],
    mkTile 6 3 0 [1, 2, 3, 4, 5, 6, 7, 8, 9],
    mkTile 6 4 0 [1, 2, 3, 4, 5, 6, 7, 8, 9],
    mkTile 6 5 0 [1, 2, 3, 4, 5, 6, 7, 8, 9],
    mkTile 6 6 0 [1, 2, 3, 4, 5, 6, 7, 8, 9],
    mkTile 6 7 0 [1, 2, 3, 4, 5, 6, 7, 8, 9],
    mkTile 6 8 0 [1, 2, 3, 4, 5, 6, 7, 8, 9]],
   [mkTile 7 0 0 [1, 2, 3, 4, 6, 7, 8, 9],
    mkTile 7 1 0 [1, 2, 3, 4, 6, 7, 8, 9],
    mkTile 7 2 0 [1, 2, 3, 4, 5, 6, 7, 8, 9],
    mkTile 7 3 0 [1, 2, 3, 4, 5, 6, 7, 8, 9],
    mkTile 7 4 0 [1, 2, 3, 4, 5, 6, 7, 8, 9],
    mkTile 7 5 0 [1, 2, 3, 4, 5, 6, 7, 8, 9],
    mkTile 7 6 0 [1, 2, 3, 4, 5, 6, 7, 8, 9],
    mkTile 7 7 0 [1, 2, 3, 4, 5, 6, 7, 8, 9],
    mkTile 7 8 0 [1, 2, 3, 4, 5, 6, 7, 8, 9]],
   [mkTile 8 0 0 [1, 2, 3, 4, 6, 7, 8, 9],
    mkTile 8 1 0 [1, 2, 3, 4, 6, 7, 8, 9],
    mkTile 8 2 0 [1, 2, 3, 4, 5, 6, 7, 8, 9],
    mkTile 8 3 0 [1, 2, 3, 4, 5, 6, 7, 8, 9],
    mkTile 8 4 0 [1, 2, 3, 4, 5, 6, 7, 8, 9],
    mkTile 8 5 0 [1, 2, 3, 4, 5, 6, 7, 8, 9],
    mkTile 8 6 0 [1, 2, 3, 4, 5, 6, 7, 8, 9],
    mkTile 8 7 0 [1, 2, 3, 4, 5, 6, 7, 8, 9],
    mkTile 8 8 0 [1, 2, 3, 4, 5, 6, 7, 8, 9]]]

/-- Propagation fixed point of `bcontra` (literal form). -/
def BC1 : Board :=
  [   [mkTile 0 0 5 [5],
    mkTile 0 1 5 [5],
    mkTile 0 2 0 [1, 2, 3, 4, 6, 7, 8, 9],
    mkTile 0 3 0 [1, 2, 3, 4, 6, 7, 8, 9],
    mkTile 0 4 0 [1, 2, 3, 4, 6, 7, 8, 9],
    mkTile 0 5 0 [1, 2, 3, 4, 6, 7, 8, 9],
    mkTile 0 6 0 [1, 2, 3, 4, 6, 7, 8, 9],
    mkTile 0 7 0 [1, 2, 3, 4, 6, 7, 8, 9],
    mkTile 0 8 0 [1, 2, 3, 4, 6, 7, 8, 9]],
   [mkTile 1 0 0 [1, 2, 3, 4, 6, 7, 8, 9],
    mkTile 1 1 0 [1, 2, 3, 4, 6, 7, 8, 9],
    mkTile 1 2 0 [1, 2, 3, 4, 6, 7, 8, 9],
    mkTile 1 3 0 [1, 2, 3, 4, 5, 6, 7, 8, 9],
    mkTile 1 4 0 [1, 2, 3, 4, 5, 6, 7, 8, 9],
    mkTile 1 5 0 [1, 2, 3, 4, 5, 6, 7, 8, 9],
    mkTile 1 6 0 [1, 2, 3, 4, 5, 6, 7, 8, 9],
    mkTile 1 7 0 [1, 2, 3, 4, 5, 6, 7, 8, 9],
    mkTile 1 8 0 [1, 2, 3, 4, 5, 6, 7, 8, 9]],
   [mkTile 2 0 0 [1, 2, 3, 4, 6, 7, 8, 9],
    mkTile 2 1 0 [1, 2, 3, 4, 6, 7, 8, 9],
    mkTile 2 2 0 [1, 2, 3, 4, 6, 7, 8, 9],
    mkTile 2 3 0 [1, 2, 3, 4, 5, 6, 7, 8, 9],
    mkTile 2 4 0 [1, 2, 3, 4, 5, 6, 7, 8, 9],
    mkTile 2 5 0 [1, 2, 3, 4, 5, 6, 7, 8, 9],
    mkTile 2 6 0 [1, 2, 3, 4, 5, 6, 7, 8, 9],
    mkTile 2 7 0 [1, 2, 3, 4, 5, 6, 7, 8, 9],
    mkTile 2 8 0 [1, 2, 3, 4, 5, 6, 7, 8, 9]],
   [mkTile 3 0 0 [1, 2, 3, 4, 6, 7, 8, 9],
    mkTile 3 1 0 [1, 2, 3, 4, 6, 7, 8, 9],
    mkTile 3 2 0 [1, 2, 3, 4, 5, 6, 7, 8, 9],
    mkTile 3 3 0 [1, 2, 3, 4, 5, 6, 7, 8, 9],
    mkTile 3 4 0 [1, 2, 3, 4, 5, 6, 7, 8, 9],
    mkTile 3 5 0 [1, 2, 3, 4, 5, 6, 7, 8, 9],
    mkTile 3 6 0 [1, 2, 3, 4, 5, 6, 7, 8, 9],
    mkTile 3 7 0 [1, 2, 3, 4, 5, 6, 7, 8, 9],
    mkTile 3 8 0 [1, 2, 3, 4, 5, 6, 7, 8, 9]],
   [mkTile 4 0 0 [1, 2, 3, 4, 6, 7, 8, 9],
    mkTile 4 1 0 [1, 2, 3, 4, 6, 7, 8, 9],
    mkTile 4 2 0 [1, 2, 3, 4, 5, 6, 7, 8, 9],
    mkTile 4 3 0 [1, 2, 3, 4, 5, 6, 7, 8, 9],
    mkTile 4 4 0 [1, 2, 3, 4, 5, 6, 7, 8, 9],
    mkTile 4 5 0 [1, 2, 3, 4, 5, 6, 7, 8, 9],
    mkTile 4 6 0 [1, 2, 3, 4, 5, 6, 7, 8, 9],
    mkTile 4 7 0 [1, 2, 3, 4, 5, 6, 7, 8, 9],
    mkTile 4 8 0 [1, 2, 3, 4, 5, 6, 7, 8, 9]],
   [mkTile 5 0 0 [1, 2, 3, 4, 6, 7, 8, 9],
    mkTile 5 1 0 [1, 2, 3, 4, 6, 7, 8, 9],
    mkTile 5 2 0 [1, 2, 3, 4, 5, 6, 7, 8, 9],
    mkTile 5 3 0 [1, 2, 3, 4, 5, 6, 7, 8, 9],
    mkTile 5 4 0 [1, 2, 3, 4, 5, 6, 7, 8, 9],
    mkTile 5 5 0 [1, 2, 3, 4, 5, 6, 7, 8, 9],
    mkTile 5 6 0 [1, 2, 3, 4, 5, 6, 7, 8, 9],
    mkTile 5 7 0 [1, 2, 3, 4, 5, 6, 7, 8, 9],
    mkTile 5 8 0 [1, 2, 3, 4, 5, 6, 7, 8, 9]],
   [mkTile 6 0 0 [1, 2, 3, 4, 6, 7, 8, 9],
    mkTile 6 1 0 [1, 2, 3, 4, 6, 7, 8, 9],
    mkTile 6 2 0 [1, 2, 3, 4, 5, 6, 7, 8, 9],
    mkTile 6 3 0 [1, 2, 3, 4, 5, 6, 7, 8, 9],
    mkTile 6 4 0 [1, 2, 3, 4, 5, 6, 7, 8, 9],
    mkTile 6 5 0 [1, 2, 3, 4, 5, 6, 7, 8, 9],
    mkTile 6 6 0 [1, 2, 3, 4, 5, 6, 7, 8, 9],
    mkTile 6 7 0 [1, 2, 3, 4, 5, 6, 7, 8, 9],
    mkTile 6 8 0 [1, 2, 3, 4, 5, 6, 7, 8, 9]],
   [mkTile 7 0 0 [1, 2, 3, 4, 6, 7, 8, 9],
    mkTile 7 1 0 [1, 2, 3, 4, 6, 7, 8, 9],
    mkTile 7 2 0 [1, 2, 3, 4, 5, 6, 7, 8, 9],
    mkTile 7 3 0 [1, 2, 3, 4, 5, 6, 7, 8, 9],
    mkTile 7 4 0 [1, 2, 3, 4, 5, 6, 7, 8, 9],
    mkTile 7 5 0 [1, 2, 3, 4, 5, 6, 7, 8, 9],
    mkTile 7 6 0 [1, 2, 3, 4, 5, 6, 7, 8, 9],
    mkTile 7 7 0 [1, 2, 3, 4, 5, 6, 7, 8, 9],
    mkTile 7 8 0 [1, 2, 3, 4, 5, 6, 7, 8, 9]],
   [mkTile 8 0 0 [1, 2, 3, 4, 6, 7, 8, 9],
    mkTile 8 1 0 [1, 2, 3, 4, 6, 7, 8, 9],
    mkTile 8 2 0 [1, 2, 3, 4, 5, 6, 7, 8, 9],
    mkTile 8 3 0 [1, 2, 3, 4, 5, 6, 7, 8, 9],
    mkTile 8 4 0 [1, 2, 3, 4, 5, 6, 7, 8, 9],
    mkTile 8 5 0 [1, 2, 3, 4, 5, 6, 7, 8, 9],
    mkTile 8 6 0 [1, 2, 3, 4, 5, 6, 7, 8, 9],
    mkTile 8 7 0 [1, 2, 3, 4, 5, 6, 7, 8, 9],
    mkTile 8 8 0 [1, 2, 3, 4, 5, 6, 7, 8, 9]]]

/-- A fresh board whose tile `(0, 0)` was set to `5` via `set_value`. -/
def c7b1 : Board := setTile Board.init 0 0 ((getTile Board.init 0 0).set_value 5)

/-- `c7b1` after calling `remove_candidate {5}` directly on the decided tile
`(0, 0)`. -/
def c7b2 : Board := setTile c7b1 0 0 ((getTile c7b1 0 0).remove_candidate {5}).1

/-- An `UNKNOWN` tile whose candidate set has been emptied by
`remove_candidate`. -/
def emptyCandTile : Tile := ((Tile.init 0 0 UNKNOWN).remove_candidate CHOICES).1

set_option maxRecDepth 8000

lemma unknown_not_mem_choices : UNKNOWN ∉ CHOICES := by decide

/-- Fold invariant principle used for every board-pass proof. -/
theorem foldl_rec {α β : Type} (P : β → Prop) (f : β → α → β) (l : List α) (init : β)
    (h0 : P init) (hstep : ∀ acc a, a ∈ l → P acc → P (f acc a)) : P (l.foldl f init) := by
  induction l generalizing init with
  | nil => exact h0
  | cons a l ih =>
    exact ih (f init a) (hstep init a (List.mem_cons_self a l) h0)
      (fun acc x hx hacc => hstep acc x (List.mem_cons_of_mem a hx) hacc)

lemma getD_set_ne {α : Type} (l : List α) {i j : Nat} (a : α) (d : α) (h : i ≠ j) :
    (l.set i a).getD j d = l.getD j d := by
  simp [List.getD_eq_getElem?_getD, List.getElem?_set_ne h]

lemma getD_set_self {α : Type} (l : List α) {i : Nat} (a : α) (d : α) (h : i < l.length) :
    (l.set i a).getD i d = a := by
  simp [List.getD_eq_getElem?_getD, List.getElem?_set_self', List.getElem?_eq_getElem h]

lemma getD_set_self_oor {α : Type} (l : List α) {i : Nat} (a : α) (d : α) (h : ¬ i < l.length) :
    (l.set i a).getD i d = l.getD i d := by
  rw [List.set_eq_of_length_le (Nat.le_of_not_lt h)]

theorem getTile_setTile_ne {r c r' c' : Nat} (b : Board) (t : Tile)
    (h : (r', c') ≠ (r, c)) : getTile (setTile b r c t) r' c' = getTile b r' c' := by
  unfold getTile setTile
  by_cases hr : r' = r
  · subst hr
    have hc : c ≠ c' := fun hcc => h (by rw [hcc])
    by_cases hl : r' < b.length
    · rw [getD_set_self b _ [] hl, getD_set_ne _ _ _ hc]
    · rw [getD_set_self_oor b _ [] hl]
  · rw [getD_set_ne b _ [] (fun hrr => hr hrr.symm)]

theorem getTile_setTile_cases (b : Board) (r c r' c' : Nat) (t : Tile) :
    getTile (setTile b r c t) r' c' = t ∨ getTile (setTile b r c t) r' c' = getTile b r' c' := by
  by_cases h : (r', c') = (r, c)
  · rw [Prod.mk.injEq] at h
    obtain ⟨hr, hc⟩ := h
    subst hr; subst hc
    unfold getTile setTile
    by_cases hl : r' < b.length
    · rw [getD_set_self b _ [] hl]
      by_cases hcl : c' < (b.getD r' []).length
      · left; rw [getD_set_self _ _ _ hcl]
      · right; rw [getD_set_self_oor _ _ _ hcl]
    · right; rw [getD_set_self_oor b _ [] hl]
  · right; exact getTile_setTile_ne b t h

theorem getTile_setTile_self {r c : Nat} (b : Board) (t : Tile)
    (hl : r < b.length) (hcl : c < (b.getD r []).length) :
    getTile (setTile b r c t) r c = t := by
  unfold getTile setTile
  rw [getD_set_self b _ [] hl, getD_set_self _ _ _ hcl]

/-- Case analysis of one `naked_single` tile step: either nothing happens, or
an `UNKNOWN` tile had candidates removed and is written back. -/
theorem nakedStep_cases (used : Finset Nat) (acc : Board × Bool) (p : Nat × Nat) :
    nakedStep used acc p = acc ∨
    ((getTile acc.1 p.1 p.2).value = UNKNOWN ∧
      ((getTile acc.1 p.1 p.2).remove_candidate used).2 = true ∧
      nakedStep used acc p =
        (setTile acc.1 p.1 p.2 ((getTile acc.1 p.1 p.2).remove_candidate used).1, true)) := by
  simp only [nakedStep]
  split_ifs with h1 h2
  · right; exact ⟨h1, h2, rfl⟩
  · left; rfl
  · left; rfl

/-- Case analysis of one `hidden_single` symbol step: either nothing happens,
or the unique admitting `UNKNOWN` tile of the group is assigned. -/
theorem hiddenStep_cases (g : List (Nat × Nat)) (acc : Board × Bool) (s : Nat) :
    hiddenStep g acc s = acc ∨
    (∃ p, p ∈ g ∧ (getTile acc.1 p.1 p.2).value = UNKNOWN ∧
      s ∈ (getTile acc.1 p.1 p.2).candidates ∧
      hiddenStep g acc s = (setTile acc.1 p.1 p.2 ((getTile acc.1 p.1 p.2).set_value s), true)) := by
  simp only [hiddenStep]
  cases hf : g.filter
      (fun p => decide ((getTile acc.1 p.1 p.2).value = UNKNOWN ∧
        s ∈ (getTile acc.1 p.1 p.2).candidates)) with
  | nil => left; rfl
  | cons p rest =>
    cases rest with
    | nil =>
      right
      have hp : p ∈ g.filter
          (fun p => decide ((getTile acc.1 p.1 p.2).value = UNKNOWN ∧
            s ∈ (getTile acc.1 p.1 p.2).candidates)) := by
        rw [hf]; exact List.mem_cons_self p []
      have := List.mem_filter.mp hp
      have hpred := of_decide_eq_true this.2
      exact ⟨p, this.1, hpred.1, hpred.2, rfl⟩
    | cons q rest2 => left; rfl

theorem nakedGroup_frame (b : Board) (r c : Nat) (acc : Board × Bool)
    (g : List (Nat × Nat)) (h : (getTile b r c).value ≠ UNKNOWN)
    (hacc : getTile acc.1 r c = getTile b r c) :
    getTile (nakedGroup acc g).1 r c = getTile b r c := by
  unfold nakedGroup
  exact foldl_rec (fun acc2 => getTile acc2.1 r c = getTile b r c)
    (nakedStep (usedSymbols acc.1 g)) g acc hacc
    (fun acc2 p _ hacc2 => by
      rcases nakedStep_cases (usedSymbols acc.1 g) acc2 p with heq | ⟨hv, _, heq⟩
      · rw [heq]; exact hacc2
      · rw [heq]
        by_cases hp : (r, c) = (p.1, p.2)
        · exfalso
          rw [Prod.mk.injEq] at hp
          obtain ⟨h1, h2⟩ := hp
          rw [← h1, ← h2, hacc2] at hv
          exact h hv
        · exact (getTile_setTile_ne acc2.1 _ hp).trans hacc2)

/-- A `naked_single` pass never changes a tile whose value is decided. -/
theorem naked_frame (b : Board) (r c : Nat) (h : (getTile b r c).value ≠ UNKNOWN) :
    getTile (Board.naked_single b).1 r c = getTile b r c := by
  show getTile (groups.foldl nakedGroup (b, false)).1 r c = getTile b r c
  apply foldl_rec (fun acc => getTile acc.1 r c = getTile b r c) nakedGroup groups (b, false) rfl
  exact fun acc g _ hacc => nakedGroup_frame b r c acc g h hacc

theorem hiddenGroup_frame (b : Board) (r c : Nat) (acc : Board × Bool)
    (g : List (Nat × Nat)) (h : (getTile b r c).value ≠ UNKNOWN)
    (hacc : getTile acc.1 r c = getTile b r c) :
    getTile (hiddenGroup acc g).1 r c = getTile b r c := by
  unfold hiddenGroup
  exact foldl_rec (fun acc2 => getTile acc2.1 r c = getTile b r c)
    (hiddenStep g) (sortedElems (leftovers acc.1 g)) acc hacc
    (fun acc2 s _ hacc2 => by
      rcases hiddenStep_cases g acc2 s with heq | ⟨p, _, hv, _, heq⟩
      · rw [heq]; exact hacc2
      · rw [heq]
        by_cases hp : (r, c) = (p.1, p.2)
        · exfalso
          rw [Prod.mk.injEq] at hp
          obtain ⟨h1, h2⟩ := hp
          rw [← h1, ← h2, hacc2] at hv
          exact h hv
        · exact (getTile_setTile_ne acc2.1 _ hp).trans hacc2)

/-- A `hidden_single` pass never changes a tile whose value is decided. -/
theorem hidden_frame (b : Board) (r c : Nat) (h : (getTile b r c).value ≠ UNKNOWN) :
    getTile (Board.hidden_single b).1 r c = getTile b r c := by
  show getTile (groups.foldl hiddenGroup (b, false)).1 r c = getTile b r c
  apply foldl_rec (fun acc => getTile acc.1 r c = getTile b r c) hiddenGroup groups (b, false) rfl
  exact fun acc g _ hacc => hiddenGroup_frame b r c acc g h hacc

theorem set_value_of_mem (t : Tile) {v : Nat} (h : v ∈ CHOICES) :
    t.set_value v = { t with value := v, candidates := {v} } := by
  simp [Tile.set_value, h]

theorem set_value_of_not_mem (t : Tile) {v : Nat} (h : v ∉ CHOICES) :
    t.set_value v = { t with value := UNKNOWN, candidates := CHOICES } := by
  simp [Tile.set_value, h]

theorem rc_no_change (t : Tile) (used : Finset Nat)
    (h : t.candidates \ used = t.candidates) : t.remove_candidate used = (t, false) := by
  simp [Tile.remove_candidate, h]

theorem rc_prune (t : Tile) (used : Finset Nat)
    (h1 : t.candidates \ used ≠ t.candidates) (h2 : (t.candidates \ used).card ≠ 1) :
    t.remove_candidate used = ({ t with candidates := t.candidates \ used }, true) := by
  simp [Tile.remove_candidate, h1, h2]

theorem rc_collapse (t : Tile) (used : Finset Nat)
    (h1 : t.candidates \ used ≠ t.candidates) (h2 : (t.candidates \ used).card = 1) :
    t.remove_candidate used =
      (Tile.set_value { t with candidates := t.candidates \ used }
        (popOne (t.candidates \ used)), true) := by
  simp [Tile.remove_candidate, h1, h2]

theorem sortedElems_singleton (v : Nat) : sortedElems {v} = [v] := by
  unfold sortedElems
  rw [Finset.sup_singleton]
  have h1 : (List.range (id v)).filter (fun x => decide (x ∈ ({v} : Finset Nat))) = [] := by
    rw [List.filter_eq_nil_iff]
    intro a ha
    simp only [Finset.mem_singleton, decide_eq_true_eq]
    exact Nat.ne_of_lt (List.mem_range.mp ha)
  rw [List.range_succ, List.filter_append, h1]
  simp

theorem popOne_singleton (v : Nat) : popOne {v} = v := by
  unfold popOne
  rw [sortedElems_singleton]
  rfl

/-- `remove_candidate` reports progress exactly when the tile shares a
candidate with the removal set. -/
theorem rc_true_iff (t : Tile) (used : Finset Nat) :
    ((t.remove_candidate used).2 = true ↔ ∃ x ∈ t.candidates, x ∈ used) := by
  by_cases h : t.candidates \ used = t.candidates
  · rw [rc_no_change t used h]
    simp only [Bool.false_eq_true, false_iff]
    have hdis := Finset.sdiff_eq_self_iff_disjoint.mp h
    rintro ⟨x, hx, hxu⟩
    exact (Finset.disjoint_left.mp hdis hx) hxu
  · have hex : ∃ x ∈ t.candidates, x ∈ used := by
      have := mt Finset.sdiff_eq_self_iff_disjoint.mpr h
      obtain ⟨x, hx, hxu⟩ := Finset.not_disjoint_iff.mp this
      exact ⟨x, hx, hxu⟩
    by_cases h2 : (t.candidates \ used).card = 1
    · rw [rc_collapse t used h h2]
      simpa using hex
    · rw [rc_prune t used h h2]
      simpa using hex

/-- On a false return, `remove_candidate` is a no-op. -/
theorem rc_false_no_op (t : Tile) (used : Finset Nat)
    (h : (t.remove_candidate used).2 = false) : t.remove_candidate used = (t, false) := by
  by_cases hd : t.candidates \ used = t.candidates
  · exact rc_no_change t used hd
  · exfalso
    by_cases h2 : (t.candidates \ used).card = 1
    · rw [rc_collapse t used hd h2] at h; simp at h
    · rw [rc_prune t used hd h2] at h; simp at h

theorem mctInv_step (b : Board) (seen : List (Nat × Nat)) (cur : Option (Nat × Nat))
    (a : Nat × Nat) (h : mctInv b seen cur) : mctInv b (seen ++ [a]) (mctStep b cur a) := by
  have hmem : ∀ q : Nat × Nat, q ∈ seen ++ [a] ↔ q ∈ seen ∨ q = a := by
    intro q; simp [List.mem_append]
  unfold mctStep
  by_cases hv : (getTile b a.1 a.2).value = UNKNOWN
  · rw [if_pos hv]
    rcases h with ⟨hc, hall⟩ | ⟨p, hc, hp, hup, hmin, s1, s2, hsplit, hfirst⟩
    · rw [hc]
      refine Or.inr ⟨a, rfl, (hmem a).mpr (Or.inr rfl), hv, ?_, seen, [], rfl, ?_⟩
      · intro q hq hqu
        rcases (hmem q).mp hq with hq1 | hq2
        · exact absurd hqu (hall q hq1)
        · subst hq2; exact Nat.le_refl _
      · intro q hq hqu
        exact absurd hqu (hall q hq)
    · rw [hc]
      show mctInv b (seen ++ [a])
        (if (getTile b p.1 p.2).candidates.card > (getTile b a.1 a.2).candidates.card
          then some a else some p)
      by_cases hgt :
          (getTile b p.1 p.2).candidates.card > (getTile b a.1 a.2).candidates.card
      · rw [if_pos hgt]
        refine Or.inr ⟨a, rfl, (hmem a).mpr (Or.inr rfl), hv, ?_, seen, [], rfl, ?_⟩
        · intro q hq hqu
          rcases (hmem q).mp hq with hq1 | hq2
          · exact Nat.le_trans (Nat.le_of_lt hgt) (hmin q hq1 hqu)
          · subst hq2; exact Nat.le_refl _
        · intro q hq hqu
          exact Nat.lt_of_lt_of_le hgt (hmin q hq hqu)
      · rw [if_neg hgt]
        refine Or.inr ⟨p, rfl, (hmem p).mpr (Or.inl hp), hup, ?_, s1, s2 ++ [a], ?_, hfirst⟩
        · intro q hq hqu
          rcases (hmem q).mp hq with hq1 | hq2
          · exact hmin q hq1 hqu
          · subst hq2; exact Nat.le_of_not_lt hgt
        · rw [hsplit]; simp
  · rw [if_neg hv]
    rcases h with ⟨hc, hall⟩ | ⟨p, hc, hp, hup, hmin, s1, s2, hsplit, hfirst⟩
    · refine Or.inl ⟨hc, ?_⟩
      intro q hq
      rcases (hmem q).mp hq with hq1 | hq2
      · exact hall q hq1
      · subst hq2; exact hv
    · refine Or.inr ⟨p, hc, (hmem p).mpr (Or.inl hp), hup, ?_, s1, s2 ++ [a], ?_, hfirst⟩
      · intro q hq hqu
        rcases (hmem q).mp hq with hq1 | hq2
        · exact hmin q hq1 hqu
        · subst hq2; exact absurd hqu hv
      · rw [hsplit]; simp

theorem mct_go (b : Board) : ∀ (l seen : List (Nat × Nat)) (cur : Option (Nat × Nat)),
    mctInv b seen cur → mctInv b (seen ++ l) (l.foldl (mctStep b) cur)
  | [], seen, cur, h => by simpa using h
  | a :: l, seen, cur, h => by
    have step := mctInv_step b seen cur a h
    have rec := mct_go b l (seen ++ [a]) (mctStep b cur a) step
    simpa [List.append_assoc] using rec

/-- C5 helper: the invariant instantiated at the full scan. -/
theorem mct_spec (b : Board) : mctInv b allPositions (Board.min_choice_tile b) := by
  have h0 : mctInv b [] none := Or.inl ⟨rfl, by intro q hq; cases hq⟩
  have := mct_go b allPositions [] none h0
  simpa using this

/-- C5: `min_choice_tile` returns only `UNKNOWN` tiles; under the
precondition that some tile is `UNKNOWN`, it returns the row-major-first
`UNKNOWN` tile of minimal candidate count. -/
theorem claim_C5 (b : Board) :
    (∀ p, Board.min_choice_tile b = some p → (getTile b p.1 p.2).value = UNKNOWN) ∧
    ((∃ p ∈ allPositions, (getTile b p.1 p.2).value = UNKNOWN) →
      ∃ p, Board.min_choice_tile b = some p ∧ p ∈ allPositions ∧
        (getTile b p.1 p.2).value = UNKNOWN ∧
        (∀ q ∈ allPositions, (getTile b q.1 q.2).value = UNKNOWN →
          (getTile b p.1 p.2).candidates.card ≤ (getTile b q.1 q.2).candidates.card) ∧
        ∃ l1 l2, allPositions = l1 ++ p :: l2 ∧
          ∀ q ∈ l1, (getTile b q.1 q.2).value = UNKNOWN →
            (getTile b p.1 p.2).candidates.card < (getTile b q.1 q.2).candidates.card) := by
  have hinv := mct_spec b
  constructor
  · intro p hp
    rcases hinv with ⟨hc, _⟩ | ⟨p2, hc, _, hup, _⟩
    · rw [hp] at hc; cases hc
    · rw [hp] at hc
      obtain rfl : p = p2 := by injection hc with h
      exact hup
  · rintro ⟨q0, hq0, hq0u⟩
    rcases hinv with ⟨_, hall⟩ | ⟨p, hc, hp, hup, hmin, l1, l2, hsplit, hfirst⟩
    · exact absurd hq0u (hall q0 hq0)
    · exact ⟨p, hc, hp, hup, hmin, l1, l2, hsplit, hfirst⟩

/-- C6: `remove_candidate` returns true exactly when it removes something
(for a singleton candidate set disjoint from the removal set it is a no-op
returning false), and a removal leaving exactly one candidate sets the
tile's value to that remaining symbol. -/
theorem claim_C6 (t : Tile) (used : Finset Nat) (hsub : t.candidates ⊆ CHOICES) :
    ((t.remove_candidate used).2 = true ↔ ∃ x ∈ t.candidates, x ∈ used) ∧
    ((t.remove_candidate used).2 = false → t.remove_candidate used = (t, false)) ∧
    (t.candidates.card = 1 → (∀ x ∈ t.candidates, x ∉ used) →
      t.remove_candidate used = (t, false)) ∧
    ((∃ x ∈ t.candidates, x ∈ used) → (t.candidates \ used).card = 1 →
      ∃ v, t.candidates \ used = {v} ∧ (t.remove_candidate used).1.value = v ∧
        (t.remove_candidate used).1.candidates = {v}) := by
  refine ⟨rc_true_iff t used, rc_false_no_op t used, ?_, ?_⟩
  · intro _ hdisj
    exact rc_no_change t used
      (Finset.sdiff_eq_self_iff_disjoint.mpr (Finset.disjoint_left.mpr hdisj))
  · intro hex hcard
    obtain ⟨v, hv⟩ := Finset.card_eq_one.mp hcard
    have hne : t.candidates \ used ≠ t.candidates := by
      intro heq
      obtain ⟨x, hx, hxu⟩ := hex
      have hdis := Finset.sdiff_eq_self_iff_disjoint.mp heq
      exact (Finset.disjoint_left.mp hdis hx) hxu
    have hvc : v ∈ CHOICES := by
      apply hsub
      have : v ∈ t.candidates \ used := hv ▸ Finset.mem_singleton_self v
      exact (Finset.mem_sdiff.mp this).1
    rw [rc_collapse t used hne hcard]
    refine ⟨v, hv, ?_, ?_⟩ <;>
      rw [hv, popOne_singleton, set_value_of_mem _ hvc]

/-- C10 (amended): removing a superset of a nonempty candidate set of an
`UNKNOWN` tile raises no error: it returns true, keeps the value `UNKNOWN`
and leaves the candidate set empty. -/
theorem claim_C10 (t : Tile) (used : Finset Nat) (hu : t.value = UNKNOWN)
    (hne : t.candidates.Nonempty) (hsub : t.candidates ⊆ used) :
    (t.remove_candidate used).2 = true ∧ (t.remove_candidate used).1.value = UNKNOWN ∧
    (t.remove_candidate used).1.candidates = ∅ := by
  have hdiff : t.candidates \ used = ∅ := Finset.sdiff_eq_empty_iff_subset.mpr hsub
  have h1 : t.candidates \ used ≠ t.candidates := by
    rw [hdiff]
    exact (Finset.Nonempty.ne_empty hne).symm
  have h2 : (t.candidates \ used).card ≠ 1 := by
    rw [hdiff]
    simp
  rw [rc_prune t used h1 h2]
  exact ⟨rfl, hu, hdiff⟩

/-- C2 (amended): `set_value` with a value outside the alphabet does not
reject it: the tile is overwritten as if it were `UNKNOWN`. -/
theorem claim_C2 (t : Tile) (v : Nat) (_h1 : v ≠ UNKNOWN) (h2 : v ∉ CHOICES) :
    t.set_value v = { t with value := UNKNOWN, candidates := CHOICES } :=
  set_value_of_not_mem t h2

theorem tileInv_set_value (t : Tile) (v : Nat) : TileInv (t.set_value v) := by
  unfold TileInv Tile.set_value
  split_ifs with h
  · intro _; rfl
  · intro hmem; exact absurd hmem unknown_not_mem_choices

theorem tileInv_unknown (t : Tile) (hu : t.value = UNKNOWN) : TileInv t := by
  intro hmem
  rw [hu] at hmem
  exact absurd hmem unknown_not_mem_choices

theorem tileInv_rc (t : Tile) (used : Finset Nat) (hu : t.value = UNKNOWN) :
    TileInv ((t.remove_candidate used).1) := by
  by_cases hd : t.candidates \ used = t.candidates
  · rw [rc_no_change t used hd]
    exact tileInv_unknown t hu
  · by_cases h2 : (t.candidates \ used).card = 1
    · rw [rc_collapse t used hd h2]
      exact tileInv_set_value _ _
    · rw [rc_prune t used hd h2]
      exact tileInv_unknown _ hu

theorem boardInv_setTile (b : Board) (r c : Nat) (t : Tile) (hb : BoardInv b)
    (ht : TileInv t) : BoardInv (setTile b r c t) := by
  intro p hp
  rcases getTile_setTile_cases b r c p.1 p.2 t with h | h
  · rw [h]; exact ht
  · rw [h]; exact hb p hp

theorem boardInv_nakedGroup (acc : Board × Bool) (g : List (Nat × Nat))
    (hb : BoardInv acc.1) : BoardInv (nakedGroup acc g).1 := by
  unfold nakedGroup
  apply foldl_rec (fun acc2 => BoardInv acc2.1) (nakedStep (usedSymbols acc.1 g)) g acc hb
  intro acc2 p _ hacc2
  rcases nakedStep_cases (usedSymbols acc.1 g) acc2 p with heq | ⟨hv, _, heq⟩
  · rw [heq]; exact hacc2
  · rw [heq]
    exact boardInv_setTile _ _ _ _ hacc2 (tileInv_rc _ _ hv)

theorem boardInv_naked (b : Board) (hb : BoardInv b) : BoardInv (Board.naked_single b).1 := by
  show BoardInv (groups.foldl nakedGroup (b, false)).1
  apply foldl_rec (fun acc => BoardInv acc.1) nakedGroup groups (b, false) hb
  exact fun acc g _ hacc => boardInv_nakedGroup acc g hacc

theorem boardInv_hiddenGroup (acc : Board × Bool) (g : List (Nat × Nat))
    (hb : BoardInv acc.1) : BoardInv (hiddenGroup acc g).1 := by
  unfold hiddenGroup
  apply foldl_rec (fun acc2 => BoardInv acc2.1) (hiddenStep g)
    (sortedElems (leftovers acc.1 g)) acc hb
  intro acc2 s _ hacc2
  rcases hiddenStep_cases g acc2 s with heq | ⟨p, _, _, _, heq⟩
  · rw [heq]; exact hacc2
  · rw [heq]
    exact boardInv_setTile _ _ _ _ hacc2 (tileInv_set_value _ _)

theorem boardInv_hidden (b : Board) (hb : BoardInv b) : BoardInv (Board.hidden_single b).1 := by
  show BoardInv (groups.foldl hiddenGroup (b, false)).1
  apply foldl_rec (fun acc => BoardInv acc.1) hiddenGroup groups (b, false) hb
  exact fun acc g _ hacc => boardInv_hiddenGroup acc g hacc

theorem boardInv_set_tiles (b : Board) (vals : List (List Nat)) (hb : BoardInv b) :
    BoardInv (b.set_tiles vals) := by
  show BoardInv (allPositions.foldl _ b)
  apply foldl_rec (fun acc => BoardInv acc) _ allPositions b hb
  intro acc p _ hacc
  exact boardInv_setTile _ _ _ _ hacc (tileInv_set_value _ _)

/-- One unfolding of the `propagate` loop. -/
theorem propagateAux_succ (n : Nat) (b : Board) :
    Board.propagateAux (n + 1) b =
      (if (Board.naked_single b).2 = true then Board.propagateAux n (Board.naked_single b).1
       else if ((Board.naked_single b).1.hidden_single).2 = true then
         Board.propagateAux n ((Board.naked_single b).1.hidden_single).1
       else ((Board.naked_single b).1.hidden_single).1) := rfl

theorem boardInv_propagateAux (fuel : Nat) (b : Board) (hb : BoardInv b) :
    BoardInv (Board.propagateAux fuel b) := by
  induction fuel generalizing b with
  | zero => exact hb
  | succ n ih =>
    rw [propagateAux_succ]
    split_ifs with h1 h2
    · exact ih _ (boardInv_naked b hb)
    · exact ih _ (boardInv_hidden _ (boardInv_naked b hb))
    · exact boardInv_hidden _ (boardInv_naked b hb)

theorem boardInv_propagate (b : Board) (hb : BoardInv b) : BoardInv b.propagate :=
  boardInv_propagateAux _ b hb

theorem solveLoop_nil (srec : Board → Option (Bool × Board)) (gp : Nat × Nat)
    (saved : List (List Nat)) (cur : Board) :
    Board.solveLoop srec gp saved [] cur = some (false, cur) := rfl

theorem solveLoop_cons (srec : Board → Option (Bool × Board)) (gp : Nat × Nat)
    (saved : List (List Nat)) (i : Nat) (rest : List Nat) (cur : Board) :
    Board.solveLoop srec gp saved (i :: rest) cur =
      (match srec (setTile cur gp.1 gp.2 ((getTile cur gp.1 gp.2).set_value i)) with
       | none => none
       | some (true, b2) => some (true, b2)
       | some (false, b2) =>
         Board.solveLoop srec gp saved rest (Board.set_tiles b2 saved)) := rfl

theorem solveLoop_inv (srec : Board → Option (Bool × Board)) (gp : Nat × Nat)
    (saved : List (List Nat))
    (hrec : ∀ b2 r b3, BoardInv b2 → srec b2 = some (r, b3) → BoardInv b3) :
    ∀ (l : List Nat) (cur : Board) (r : Bool) (b3 : Board), BoardInv cur →
      Board.solveLoop srec gp saved l cur = some (r, b3) → BoardInv b3
  | [], cur, r, b3, hc, h => by
    rw [solveLoop_nil] at h
    simp only [Option.some.injEq, Prod.mk.injEq] at h
    exact h.2 ▸ hc
  | i :: rest, cur, r, b3, hc, h => by
    rw [solveLoop_cons] at h
    have hc1 : BoardInv (setTile cur gp.1 gp.2 ((getTile cur gp.1 gp.2).set_value i)) :=
      boardInv_setTile _ _ _ _ hc (tileInv_set_value _ _)
    cases hs : srec (setTile cur gp.1 gp.2 ((getTile cur gp.1 gp.2).set_value i)) with
    | none => rw [hs] at h; exact Option.noConfusion h
    | some rb =>
      obtain ⟨rr, b2⟩ := rb
      cases rr with
      | true =>
        rw [hs] at h
        simp only [Option.some.injEq, Prod.mk.injEq] at h
        exact h.2 ▸ hrec _ _ _ hc1 hs
      | false =>
        rw [hs] at h
        exact solveLoop_inv srec gp saved hrec rest (Board.set_tiles b2 saved) r b3
          (boardInv_set_tiles _ _ (hrec _ _ _ hc1 hs)) h

/-- One unfolding of the `solve` recursion. -/
theorem solveAux_succ (n : Nat) (b : Board) :
    Board.solveAux (n + 1) b =
      (if (Board.propagate b).is_complete = true then
        some ((Board.propagate b).is_consistent, Board.propagate b)
      else if (Board.propagate b).is_consistent = true then
        match (Board.propagate b).min_choice_tile with
        | none => none
        | some gp =>
          Board.solveLoop (Board.solveAux n) gp (Board.propagate b).as_list
            (sortedElems (getTile (Board.propagate b) gp.1 gp.2).candidates)
            (Board.propagate b)
      else some (false, Board.propagate b)) := rfl

theorem solveAux_inv : ∀ (fuel : Nat) (b : Board) (r : Bool) (b2 : Board), BoardInv b →
    Board.solveAux fuel b = some (r, b2) → BoardInv b2
  | 0, _, _, _, _, h => Option.noConfusion h
  | fuel + 1, b, r, b2, hb, h => by
    rw [solveAux_succ] at h
    by_cases h1 : (Board.propagate b).is_complete = true
    · rw [if_pos h1] at h
      simp only [Option.some.injEq, Prod.mk.injEq] at h
      exact h.2 ▸ boardInv_propagate b hb
    · rw [if_neg h1] at h
      by_cases h2 : (Board.propagate b).is_consistent = true
      · rw [if_pos h2] at h
        cases hm : (Board.propagate b).min_choice_tile with
        | none => rw [hm] at h; exact Option.noConfusion h
        | some gp =>
          rw [hm] at h
          exact solveLoop_inv (Board.solveAux fuel) gp _
            (fun b3 r2 b4 hb3 hs => solveAux_inv fuel b3 r2 b4 hb3 hs) _ _ r b2
            (boardInv_propagate b hb) h
      · rw [if_neg h2] at h
        simp only [Option.some.injEq, Prod.mk.injEq] at h
        exact h.2 ▸ boardInv_propagate b hb

theorem boardInv_boardStep (b b2 : Board) (h : BoardStep b b2) (hb : BoardInv b) :
    BoardInv b2 := by
  cases h with
  | set_value r c v => exact boardInv_setTile _ _ _ _ hb (tileInv_set_value _ _)
  | remove_candidate r c used hu => exact boardInv_setTile _ _ _ _ hb (tileInv_rc _ _ hu)
  | set_tiles vals => exact boardInv_set_tiles _ _ hb
  | naked_single => exact boardInv_naked _ hb
  | hidden_single => exact boardInv_hidden _ hb
  | propagate => exact boardInv_propagate _ hb
  | solve fuel r b2 hs => exact solveAux_inv fuel b r b2 hb hs

/-- C7 (amended): every sequence of operations, with `remove_candidate`
applied only to `UNKNOWN` tiles as the board's passes do, preserves the tile
invariant. -/
theorem claim_C7 (b b2 : Board) (h : BoardReaches b b2) (hb : BoardInv b) : BoardInv b2 := by
  induction h with
  | refl => exact hb
  | tail bm b3 h1 h2 ih => exact boardInv_boardStep bm b3 h2 ih

lemma allPositions_nodup : allPositions.Nodup := by decide

lemma groups_pos_mem : ∀ g ∈ groups, ∀ p ∈ g, p ∈ allPositions := by decide

lemma mem_allPositions {r c : Nat} (hr : r < NROWS) (hc : c < NCOLS) :
    (r, c) ∈ allPositions := by
  unfold allPositions
  rw [List.mem_flatMap]
  exact ⟨r, List.mem_range.mpr hr, List.mem_map.mpr ⟨c, List.mem_range.mpr hc, rfl⟩⟩

lemma mem_allPositions_lt {p : Nat × Nat} (hp : p ∈ allPositions) :
    p.1 < NROWS ∧ p.2 < NCOLS := by
  revert hp
  revert p
  decide

lemma shape_setTile (b : Board) (r c : Nat) (t : Tile) (h : shapeOK b) :
    shapeOK (setTile b r c t) := by
  unfold setTile
  by_cases hr : r < b.length
  · constructor
    · rw [List.length_set]; exact h.1
    · intro row hrow
      rcases List.mem_or_eq_of_mem_set hrow with hmem | heq
      · exact h.2 row hmem
      · rw [heq, List.length_set]
        have : b.getD r [] ∈ b := by
          rw [List.getD_eq_getElem?_getD, List.getElem?_eq_getElem hr]
          exact List.getElem_mem hr
        exact h.2 _ this
  · rw [List.set_eq_of_length_le (Nat.le_of_not_lt hr)]
    exact h

lemma row_len (b : Board) (r : Nat) (h : shapeOK b) (hr : r < NROWS) :
    (b.getD r []).length = NCOLS := by
  have hlt : r < b.length := by rw [h.1]; exact hr
  have : b.getD r [] ∈ b := by
    rw [List.getD_eq_getElem?_getD, List.getElem?_eq_getElem hlt]
    exact List.getElem_mem hlt
  exact h.2 _ this

lemma getTile_setTile_self_of_shape (b : Board) {r c : Nat} (t : Tile) (h : shapeOK b)
    (hr : r < NROWS) (hc : c < NCOLS) : getTile (setTile b r c t) r c = t := by
  apply getTile_setTile_self
  · rw [h.1]; exact hr
  · rw [row_len b r h hr]; exact hc

theorem set_tiles_eq_fold (b : Board) (vals : List (List Nat)) :
    Board.set_tiles b vals = allPositions.foldl (stStep vals) b := rfl

theorem stStep_shape (vals : List (List Nat)) (acc : Board) (p : Nat × Nat)
    (h : shapeOK acc) : shapeOK (stStep vals acc p) :=
  shape_setTile _ _ _ _ h

lemma pair_ne_of_ne {q p : Nat × Nat} (h : q ≠ p) : (q.1, q.2) ≠ (p.1, p.2) := by
  intro heq
  apply h
  have h1 := congrArg Prod.fst heq
  have h2 := congrArg Prod.snd heq
  exact Prod.ext_iff.mpr ⟨h1, h2⟩

lemma getTile_stStep_ne (vals : List (List Nat)) (b : Board) (p q : Nat × Nat)
    (h : q ≠ p) : getTile (stStep vals b p) q.1 q.2 = getTile b q.1 q.2 :=
  getTile_setTile_ne b _ (pair_ne_of_ne h)

/-- The `set_tiles` scan, position-wise: every grid position holds the
`set_value` of its old tile at the grid entry. -/
theorem batch_fold (vals : List (List Nat)) :
    ∀ (l : List (Nat × Nat)) (b : Board), l.Nodup → shapeOK b →
      (∀ p ∈ l, p.1 < NROWS ∧ p.2 < NCOLS) → ∀ q : Nat × Nat,
      getTile (l.foldl (stStep vals) b) q.1 q.2 =
        if q ∈ l then
          (getTile b q.1 q.2).set_value ((vals.getD q.1 []).getD q.2 UNKNOWN)
        else getTile b q.1 q.2
  | [], b, _, _, _, q => by simp
  | p :: rest, b, hnd, hsh, hin, q => by
    have hp := hin p (List.mem_cons_self p rest)
    have hwrite : getTile (stStep vals b p) p.1 p.2 =
        (getTile b p.1 p.2).set_value ((vals.getD p.1 []).getD p.2 UNKNOWN) :=
      getTile_setTile_self_of_shape b _ hsh hp.1 hp.2
    have hrec := batch_fold vals rest (stStep vals b p) hnd.of_cons
      (stStep_shape vals b p hsh) (fun x hx => hin x (List.mem_cons_of_mem p hx)) q
    rw [List.foldl_cons, hrec]
    by_cases hq : q ∈ rest
    · rw [if_pos hq, if_pos (List.mem_cons_of_mem p hq)]
      have hqp : q ≠ p := fun h => (List.nodup_cons.mp hnd).1 (h ▸ hq)
      rw [getTile_stStep_ne vals b p q hqp]
    · rw [if_neg hq]
      by_cases hqp : q = p
      · subst hqp
        rw [if_pos (List.mem_cons_self q rest)]
        exact hwrite
      · rw [if_neg (fun hmem => by
          rcases List.mem_cons.mp hmem with h | h
          · exact hqp h
          · exact hq h)]
        exact getTile_stStep_ne vals b p q hqp

theorem getTile_set_tiles (b : Board) (vals : List (List Nat)) (hsh : shapeOK b)
    {q : Nat × Nat} (hq : q ∈ allPositions) :
    getTile (Board.set_tiles b vals) q.1 q.2 =
      (getTile b q.1 q.2).set_value ((vals.getD q.1 []).getD q.2 UNKNOWN) := by
  rw [set_tiles_eq_fold,
    batch_fold vals allPositions b allPositions_nodup hsh
      (fun p hp => mem_allPositions_lt hp) q,
    if_pos hq]

theorem set_tiles_shape (b : Board) (vals : List (List Nat)) (hsh : shapeOK b) :
    shapeOK (Board.set_tiles b vals) := by
  rw [set_tiles_eq_fold]
  apply foldl_rec shapeOK (stStep vals) allPositions b hsh
  exact fun acc p _ hacc => stStep_shape vals acc p hacc

lemma getD_eq_getElem {α : Type} (l : List α) (d : α) {i : Nat} (h : i < l.length) :
    l.getD i d = l[i] := by
  rw [List.getD_eq_getElem?_getD, List.getElem?_eq_getElem h]
  rfl

theorem as_list_getD (b : Board) (hsh : shapeOK b) {r c : Nat} (hr : r < NROWS)
    (hc : c < NCOLS) :
    ((Board.as_list b).getD r []).getD c UNKNOWN = (getTile b r c).value := by
  have hrb : r < b.length := by rw [hsh.1]; exact hr
  have hcb : c < (b[r]).length := by
    have hl := row_len b r hsh hr
    rw [getD_eq_getElem b [] hrb] at hl
    rw [hl]
    exact hc
  have h1 : (Board.as_list b).getD r [] = (b[r]).map (fun t => t.value) := by
    unfold Board.as_list
    rw [getD_eq_getElem _ _ (by rw [List.length_map]; exact hrb), List.getElem_map]
  rw [h1, getD_eq_getElem _ _ (by rw [List.length_map]; exact hcb), List.getElem_map]
  unfold getTile
  rw [getD_eq_getElem b [] hrb, getD_eq_getElem _ _ hcb]

theorem board_ext (b1 b2 : Board) (h1 : shapeOK b1) (h2 : shapeOK b2)
    (h : ∀ p ∈ allPositions, getTile b1 p.1 p.2 = getTile b2 p.1 p.2) : b1 = b2 := by
  apply List.ext_getElem (by rw [h1.1, h2.1])
  intro r hr1 hr2
  have e1 : (b1[r]).length = NCOLS := h1.2 _ (List.getElem_mem hr1)
  have e2 : (b2[r]).length = NCOLS := h2.2 _ (List.getElem_mem hr2)
  apply List.ext_getElem (by rw [e1, e2])
  intro c hc1 hc2
  have hp : (r, c) ∈ allPositions :=
    mem_allPositions (by rw [← h1.1]; exact hr1) (by rw [← e1]; exact hc1)
  have hv := h (r, c) hp
  unfold getTile at hv
  rw [getD_eq_getElem b1 [] hr1, getD_eq_getElem _ _ hc1,
    getD_eq_getElem b2 [] hr2, getD_eq_getElem _ _ hc2] at hv
  exact hv

theorem as_list_eq_of_values (b1 b2 : Board) (h1 : shapeOK b1) (h2 : shapeOK b2)
    (h : ∀ p ∈ allPositions, (getTile b1 p.1 p.2).value = (getTile b2 p.1 p.2).value) :
    Board.as_list b1 = Board.as_list b2 := by
  unfold Board.as_list
  apply List.ext_getElem (by simp [h1.1, h2.1])
  intro r hr1 hr2
  rw [List.length_map] at hr1 hr2
  rw [List.getElem_map, List.getElem_map]
  have e1 : (b1[r]).length = NCOLS := h1.2 _ (List.getElem_mem hr1)
  have e2 : (b2[r]).length = NCOLS := h2.2 _ (List.getElem_mem hr2)
  apply List.ext_getElem (by simp [e1, e2])
  intro c hc1 hc2
  rw [List.length_map] at hc1 hc2
  rw [List.getElem_map, List.getElem_map]
  have hp : (r, c) ∈ allPositions :=
    mem_allPositions (by rw [← h1.1]; exact hr1) (by rw [← e1]; exact hc1)
  have hv := h (r, c) hp
  unfold getTile at hv
  rw [getD_eq_getElem b1 [] hr1, getD_eq_getElem _ _ hc1,
    getD_eq_getElem b2 [] hr2, getD_eq_getElem _ _ hc2] at hv
  exact hv

/-- C3 (amended): restoring a snapshot preserves every tile's value, and is
the identity on the full board state if and only if every tile is fixed by
`set_value` of its own value (its candidate set is already the default
derived from that value). -/
theorem claim_C3 (b : Board) (hsh : shapeOK b) (hv : valuesOK b) :
    Board.as_list (Board.set_tiles b (Board.as_list b)) = Board.as_list b ∧
    (Board.set_tiles b (Board.as_list b) = b ↔
      ∀ p ∈ allPositions,
        Tile.set_value (getTile b p.1 p.2) (getTile b p.1 p.2).value = getTile b p.1 p.2) := by
  have hpt : ∀ p ∈ allPositions,
      getTile (Board.set_tiles b (Board.as_list b)) p.1 p.2 =
        (getTile b p.1 p.2).set_value (getTile b p.1 p.2).value := by
    intro p hp
    obtain ⟨hr, hc⟩ := mem_allPositions_lt hp
    rw [getTile_set_tiles b _ hsh hp, as_list_getD b hsh hr hc]
  constructor
  · apply as_list_eq_of_values _ _ (set_tiles_shape b _ hsh) hsh
    intro p hp
    rw [hpt p hp]
    rcases hv p hp with hu | hm
    · rw [hu, set_value_of_not_mem _ unknown_not_mem_choices]
    · rw [set_value_of_mem _ hm]
  · constructor
    · intro hid p hp
      have h2 := hpt p hp
      rw [hid] at h2
      exact h2.symm
    · intro hsnap
      apply board_ext _ _ (set_tiles_shape b _ hsh) hsh
      intro p hp
      rw [hpt p hp, hsnap p hp]

theorem predOK_setTile (Q : Tile → Prop) (b : Board) (r c : Nat) (t : Tile)
    (hb : ∀ p ∈ allPositions, Q (getTile b p.1 p.2)) (ht : Q t) :
    ∀ p ∈ allPositions, Q (getTile (setTile b r c t) p.1 p.2) := by
  intro p hp
  rcases getTile_setTile_cases b r c p.1 p.2 t with h | h
  · rw [h]; exact ht
  · rw [h]; exact hb p hp

theorem sv_cands_sub (t : Tile) (v : Nat) : (t.set_value v).candidates ⊆ CHOICES := by
  unfold Tile.set_value
  split_ifs with h
  · simp [Finset.singleton_subset_iff, h]
  · simp

theorem rc_cands_sub (t : Tile) (used : Finset Nat) (h : t.candidates ⊆ CHOICES) :
    ((t.remove_candidate used).1).candidates ⊆ CHOICES := by
  by_cases hd : t.candidates \ used = t.candidates
  · rw [rc_no_change t used hd]; exact h
  · by_cases h2 : (t.candidates \ used).card = 1
    · rw [rc_collapse t used hd h2]; exact sv_cands_sub _ _
    · rw [rc_prune t used hd h2]
      exact Finset.Subset.trans Finset.sdiff_subset h

theorem tileWeight_rc_lt (t : Tile) (used : Finset Nat) (hu : t.value = UNKNOWN)
    (hsub : t.candidates ⊆ CHOICES) (hr : (t.remove_candidate used).2 = true) :
    tileWeight ((t.remove_candidate used).1) < tileWeight t := by
  have hd : t.candidates \ used ≠ t.candidates := by
    intro heq
    rw [rc_no_change t used heq] at hr
    simp at hr
  have hss : t.candidates \ used ⊂ t.candidates := Finset.sdiff_subset.ssubset_of_ne hd
  have hcard : (t.candidates \ used).card < t.candidates.card := Finset.card_lt_card hss
  by_cases h2 : (t.candidates \ used).card = 1
  · obtain ⟨v, hv⟩ := Finset.card_eq_one.mp h2
    have hvc : v ∈ CHOICES :=
      hsub (Finset.mem_sdiff.mp (hv ▸ Finset.mem_singleton_self v)).1
    have hvu : v ≠ UNKNOWN := fun h => unknown_not_mem_choices (h ▸ hvc)
    rw [rc_collapse t used hd h2, hv, popOne_singleton, set_value_of_mem _ hvc]
    unfold tileWeight
    simp only [Finset.card_singleton]
    rw [if_neg hvu, if_pos hu]
    omega
  · rw [rc_prune t used hd h2]
    unfold tileWeight
    rw [if_pos (show ({ t with candidates := t.candidates \ used } : Tile).value = UNKNOWN
      from hu)]
    show (t.candidates \ used).card + 1 < t.candidates.card + 1
    omega

theorem tileWeight_sv_lt (t : Tile) (v : Nat) (hu : t.value = UNKNOWN) (hv : v ∈ CHOICES)
    (hvc : v ∈ t.candidates) : tileWeight (t.set_value v) < tileWeight t := by
  rw [set_value_of_mem _ hv]
  unfold tileWeight
  have hvu : v ≠ UNKNOWN := fun h => unknown_not_mem_choices (h ▸ hv)
  simp only [Finset.card_singleton]
  rw [if_neg hvu, if_pos hu]
  have : 0 < t.candidates.card := Finset.card_pos.mpr ⟨v, hvc⟩
  omega

theorem sum_map_change {α : Type} (f g : α → Nat) : ∀ (l : List α), l.Nodup →
    ∀ a0 ∈ l, (∀ a ∈ l, a ≠ a0 → f a = g a) →
      (l.map f).sum + g a0 = (l.map g).sum + f a0 := by
  intro l
  induction l with
  | nil => intro _ a0 h; cases h
  | cons x rest ih =>
    intro hnd a0 ha0 hfg
    rcases List.mem_cons.mp ha0 with hx | hrest
    · subst hx
      have hmc : rest.map f = rest.map g :=
        List.map_congr_left (fun a ha => hfg a (List.mem_cons_of_mem _ ha)
          (fun he => (List.nodup_cons.mp hnd).1 (he ▸ ha)))
      rw [List.map_cons, List.map_cons, List.sum_cons, List.sum_cons, hmc]
      omega
    · have hxa : x ≠ a0 := fun he => (List.nodup_cons.mp hnd).1 (he ▸ hrest)
      have hr := ih (List.nodup_cons.mp hnd).2 a0 hrest
        (fun a ha hne => hfg a (List.mem_cons_of_mem _ ha) hne)
      rw [List.map_cons, List.map_cons, List.sum_cons, List.sum_cons,
        hfg x (List.mem_cons_self _ _) hxa]
      omega

theorem mu_setTile (b : Board) (p : Nat × Nat) (t : Tile) (hsh : shapeOK b)
    (hp : p ∈ allPositions) :
    Board.mu (setTile b p.1 p.2 t) + tileWeight (getTile b p.1 p.2) =
      Board.mu b + tileWeight t := by
  unfold Board.mu
  have hs := sum_map_change (fun q => tileWeight (getTile (setTile b p.1 p.2 t) q.1 q.2))
    (fun q => tileWeight (getTile b q.1 q.2)) allPositions allPositions_nodup p hp
    (fun q _ hne => by
      show tileWeight (getTile (setTile b p.1 p.2 t) q.1 q.2) = tileWeight (getTile b q.1 q.2)
      rw [getTile_setTile_ne b t (pair_ne_of_ne hne)])
  obtain ⟨hr, hc⟩ := mem_allPositions_lt hp
  simp only at hs
  rw [getTile_setTile_self_of_shape b t hsh hr hc] at hs
  exact hs

theorem nakedStep_measure (b : Board) (used : Finset Nat) (acc : Board × Bool)
    (p : Nat × Nat) (hp : p ∈ allPositions) (h : NInv b acc) :
    NInv b (nakedStep used acc p) := by
  rcases nakedStep_cases used acc p with heq | ⟨hv, hr, heq⟩
  · rw [heq]; exact h
  · rw [heq]
    obtain ⟨hsh, hcand, hfalse, hmu⟩ := h
    have hsub := hcand p hp
    have hwlt := tileWeight_rc_lt _ used hv hsub hr
    have hmeq := mu_setTile acc.1 p ((getTile acc.1 p.1 p.2).remove_candidate used).1 hsh hp
    refine ⟨shape_setTile _ _ _ _ hsh,
      predOK_setTile (fun t => t.candidates ⊆ CHOICES) acc.1 p.1 p.2 _ hcand
        (rc_cands_sub _ _ hsub), ?_, ?_⟩
    · intro hfe; simp at hfe
    · show Board.mu
        (setTile acc.1 p.1 p.2 ((getTile acc.1 p.1 p.2).remove_candidate used).1) + 1 ≤
          Board.mu b
      have hacc : Board.mu acc.1 ≤ Board.mu b := by
        by_cases hb2 : acc.2 = true
        · rw [if_pos hb2] at hmu; omega
        · rw [if_neg hb2] at hmu; omega
      omega

theorem hiddenStep_measure (b : Board) (g : List (Nat × Nat))
    (hg : ∀ p ∈ g, p ∈ allPositions) (acc : Board × Bool) (s : Nat) (h : NInv b acc) :
    NInv b (hiddenStep g acc s) := by
  rcases hiddenStep_cases g acc s with heq | ⟨p, hpg, hv, hsc, heq⟩
  · rw [heq]; exact h
  · rw [heq]
    obtain ⟨hsh, hcand, hfalse, hmu⟩ := h
    have hp := hg p hpg
    have hsub := hcand p hp
    have hwlt := tileWeight_sv_lt _ s hv (hsub hsc) hsc
    have hmeq := mu_setTile acc.1 p ((getTile acc.1 p.1 p.2).set_value s) hsh hp
    refine ⟨shape_setTile _ _ _ _ hsh,
      predOK_setTile (fun t => t.candidates ⊆ CHOICES) acc.1 p.1 p.2 _ hcand
        (sv_cands_sub _ _), ?_, ?_⟩
    · intro hfe; simp at hfe
    · show Board.mu (setTile acc.1 p.1 p.2 ((getTile acc.1 p.1 p.2).set_value s)) + 1 ≤
        Board.mu b
      have hacc : Board.mu acc.1 ≤ Board.mu b := by
        by_cases hb2 : acc.2 = true
        · rw [if_pos hb2] at hmu; omega
        · rw [if_neg hb2] at hmu; omega
      omega

theorem naked_measure (b : Board) (hsh : shapeOK b) (hc : candsOK b) :
    NInv b (Board.naked_single b) := by
  show NInv b (groups.foldl nakedGroup (b, false))
  apply foldl_rec (NInv b) nakedGroup groups (b, false) ⟨hsh, hc, fun _ => rfl, by simp⟩
  intro acc g hgmem hacc
  unfold nakedGroup
  apply foldl_rec (NInv b) (nakedStep (usedSymbols acc.1 g)) g acc hacc
  intro acc2 p hpg hacc2
  exact nakedStep_measure b _ acc2 p (groups_pos_mem g hgmem p hpg) hacc2

theorem hidden_measure (b : Board) (hsh : shapeOK b) (hc : candsOK b) :
    NInv b (Board.hidden_single b) := by
  show NInv b (groups.foldl hiddenGroup (b, false))
  apply foldl_rec (NInv b) hiddenGroup groups (b, false) ⟨hsh, hc, fun _ => rfl, by simp⟩
  intro acc g hgmem hacc
  unfold hiddenGroup
  apply foldl_rec (NInv b) (hiddenStep g) (sortedElems (leftovers acc.1 g)) acc hacc
  intro acc2 s _ hacc2
  exact hiddenStep_measure b g (groups_pos_mem g hgmem) acc2 s hacc2

theorem bool_eq_false {x : Bool} (h : ¬ x = true) : x = false := by
  revert h; cases x <;> simp

theorem propagateAux_fix : ∀ (fuel : Nat) (b : Board), Board.mu b < fuel → shapeOK b →
    candsOK b →
    Board.naked_single (Board.propagateAux fuel b) = (Board.propagateAux fuel b, false) ∧
    Board.hidden_single (Board.propagateAux fuel b) = (Board.propagateAux fuel b, false) ∧
    shapeOK (Board.propagateAux fuel b) ∧ candsOK (Board.propagateAux fuel b)
  | 0, b, hlt, _, _ => absurd hlt (Nat.not_lt_zero _)
  | fuel + 1, b, hlt, hsh, hc => by
    rw [propagateAux_succ]
    obtain ⟨hnsh, hncand, hnfalse, hnmu⟩ := naked_measure b hsh hc
    by_cases h1 : (Board.naked_single b).2 = true
    · rw [if_pos h1]
      apply propagateAux_fix fuel (Board.naked_single b).1 ?_ hnsh hncand
      rw [if_pos h1] at hnmu
      omega
    · rw [if_neg h1]
      have hb1 : (Board.naked_single b).1 = b := hnfalse (bool_eq_false h1)
      rw [hb1]
      obtain ⟨hhsh, hhcand, hhfalse, hhmu⟩ := hidden_measure b hsh hc
      by_cases h2 : (Board.hidden_single b).2 = true
      · rw [if_pos h2]
        apply propagateAux_fix fuel (Board.hidden_single b).1 ?_ hhsh hhcand
        rw [if_pos h2] at hhmu
        omega
      · rw [if_neg h2]
        have hb2 : (Board.hidden_single b).1 = b := hhfalse (bool_eq_false h2)
        rw [hb2]
        exact ⟨Prod.ext_iff.mpr ⟨hb1, bool_eq_false h1⟩,
          Prod.ext_iff.mpr ⟨hb2, bool_eq_false h2⟩, hsh, hc⟩

/-- C4: `propagate` is idempotent, and its result is a common fixed point of
`naked_single` and `hidden_single` (both report false and change nothing). -/
theorem claim_C4 (b : Board) (hsh : shapeOK b) (hc : candsOK b) :
    Board.propagate (Board.propagate b) = Board.propagate b ∧
    Board.naked_single (Board.propagate b) = (Board.propagate b, false) ∧
    Board.hidden_single (Board.propagate b) = (Board.propagate b, false) := by
  obtain ⟨hn, hh, _, _⟩ :=
    propagateAux_fix (Board.mu b + 1) b (Nat.lt_succ_self _) hsh hc
  have hn2 : Board.naked_single (Board.propagate b) = (Board.propagate b, false) := hn
  have hh2 : Board.hidden_single (Board.propagate b) = (Board.propagate b, false) := hh
  refine ⟨?_, hn2, hh2⟩
  show Board.propagateAux (Board.mu (Board.propagate b) + 1) (Board.propagate b) =
    Board.propagate b
  rw [propagateAux_succ, hn2]
  simp [hh2]

theorem sv_value_ok (t : Tile) (v : Nat) :
    (t.set_value v).value = UNKNOWN ∨ (t.set_value v).value ∈ CHOICES := by
  unfold Tile.set_value
  split_ifs with h
  · exact Or.inr h
  · exact Or.inl rfl

theorem rc_value_ok (t : Tile) (used : Finset Nat)
    (h : t.value = UNKNOWN ∨ t.value ∈ CHOICES) :
    ((t.remove_candidate used).1).value = UNKNOWN ∨
      ((t.remove_candidate used).1).value ∈ CHOICES := by
  by_cases hd : t.candidates \ used = t.candidates
  · rw [rc_no_change t used hd]; exact h
  · by_cases h2 : (t.candidates \ used).card = 1
    · rw [rc_collapse t used hd h2]; exact sv_value_ok _ _
    · rw [rc_prune t used hd h2]; exact h

theorem valuesOK_naked (b : Board) (hv : valuesOK b) : valuesOK (Board.naked_single b).1 := by
  show valuesOK (groups.foldl nakedGroup (b, false)).1
  apply foldl_rec (fun acc => valuesOK acc.1) nakedGroup groups (b, false) hv
  intro acc g hgmem hacc
  unfold nakedGroup
  apply foldl_rec (fun acc2 => valuesOK acc2.1) (nakedStep (usedSymbols acc.1 g)) g acc hacc
  intro acc2 p hpg hacc2
  rcases nakedStep_cases (usedSymbols acc.1 g) acc2 p with heq | ⟨hval, _, heq⟩
  · rw [heq]; exact hacc2
  · rw [heq]
    exact predOK_setTile (fun t => t.value = UNKNOWN ∨ t.value ∈ CHOICES) acc2.1 p.1 p.2 _
      hacc2 (rc_value_ok _ _ (hacc2 p (groups_pos_mem g hgmem p hpg)))

theorem valuesOK_hidden (b : Board) (hv : valuesOK b) :
    valuesOK (Board.hidden_single b).1 := by
  show valuesOK (groups.foldl hiddenGroup (b, false)).1
  apply foldl_rec (fun acc => valuesOK acc.1) hiddenGroup groups (b, false) hv
  intro acc g _ hacc
  unfold hiddenGroup
  apply foldl_rec (fun acc2 => valuesOK acc2.1) (hiddenStep g)
    (sortedElems (leftovers acc.1 g)) acc hacc
  intro acc2 s _ hacc2
  rcases hiddenStep_cases g acc2 s with heq | ⟨p, _, _, _, heq⟩
  · rw [heq]; exact hacc2
  · rw [heq]
    exact predOK_setTile (fun t => t.value = UNKNOWN ∨ t.value ∈ CHOICES) acc2.1 p.1 p.2 _
      hacc2 (sv_value_ok _ _)

theorem valuesOK_set_tiles (b : Board) (vals : List (List Nat)) (hv : valuesOK b) :
    valuesOK (Board.set_tiles b vals) := by
  show valuesOK (allPositions.foldl (stStep vals) b)
  apply foldl_rec valuesOK (stStep vals) allPositions b hv
  intro acc p _ hacc
  exact predOK_setTile (fun t => t.value = UNKNOWN ∨ t.value ∈ CHOICES) acc p.1 p.2 _
    hacc (sv_value_ok _ _)

theorem candsOK_set_tiles (b : Board) (vals : List (List Nat)) (hc : candsOK b) :
    candsOK (Board.set_tiles b vals) := by
  show candsOK (allPositions.foldl (stStep vals) b)
  apply foldl_rec candsOK (stStep vals) allPositions b hc
  intro acc p _ hacc
  exact predOK_setTile (fun t => t.candidates ⊆ CHOICES) acc p.1 p.2 _ hacc (sv_cands_sub _ _)

theorem WB_naked (b : Board) (h : WB b) : WB (Board.naked_single b).1 := by
  obtain ⟨hn1, hn2, _, _⟩ := naked_measure b h.1 h.2.2
  exact ⟨hn1, valuesOK_naked b h.2.1, hn2⟩

theorem WB_hidden (b : Board) (h : WB b) : WB (Board.hidden_single b).1 := by
  obtain ⟨hn1, hn2, _, _⟩ := hidden_measure b h.1 h.2.2
  exact ⟨hn1, valuesOK_hidden b h.2.1, hn2⟩

theorem WB_set_tiles (b : Board) (vals : List (List Nat)) (h : WB b) :
    WB (Board.set_tiles b vals) :=
  ⟨set_tiles_shape b vals h.1, valuesOK_set_tiles b vals h.2.1, candsOK_set_tiles b vals h.2.2⟩

theorem WB_setTile (b : Board) (r c : Nat) (t : Tile) (h : WB b)
    (hvt : t.value = UNKNOWN ∨ t.value ∈ CHOICES) (hct : t.candidates ⊆ CHOICES) :
    WB (setTile b r c t) :=
  ⟨shape_setTile b r c t h.1,
    predOK_setTile (fun t => t.value = UNKNOWN ∨ t.value ∈ CHOICES) b r c t h.2.1 hvt,
    predOK_setTile (fun t => t.candidates ⊆ CHOICES) b r c t h.2.2 hct⟩

theorem WB_propagateAux (fuel : Nat) (b : Board) (h : WB b) :
    WB (Board.propagateAux fuel b) := by
  induction fuel generalizing b with
  | zero => exact h
  | succ n ih =>
    rw [propagateAux_succ]
    split_ifs with h1 h2
    · exact ih _ (WB_naked b h)
    · exact ih _ (WB_hidden _ (WB_naked b h))
    · exact WB_hidden _ (WB_naked b h)

theorem WB_propagate (b : Board) (h : WB b) : WB (Board.propagate b) :=
  WB_propagateAux _ b h

theorem WB_solveLoop (srec : Board → Option (Bool × Board)) (gp : Nat × Nat)
    (saved : List (List Nat))
    (hrec : ∀ b2 r b3, WB b2 → srec b2 = some (r, b3) → WB b3) :
    ∀ (l : List Nat) (cur : Board) (r : Bool) (b3 : Board), WB cur →
      Board.solveLoop srec gp saved l cur = some (r, b3) → WB b3
  | [], cur, r, b3, hc, h => by
    rw [solveLoop_nil] at h
    simp only [Option.some.injEq, Prod.mk.injEq] at h
    exact h.2 ▸ hc
  | i :: rest, cur, r, b3, hc, h => by
    rw [solveLoop_cons] at h
    have hc1 : WB (setTile cur gp.1 gp.2 ((getTile cur gp.1 gp.2).set_value i)) :=
      WB_setTile cur gp.1 gp.2 _ hc (sv_value_ok _ _) (sv_cands_sub _ _)
    cases hs : srec (setTile cur gp.1 gp.2 ((getTile cur gp.1 gp.2).set_value i)) with
    | none => rw [hs] at h; exact Option.noConfusion h
    | some rb =>
      obtain ⟨rr, b2⟩ := rb
      cases rr with
      | true =>
        rw [hs] at h
        simp only [Option.some.injEq, Prod.mk.injEq] at h
        exact h.2 ▸ hrec _ _ _ hc1 hs
      | false =>
        rw [hs] at h
        exact WB_solveLoop srec gp saved hrec rest (Board.set_tiles b2 saved) r b3
          (WB_set_tiles _ _ (hrec _ _ _ hc1 hs)) h

theorem WB_solveAux : ∀ (fuel : Nat) (b : Board) (r : Bool) (b2 : Board), WB b →
    Board.solveAux fuel b = some (r, b2) → WB b2
  | 0, _, _, _, _, h => Option.noConfusion h
  | fuel + 1, b, r, b2, hb, h => by
    rw [solveAux_succ] at h
    by_cases h1 : (Board.propagate b).is_complete = true
    · rw [if_pos h1] at h
      simp only [Option.some.injEq, Prod.mk.injEq] at h
      exact h.2 ▸ WB_propagate b hb
    · rw [if_neg h1] at h
      by_cases h2 : (Board.propagate b).is_consistent = true
      · rw [if_pos h2] at h
        cases hm : (Board.propagate b).min_choice_tile with
        | none => rw [hm] at h; exact Option.noConfusion h
        | some gp =>
          rw [hm] at h
          exact WB_solveLoop (Board.solveAux fuel) gp _
            (fun b3 r2 b4 hb3 hs => WB_solveAux fuel b3 r2 b4 hb3 hs) _ _ r b2
            (WB_propagate b hb) h
      · rw [if_neg h2] at h
        simp only [Option.some.injEq, Prod.mk.injEq] at h
        exact h.2 ▸ WB_propagate b hb

theorem sv_value_eq (t : Tile) (v : Nat) (h : v = UNKNOWN ∨ v ∈ CHOICES) :
    (t.set_value v).value = v := by
  rcases h with h | h
  · rw [h, set_value_of_not_mem t unknown_not_mem_choices]
  · rw [set_value_of_mem t h]

theorem as_list_length (b : Board) : (Board.as_list b).length = b.length :=
  List.length_map _ _

theorem as_list_row_length (b : Board) (hsh : shapeOK b) :
    ∀ row ∈ Board.as_list b, row.length = NCOLS := by
  intro row hrow
  obtain ⟨row0, hrow0, hmap⟩ := List.mem_map.mp hrow
  rw [← hmap, List.length_map]
  exact hsh.2 row0 hrow0

theorem as_list_entries_ok (b : Board) (hsh : shapeOK b) (hv : valuesOK b) :
    ∀ row ∈ Board.as_list b, ∀ v ∈ row, v = UNKNOWN ∨ v ∈ CHOICES := by
  intro row hrow v hvv
  obtain ⟨row0, hrow0, hmap⟩ := List.mem_map.mp hrow
  rw [← hmap] at hvv
  obtain ⟨t, ht, hval⟩ := List.mem_map.mp hvv
  obtain ⟨r, hr, hre⟩ := List.mem_iff_getElem.mp hrow0
  obtain ⟨c, hc, hce⟩ := List.mem_iff_getElem.mp ht
  have hrn : r < NROWS := by rw [← hsh.1]; exact hr
  have hcn : c < NCOLS := by
    have hl := hsh.2 row0 hrow0
    rw [← hl]
    exact hc
  have hg : getTile b r c = t := by
    unfold getTile
    rw [getD_eq_getElem b [] hr, hre, getD_eq_getElem row0 _ hc, hce]
  have hx := hv (r, c) (mem_allPositions hrn hcn)
  rw [hg] at hx
  rw [← hval]
  exact hx

theorem grid_ext (xs ys : List (List Nat)) (hx1 : xs.length = NROWS)
    (hy1 : ys.length = NROWS) (hx2 : ∀ row ∈ xs, row.length = NCOLS)
    (hy2 : ∀ row ∈ ys, row.length = NCOLS)
    (h : ∀ r < NROWS, ∀ c < NCOLS,
      (xs.getD r []).getD c UNKNOWN = (ys.getD r []).getD c UNKNOWN) : xs = ys := by
  apply List.ext_getElem (by rw [hx1, hy1])
  intro r hr1 hr2
  apply List.ext_getElem
    (by rw [hx2 _ (List.getElem_mem hr1), hy2 _ (List.getElem_mem hr2)])
  intro c hc1 hc2
  have hrn : r < NROWS := by rw [← hx1]; exact hr1
  have hcn : c < NCOLS := by rw [← hx2 _ (List.getElem_mem hr1)]; exact hc1
  have hrc := h r hrn c hcn
  rw [getD_eq_getElem xs [] hr1, getD_eq_getElem _ _ hc1,
    getD_eq_getElem ys [] hr2, getD_eq_getElem _ _ hc2] at hrc
  exact hrc

theorem as_list_set_tiles (b : Board) (vals : List (List Nat)) (hsh : shapeOK b)
    (h1 : vals.length = NROWS) (h2 : ∀ row ∈ vals, row.length = NCOLS)
    (h3 : ∀ row ∈ vals, ∀ v ∈ row, v = UNKNOWN ∨ v ∈ CHOICES) :
    Board.as_list (Board.set_tiles b vals) = vals := by
  have hsh2 := set_tiles_shape b vals hsh
  apply grid_ext _ _ (by rw [as_list_length, hsh2.1]) h1
    (as_list_row_length _ hsh2) h2
  intro r hrn c hcn
  rw [as_list_getD _ hsh2 hrn hcn,
    getTile_set_tiles b vals hsh (mem_allPositions hrn hcn)]
  apply sv_value_eq
  have hrv : r < vals.length := by rw [h1]; exact hrn
  have hrow : vals.getD r [] ∈ vals := by
    rw [getD_eq_getElem vals [] hrv]
    exact List.getElem_mem hrv
  have hcv : c < (vals.getD r []).length := by rw [h2 _ hrow]; exact hcn
  apply h3 _ hrow
  rw [getD_eq_getElem _ _ hcv]
  exact List.getElem_mem hcv

theorem solveLoop_false_as_list (srec : Board → Option (Bool × Board)) (gp : Nat × Nat)
    (saved : List (List Nat))
    (hrec : ∀ b2 r b3, WB b2 → srec b2 = some (r, b3) → WB b3)
    (hs1 : saved.length = NROWS) (hs2 : ∀ row ∈ saved, row.length = NCOLS)
    (hs3 : ∀ row ∈ saved, ∀ v ∈ row, v = UNKNOWN ∨ v ∈ CHOICES) :
    ∀ (l : List Nat) (cur : Board) (b3 : Board), WB cur → Board.as_list cur = saved →
      Board.solveLoop srec gp saved l cur = some (false, b3) → Board.as_list b3 = saved
  | [], cur, b3, _, hal, h => by
    rw [solveLoop_nil] at h
    simp only [Option.some.injEq, Prod.mk.injEq] at h
    exact h.2 ▸ hal
  | i :: rest, cur, b3, hc, hal, h => by
    rw [solveLoop_cons] at h
    have hc1 : WB (setTile cur gp.1 gp.2 ((getTile cur gp.1 gp.2).set_value i)) :=
      WB_setTile cur gp.1 gp.2 _ hc (sv_value_ok _ _) (sv_cands_sub _ _)
    cases hs : srec (setTile cur gp.1 gp.2 ((getTile cur gp.1 gp.2).set_value i)) with
    | none => rw [hs] at h; exact Option.noConfusion h
    | some rb =>
      obtain ⟨rr, b2⟩ := rb
      cases rr with
      | true =>
        rw [hs] at h
        simp only [Option.some.injEq, Prod.mk.injEq] at h
        exact absurd h.1 (by simp)
      | false =>
        rw [hs] at h
        have hb2 : WB b2 := hrec _ _ _ hc1 hs
        exact solveLoop_false_as_list srec gp saved hrec hs1 hs2 hs3 rest
          (Board.set_tiles b2 saved) b3 (WB_set_tiles _ _ hb2)
          (as_list_set_tiles b2 saved hb2.1 hs1 hs2 hs3) h

theorem solveAux_false_as_list : ∀ (fuel : Nat) (b b2 : Board), WB b →
    Board.solveAux fuel b = some (false, b2) →
    Board.as_list b2 = Board.as_list (Board.propagate b)
  | 0, _, _, _, h => Option.noConfusion h
  | fuel + 1, b, b2, hb, h => by
    rw [solveAux_succ] at h
    have hwp := WB_propagate b hb
    by_cases h1 : (Board.propagate b).is_complete = true
    · rw [if_pos h1] at h
      simp only [Option.some.injEq, Prod.mk.injEq] at h
      rw [h.2]
    · rw [if_neg h1] at h
      by_cases h2 : (Board.propagate b).is_consistent = true
      · rw [if_pos h2] at h
        cases hm : (Board.propagate b).min_choice_tile with
        | none => rw [hm] at h; exact Option.noConfusion h
        | some gp =>
          rw [hm] at h
          exact solveLoop_false_as_list (Board.solveAux fuel) gp
            (Board.as_list (Board.propagate b))
            (fun b3 r2 b4 hb3 hs => WB_solveAux fuel b3 r2 b4 hb3 hs)
            (by rw [as_list_length, hwp.1.1]) (as_list_row_length _ hwp.1)
            (as_list_entries_ok _ hwp.1 hwp.2.1) _ (Board.propagate b) b2 hwp rfl h
      · rw [if_neg h2] at h
        simp only [Option.some.injEq, Prod.mk.injEq] at h
        rw [h.2]

/-- C1 (amended): a failing `solve` leaves the board holding the values of
the snapshot taken after this call's own `propagate` pass, not the caller's
pre-call state. -/
theorem claim_C1 (b b2 : Board) (fuel : Nat) (hsh : shapeOK b) (hv : valuesOK b)
    (hc : candsOK b) (h : Board.solveAux fuel b = some (false, b2)) :
    Board.as_list b2 = Board.as_list (Board.propagate b) :=
  solveAux_false_as_list fuel b b2 ⟨hsh, hv, hc⟩ h

/-- C9: one `naked_single` or `hidden_single` pass never modifies a tile
whose value is already decided at the start of the pass. -/
theorem claim_C9 (b : Board) (r c : Nat) (h : (getTile b r c).value ≠ UNKNOWN) :
    getTile (Board.naked_single b).1 r c = getTile b r c ∧
    getTile (Board.hidden_single b).1 r c = getTile b r c :=
  ⟨naked_frame b r c h, hidden_frame b r c h⟩


lemma nkA1 : List.foldl nakedGroup (SB0, false) rowGroups = (NKA1, true) := by decide

lemma nkB1 : List.foldl nakedGroup (NKA1, true) colGroups = (NKB1, true) := by decide

lemma nkC1 : List.foldl nakedGroup (NKB1, true) blockGroups = (SB1, true) := by decide

lemma nkRound1 : Board.naked_single SB0 = (SB1, true) := by
  show List.foldl nakedGroup (SB0, false) (rowGroups ++ (colGroups ++ blockGroups)) = _
  rw [List.foldl_append, List.foldl_append, nkA1, nkB1, nkC1]

lemma nkA2 : List.foldl nakedGroup (SB1, false) rowGroups = (NKA2, true) := by decide

lemma nkB2 : List.foldl nakedGroup (NKA2, true) colGroups = (NKB2, true) := by decide

lemma nkC2 : List.foldl nakedGroup (NKB2, true) blockGroups = (SB2, true) := by decide

lemma nkRound2 : Board.naked_single SB1 = (SB2, true) := by
  show List.foldl nakedGroup (SB1, false) (rowGroups ++ (colGroups ++ blockGroups)) = _
  rw [List.foldl_append, List.foldl_append, nkA2, nkB2, nkC2]

lemma nkA3 : List.foldl nakedGroup (SB2, false) rowGroups = (NKA3, true) := by decide

lemma nkB3 : List.foldl nakedGroup (NKA3, true) colGroups = (NKB3, true) := by decide

lemma nkC3 : List.foldl nakedGroup (NKB3, true) blockGroups = (SB3, true) := by decide

lemma nkRound3 : Board.naked_single SB2 = (SB3, true) := by
  show List.foldl nakedGroup (SB2, false) (rowGroups ++ (colGroups ++ blockGroups)) = _
  rw [List.foldl_append, List.foldl_append, nkA3, nkB3, nkC3]

lemma nkA4 : List.foldl nakedGroup (SB3, false) rowGroups = (NKA4, true) := by decide

lemma nkB4 : List.foldl nakedGroup (NKA4, true) colGroups = (NKB4, true) := by decide

lemma nkC4 : List.foldl nakedGroup (NKB4, true) blockGroups = (SB4, true) := by decide

lemma nkRound4 : Board.naked_single SB3 = (SB4, true) := by
  show List.foldl nakedGroup (SB3, false) (rowGroups ++ (colGroups ++ blockGroups)) = _
  rw [List.foldl_append, List.foldl_append, nkA4, nkB4, nkC4]

lemma nkA5 : List.foldl nakedGroup (SB4, false) rowGroups = (NKA5, true) := by decide

lemma nkB5 : List.foldl nakedGroup (NKA5, true) colGroups = (NKB5, true) := by decide

lemma nkC5 : List.foldl nakedGroup (NKB5, true) blockGroups = (SB5, true) := by decide

lemma nkRound5 : Board.naked_single SB4 = (SB5, true) := by
  show List.foldl nakedGroup (SB4, false) (rowGroups ++ (colGroups ++ blockGroups)) = _
  rw [List.foldl_append, List.foldl_append, nkA5, nkB5, nkC5]

lemma nkA6 : List.foldl nakedGroup (SB5, false) rowGroups = (NKA6, true) := by decide

lemma nkB6 : List.foldl nakedGroup (NKA6, true) colGroups = (NKB6, true) := by decide

lemma nkC6 : List.foldl nakedGroup (NKB6, true) blockGroups = (SB6, true) := by decide

lemma nkRound6 : Board.naked_single SB5 = (SB6, true) := by
  show List.foldl nakedGroup (SB5, false) (rowGroups ++ (colGroups ++ blockGroups)) = _
  rw [List.foldl_append, List.foldl_append, nkA6, nkB6, nkC6]

lemma nkA7 : List.foldl nakedGroup (SB6, false) rowGroups = (NKA7, true) := by decide

lemma nkB7 : List.foldl nakedGroup (NKA7, true) colGroups = (NKB7, true) := by decide

lemma nkC7 : List.foldl nakedGroup (NKB7, true) blockGroups = (SB7, true) := by decide

lemma nkRound7 : Board.naked_single SB6 = (SB7, true) := by
  show List.foldl nakedGroup (SB6, false) (rowGroups ++ (colGroups ++ blockGroups)) = _
  rw [List.foldl_append, List.foldl_append, nkA7, nkB7, nkC7]

lemma nkFixA : List.foldl nakedGroup (SB7, false) rowGroups = (SB7, false) := by decide

lemma nkFixB : List.foldl nakedGroup (SB7, false) colGroups = (SB7, false) := by decide

lemma nkFixC : List.foldl nakedGroup (SB7, false) blockGroups = (SB7, false) := by decide

lemma nkFix : Board.naked_single SB7 = (SB7, false) := by
  show List.foldl nakedGroup (SB7, false) (rowGroups ++ (colGroups ++ blockGroups)) = _
  rw [List.foldl_append, List.foldl_append, nkFixA, nkFixB, nkFixC]

lemma hdFixA : List.foldl hiddenGroup (SB7, false) rowGroups = (SB7, false) := by decide

lemma hdFixB : List.foldl hiddenGroup (SB7, false) colGroups = (SB7, false) := by decide

lemma hdFixC : List.foldl hiddenGroup (SB7, false) blockGroups = (SB7, false) := by decide

lemma hdFix : Board.hidden_single SB7 = (SB7, false) := by
  show List.foldl hiddenGroup (SB7, false) (rowGroups ++ (colGroups ++ blockGroups)) = _
  rw [List.foldl_append, List.foldl_append, hdFixA, hdFixB, hdFixC]


lemma b0_lit : Board.init.set_tiles sudokuGrid = SB0 := by decide

lemma mu_SB0 : Board.mu SB0 = 540 := by decide


lemma pStep1 (n : Nat) : Board.propagateAux (n + 1) SB0 = Board.propagateAux n SB1 := by
  simp only [Board.propagateAux, nkRound1]
  exact if_pos trivial

lemma pStep2 (n : Nat) : Board.propagateAux (n + 1) SB1 = Board.propagateAux n SB2 := by
  simp only [Board.propagateAux, nkRound2]
  exact if_pos trivial

lemma pStep3 (n : Nat) : Board.propagateAux (n + 1) SB2 = Board.propagateAux n SB3 := by
  simp only [Board.propagateAux, nkRound3]
  exact if_pos trivial

lemma pStep4 (n : Nat) : Board.propagateAux (n + 1) SB3 = Board.propagateAux n SB4 := by
  simp only [Board.propagateAux, nkRound4]
  exact if_pos trivial

lemma pStep5 (n : Nat) : Board.propagateAux (n + 1) SB4 = Board.propagateAux n SB5 := by
  simp only [Board.propagateAux, nkRound5]
  exact if_pos trivial

lemma pStep6 (n : Nat) : Board.propagateAux (n + 1) SB5 = Board.propagateAux n SB6 := by
  simp only [Board.propagateAux, nkRound6]
  exact if_pos trivial

lemma pStep7 (n : Nat) : Board.propagateAux (n + 1) SB6 = Board.propagateAux n SB7 := by
  simp only [Board.propagateAux, nkRound7]
  exact if_pos trivial

lemma pFix (n : Nat) : Board.propagateAux (n + 1) SB7 = SB7 := by
  simp only [Board.propagateAux, nkFix, hdFix]
  rw [if_neg Bool.false_ne_true, if_neg Bool.false_ne_true]

lemma propagate_SB0 : Board.propagate SB0 = SB7 := by
  show Board.propagateAux (Board.mu SB0 + 1) SB0 = SB7
  rw [mu_SB0, pStep1 540]
  rw [show (540 : Nat) = 539 + 1 from rfl, pStep2 539]
  rw [show (539 : Nat) = 538 + 1 from rfl, pStep3 538]
  rw [show (538 : Nat) = 537 + 1 from rfl, pStep4 537]
  rw [show (537 : Nat) = 536 + 1 from rfl, pStep5 536]
  rw [show (536 : Nat) = 535 + 1 from rfl, pStep6 535]
  rw [show (535 : Nat) = 534 + 1 from rfl, pStep7 534]
  rw [show (534 : Nat) = 533 + 1 from rfl, pFix 533]

lemma cmpl_SB7 : Board.is_complete SB7 = true := by decide

lemma cons_SB7 : Board.is_consistent SB7 = true := by decide

lemma solve_puzzle : Board.solve (Board.init.set_tiles sudokuGrid) = some (true, SB7) := by
  rw [b0_lit]
  show Board.solveAux (Board.mu SB0 + 1) SB0 = some (true, SB7)
  rw [mu_SB0, solveAux_succ]
  simp only [propagate_SB0, cmpl_SB7, cons_SB7, if_true]

lemma latin_SB7 :
    ∀ g ∈ groups, ∀ v ∈ CHOICES,
      (g.filter fun p => decide ((getTile SB7 p.1 p.2).value = v)).length = 1 := by decide

/-- C8: on the spec's solvable 9×9 puzzle, `solve()` returns true and the
resulting grid `SB7` has every row, column and 3×3 block containing each of
the symbols 1..9 exactly once. -/
theorem claim_C8 :
    Board.solve (Board.init.set_tiles sudokuGrid) = some (true, SB7) ∧
    ∀ g ∈ groups, ∀ v ∈ CHOICES,
      (g.filter fun p => decide ((getTile SB7 p.1 p.2).value = v)).length = 1 :=
  ⟨solve_puzzle, latin_SB7⟩

lemma b15_lit : bOne5 = B15L := by decide

lemma n5A : List.foldl nakedGroup (B15L, false) rowGroups = (N5A, true) := by decide

lemma n5B : List.foldl nakedGroup (N5A, true) colGroups = (N5B, true) := by decide

lemma n5C : List.foldl nakedGroup (N5B, true) blockGroups = (BN5, true) := by decide

lemma nkOne5 : Board.naked_single B15L = (BN5, true) := by
  show List.foldl nakedGroup (B15L, false) (rowGroups ++ (colGroups ++ blockGroups)) = _
  rw [List.foldl_append, List.foldl_append, n5A, n5B, n5C]

lemma bc_lit : bcontra = BCL := by decide

lemma bcA : List.foldl nakedGroup (BCL, false) rowGroups = (BCA, true) := by decide

lemma bcB : List.foldl nakedGroup (BCA, true) colGroups = (BCB, true) := by decide

lemma bcC : List.foldl nakedGroup (BCB, true) blockGroups = (BC1, true) := by decide

lemma nkBC : Board.naked_single BCL = (BC1, true) := by
  show List.foldl nakedGroup (BCL, false) (rowGroups ++ (colGroups ++ blockGroups)) = _
  rw [List.foldl_append, List.foldl_append, bcA, bcB, bcC]

lemma bcFixA : List.foldl nakedGroup (BC1, false) rowGroups = (BC1, false) := by decide

lemma bcFixB : List.foldl nakedGroup (BC1, false) colGroups = (BC1, false) := by decide

lemma bcFixC : List.foldl nakedGroup (BC1, false) blockGroups = (BC1, false) := by decide

lemma nkBCFix : Board.naked_single BC1 = (BC1, false) := by
  show List.foldl nakedGroup (BC1, false) (rowGroups ++ (colGroups ++ blockGroups)) = _
  rw [List.foldl_append, List.foldl_append, bcFixA, bcFixB, bcFixC]

lemma bhFixA : List.foldl hiddenGroup (BC1, false) rowGroups = (BC1, false) := by decide

lemma bhFixB : List.foldl hiddenGroup (BC1, false) colGroups = (BC1, false) := by decide

lemma bhFixC : List.foldl hiddenGroup (BC1, false) blockGroups = (BC1, false) := by decide

lemma hdBCFix : Board.hidden_single BC1 = (BC1, false) := by
  show List.foldl hiddenGroup (BC1, false) (rowGroups ++ (colGroups ++ blockGroups)) = _
  rw [List.foldl_append, List.foldl_append, bhFixA, bhFixB, bhFixC]

lemma mu_BCL : Board.mu BCL = 792 := by decide

lemma pStepBC (n : Nat) : Board.propagateAux (n + 1) BCL = Board.propagateAux n BC1 := by
  simp only [Board.propagateAux, nkBC]
  exact if_pos trivial

lemma pFixBC (n : Nat) : Board.propagateAux (n + 1) BC1 = BC1 := by
  simp only [Board.propagateAux, nkBCFix, hdBCFix]
  rw [if_neg Bool.false_ne_true, if_neg Bool.false_ne_true]

lemma propagate_BCL : Board.propagate BCL = BC1 := by
  show Board.propagateAux (Board.mu BCL + 1) BCL = BC1
  rw [mu_BCL, pStepBC 792]
  rw [show (792 : Nat) = 791 + 1 from rfl, pFixBC 791]

lemma cmpl_BC1 : Board.is_complete BC1 = false := by decide

lemma cons_BC1 : Board.is_consistent BC1 = false := by decide

lemma solveAux2_bcontra : Board.solveAux 2 bcontra = some (false, BC1) := by
  rw [bc_lit, show (2 : Nat) = 1 + 1 from rfl, solveAux_succ]
  simp only [propagate_BCL, cmpl_BC1, cons_BC1]
  rw [if_neg Bool.false_ne_true, if_neg Bool.false_ne_true]

/-- C1 counterexample: `solve` on the contradictory board `bcontra` returns
false, yet the board it leaves behind (`BC1`) differs from the board it was
given — the candidate pruning done by its `propagate` pass is not undone. -/
theorem claim_C1_cex :
    Board.solveAux 2 bcontra = some (false, BC1) ∧ BC1 ≠ bcontra := by
  refine ⟨solveAux2_bcontra, ?_⟩
  rw [bc_lit]
  decide

/-- C1 witness: the amended statement instantiated on `bcontra`. -/
theorem claim_C1_witness :
    Board.as_list BC1 = Board.as_list (Board.propagate bcontra) :=
  claim_C1 bcontra BC1 2 (by decide) (by decide) (by decide) solveAux2_bcontra

/-- C2 counterexample: `37` is neither `UNKNOWN` nor an alphabet symbol, yet
`set_value 37` does not reject it: it overwrites the tile (and `set_tiles` on
a grid containing `37` overwrites the board) as if the entry were
`UNKNOWN`. -/
theorem claim_C2_cex :
    (37 : Nat) ≠ UNKNOWN ∧ (37 : Nat) ∉ CHOICES ∧
    (Tile.init 0 0 5).set_value 37 ≠ Tile.init 0 0 5 ∧
    ((Tile.init 0 0 5).set_value 37).value = UNKNOWN ∧
    getTile ((Board.init.set_tiles gridOne5).set_tiles gridBad) 0 0 ≠
      getTile (Board.init.set_tiles gridOne5) 0 0 := by decide

/-- C2 witness: the amended statement instantiated on a decided tile and the
out-of-alphabet value `37`. -/
theorem claim_C2_witness :
    (Tile.init 0 0 5).set_value 37 =
      { Tile.init 0 0 5 with value := UNKNOWN, candidates := CHOICES } :=
  claim_C2 (Tile.init 0 0 5) 37 (by decide) (by decide)

/-- C3 counterexample: on the reachable board `BN5` (one `naked_single` pass
after loading a single clue) the round trip `set_tiles (as_list b)` is not
the identity — pruned candidate sets are reset to the full alphabet. -/
theorem claim_C3_cex :
    Board.naked_single bOne5 = (BN5, true) ∧
    Board.set_tiles BN5 (Board.as_list BN5) ≠ BN5 := by
  refine ⟨?_, by decide⟩
  rw [b15_lit]
  exact nkOne5

/-- C3 witness: the amended statement instantiated on the freshly loaded
board `bOne5`. -/
theorem claim_C3_witness :
    Board.as_list (Board.set_tiles bOne5 (Board.as_list bOne5)) = Board.as_list bOne5 ∧
    (Board.set_tiles bOne5 (Board.as_list bOne5) = bOne5 ↔
      ∀ p ∈ allPositions,
        Tile.set_value (getTile bOne5 p.1 p.2) (getTile bOne5 p.1 p.2).value =
          getTile bOne5 p.1 p.2) :=
  claim_C3 bOne5 (by decide) (by decide)

/-- C4 witness: idempotence of `propagate` instantiated on the fresh
board. -/
theorem claim_C4_witness :
    Board.propagate (Board.propagate Board.init) = Board.propagate Board.init ∧
    Board.naked_single (Board.propagate Board.init) = (Board.propagate Board.init, false) ∧
    Board.hidden_single (Board.propagate Board.init) = (Board.propagate Board.init, false) :=
  claim_C4 Board.init (by decide) (by decide)

/-- C5 witness: the `min_choice_tile` specification instantiated on the
fresh board (every tile `UNKNOWN`). -/
theorem claim_C5_witness :
    ∃ p, Board.min_choice_tile Board.init = some p ∧ p ∈ allPositions ∧
      (getTile Board.init p.1 p.2).value = UNKNOWN ∧
      (∀ q ∈ allPositions, (getTile Board.init q.1 q.2).value = UNKNOWN →
        (getTile Board.init p.1 p.2).candidates.card ≤
          (getTile Board.init q.1 q.2).candidates.card) ∧
      ∃ l1 l2, allPositions = l1 ++ p :: l2 ∧
        ∀ q ∈ l1, (getTile Board.init q.1 q.2).value = UNKNOWN →
          (getTile Board.init p.1 p.2).candidates.card <
            (getTile Board.init q.1 q.2).candidates.card :=
  (claim_C5 Board.init).2 (by decide)

/-- C6 witness: the `remove_candidate` contract instantiated on a fresh
`UNKNOWN` tile and the removal set `{1}`. -/
theorem claim_C6_witness :
    (((Tile.init 0 0 UNKNOWN).remove_candidate {1}).2 = true ↔
      ∃ x ∈ (Tile.init 0 0 UNKNOWN).candidates, x ∈ ({1} : Finset Nat)) ∧
    (((Tile.init 0 0 UNKNOWN).remove_candidate {1}).2 = false →
      (Tile.init 0 0 UNKNOWN).remove_candidate {1} = (Tile.init 0 0 UNKNOWN, false)) ∧
    ((Tile.init 0 0 UNKNOWN).candidates.card = 1 →
      (∀ x ∈ (Tile.init 0 0 UNKNOWN).candidates, x ∉ ({1} : Finset Nat)) →
      (Tile.init 0 0 UNKNOWN).remove_candidate {1} = (Tile.init 0 0 UNKNOWN, false)) ∧
    ((∃ x ∈ (Tile.init 0 0 UNKNOWN).candidates, x ∈ ({1} : Finset Nat)) →
      ((Tile.init 0 0 UNKNOWN).candidates \ {1}).card = 1 →
      ∃ v, (Tile.init 0 0 UNKNOWN).candidates \ {1} = {v} ∧
        ((Tile.init 0 0 UNKNOWN).remove_candidate {1}).1.value = v ∧
        ((Tile.init 0 0 UNKNOWN).remove_candidate {1}).1.candidates = {v}) :=
  claim_C6 (Tile.init 0 0 UNKNOWN) {1} (by decide)

/-- C7 counterexample: a sequence of the listed tile operations — `set_value
5` then `remove_candidate {5}` on the same tile — breaks the invariant: the
tile keeps value `5` but its candidate set becomes empty. -/
theorem claim_C7_cex : BoardInv c7b1 ∧ ¬ BoardInv c7b2 := by
  constructor
  · decide
  · decide

/-- C7 witness: the amended preservation statement applied to the one-step
sequence `naked_single` from the fresh board. -/
theorem claim_C7_witness : BoardInv (Board.naked_single Board.init).1 :=
  claim_C7 Board.init (Board.naked_single Board.init).1
    (BoardReaches.tail Board.init Board.init (Board.naked_single Board.init).1
      (BoardReaches.refl Board.init) (BoardStep.naked_single Board.init))
    (by decide)

/-- C9 witness: the frame property instantiated at the decided tile `(0, 0)`
of `bOne5`. -/
theorem claim_C9_witness :
    getTile (Board.naked_single bOne5).1 0 0 = getTile bOne5 0 0 ∧
    getTile (Board.hidden_single bOne5).1 0 0 = getTile bOne5 0 0 :=
  claim_C9 bOne5 0 0 (by decide)

/-- C10 counterexample: an `UNKNOWN` tile whose (empty) candidate set is
contained in the removal set, on which `remove_candidate` returns false, not
true. -/
theorem claim_C10_cex :
    emptyCandTile.value = UNKNOWN ∧ emptyCandTile.candidates ⊆ CHOICES ∧
    (emptyCandTile.remove_candidate CHOICES).2 = false := by decide

/-- C10 witness: the amended statement instantiated on a fresh `UNKNOWN`
tile and the removal set `CHOICES`. -/
theorem claim_C10_witness :
    ((Tile.init 0 0 UNKNOWN).remove_candidate CHOICES).2 = true ∧
    ((Tile.init 0 0 UNKNOWN).remove_candidate CHOICES).1.value = UNKNOWN ∧
    ((Tile.init 0 0 UNKNOWN).remove_candidate CHOICES).1.candidates = ∅ :=
  claim_C10 (Tile.init 0 0 UNKNOWN) CHOICES (by decide) (by decide) (by decide)
